import Mathlib

/-! Seat inventory service: catalog store, lock store and coordinator flows.

A shallow embedding of `services/inventory`:

* `internal/models/models.go`        : `Seat`, `Reservation`, `Booking`, `NewReservation`, `IsExpired`
* `internal/repository/dynamodb.go`  : the catalog store (`DynamoDBRepository.*`)
* `internal/repository/redis.go`     : the lock store (`RedisRepository.*`)
* `internal/service/inventory.go`    : the coordinator flows (`InventoryService.*`)

Modelling conventions.

* A DynamoDB table is a function from its primary key to an optional row.  A seat row keeps
  `user_id` and `reserved_at` as optional attributes, because the update expressions `REMOVE`
  them and the condition expressions distinguish an absent attribute from an empty one.
* Go `int` / `int64` values are integers in the range `minInt64 .. maxInt64`; arithmetic done by
  the Go code wraps around (`wrapInt64`), arithmetic done by DynamoDB (`#version + :inc`) is exact.
  Clock readings are those of `time.Now()`, far from the ends of the `int64` range.
* `float64` prices are only ever copied, never computed on; a price is carried as its bit pattern.
* `time.Now()` (Unix seconds, and the nanosecond within the second where it matters) and
  `uuid.New().String()` are inputs of the operation that reads them.
* A client call may fail for infrastructure reasons; this is an explicit `fault` flag of the call.
  A faulted call returns the client error and leaves the store untouched.
* `BatchWriteItem` may return without error and leave some of its put requests unprocessed;
  which ones is an input of the call.
* Go `error` values are the inductive `Error`; `fmt.Errorf("...: %w", err)` is `Error.wrapf`.
-/

namespace Ticketing

/-! ## Go integers -/

/-- The least value of Go `int` and `int64` on a 64-bit platform. -/
def minInt64 : Int := -9223372036854775808

/-- The greatest value of Go `int` and `int64` on a 64-bit platform. -/
def maxInt64 : Int := 9223372036854775807

/-- The `int64` that Go arithmetic yields where the exact result is `x`: two's-complement
wrap-around. -/
def wrapInt64 (x : Int) : Int :=
  (x + 9223372036854775808) % 18446744073709551616 - 9223372036854775808

/-- `time.Duration(n) * unit` for a unit of `unitNanos` nanoseconds (`time.Second`,
`time.Minute`): a count of nanoseconds held in an `int64`. -/
def durationOf (n unitNanos : Int) : Int :=
  wrapInt64 (n * unitNanos)

/-- `t.Add(d).Unix()` for a clock reading `t` of `sec` Unix seconds and `nsec` nanoseconds:
`Time.Add` splits `d` by truncating division into seconds and nanoseconds and carries the
nanoseconds into the seconds. -/
def addDurationUnix (sec nsec d : Int) : Int :=
  let dsec := Int.tdiv d 1000000000
  let n := nsec + Int.tmod d 1000000000
  if n ≥ 1000000000 then sec + (dsec + 1)
  else if n < 0 then sec + (dsec - 1)
  else sec + dsec

/-! ## models.go -/

/-- The three seat statuses of `models.SeatStatus`. -/
inductive SeatStatus where
  | AVAILABLE
  | RESERVED
  | BOOKED
deriving DecidableEq, Repr

/-- Bit pattern of a `float64` (prices are copied, never computed on). -/
abbrev Float64 := Nat

/-- A row of the seats table, keyed by `(event_id, seat_number)`. -/
structure Seat where
  EventID : String
  SeatNumber : String
  Status : SeatStatus
  UserID : Option String
  Price : Float64
  ReservedAt : Option Int
  Version : Int
  CreatedAt : Int
  UpdatedAt : Int
deriving DecidableEq, Repr

/-- A row of the reservations table, keyed by `reservation_id`. -/
structure Reservation where
  ReservationID : String
  EventID : String
  SeatNumber : String
  UserID : String
  Price : Float64
  CreatedAt : Int
  ExpiresAt : Int
  Status : String
deriving DecidableEq, Repr

/-- A row of the bookings table, keyed by `booking_id`. -/
structure Booking where
  BookingID : String
  EventID : String
  SeatNumber : String
  UserID : String
  Price : Float64
  PaymentID : String
  CreatedAt : Int
  Status : String
deriving DecidableEq, Repr

/-- `models.NewReservation`, called at Unix second `now`, nanosecond `nsec`: a PENDING
reservation with `ExpiresAt: now.Add(time.Duration(ttlMinutes) * time.Minute).Unix()`. -/
def NewReservation (now nsec : Int) (reservationID eventID seatNumber userID : String)
    (price : Float64) (ttlMinutes : Int) : Reservation :=
  { ReservationID := reservationID
    EventID := eventID
    SeatNumber := seatNumber
    UserID := userID
    Price := price
    CreatedAt := now
    ExpiresAt := addDurationUnix now nsec (durationOf ttlMinutes 60000000000)
    Status := "PENDING" }

/-- `Reservation.IsExpired`: `time.Now().Unix() > r.ExpiresAt`. -/
def Reservation.IsExpired (r : Reservation) (now : Int) : Bool :=
  decide (now > r.ExpiresAt)

/-! ## Errors -/

/-- Go error values produced by the repositories and the service: the sentinel errors of the
repositories, the DynamoDB conditional-check exception, the error of a client call that fails
for infrastructure reasons (`clientFault`), the error of `attributevalue.UnmarshalMap`, the
Redis error reply to an expire time that is not positive, and the errors built with
`errors.New` / `fmt.Errorf`. -/
inductive Error where
  | ErrSeatNotFound
  | ErrSeatAlreadyReserved
  | ErrVersionMismatch
  | ErrReservationNotFound
  | ErrLockAlreadyHeld
  | ErrLockNotHeld
  | ConditionalCheckFailedException
  | clientFault
  | unmarshalError
  | invalidExpireTime
  | errorf (msg : String)
  | wrapf (msg : String) (inner : Error)
deriving DecidableEq, Repr

/-- `errors.Is`: the target occurs somewhere along the `%w` chain. -/
def Error.Is : Error → Error → Bool
  | .wrapf msg inner, target =>
      decide (Error.wrapf msg inner = target) || Error.Is inner target
  | err, target => decide (err = target)

/-! ## The catalog store (dynamodb.go) -/

/-- The three DynamoDB tables. -/
structure DynamoDB where
  seats : String × String → Option Seat
  reservations : String → Option Reservation
  bookings : String → Option Booking

/-- A store with no rows. -/
def DynamoDB.empty : DynamoDB :=
  { seats := fun _ => none, reservations := fun _ => none, bookings := fun _ => none }

/-- `PutItem` / a put request on the seats table: the row replaces any row with the same key. -/
def DynamoDB.putSeat (db : DynamoDB) (row : Seat) : DynamoDB :=
  { db with seats := fun k => if k = (row.EventID, row.SeatNumber) then some row else db.seats k }

/-- `UpdateItem` on the seats table with a condition expression over the row's attributes.
A missing row has no attributes, so a condition comparing attributes fails on it. -/
def DynamoDB.UpdateItemSeat (db : DynamoDB) (fault : Bool) (key : String × String)
    (condition : Seat → Bool) (update : Seat → Seat) : DynamoDB × Option Error :=
  if fault then (db, some Error.clientFault)
  else
    match db.seats key with
    | none => (db, some Error.ConditionalCheckFailedException)
    | some row =>
      if condition row then
        ({ db with seats := fun k => if k = key then some (update row) else db.seats k }, none)
      else (db, some Error.ConditionalCheckFailedException)

/-- `DynamoDBRepository.GetSeat`.  `attributevalue.UnmarshalMap` fails on a `version` number
that does not fit the Go `int` field. -/
def DynamoDBRepository.GetSeat (db : DynamoDB) (fault : Bool) (eventID seatNumber : String) :
    Except Error Seat :=
  if fault then .error (.wrapf "failed to get seat" .clientFault)
  else
    match db.seats (eventID, seatNumber) with
    | none => .error .ErrSeatNotFound
    | some seat =>
      if minInt64 ≤ seat.Version ∧ seat.Version ≤ maxInt64 then .ok seat
      else .error (.wrapf "failed to unmarshal seat" .unmarshalError)

/-- `DynamoDBRepository.ReserveSeat`: conditional write
`#status = :available AND #version = :current_version`.  The new version is the Go `int`
`currentVersion+1`, computed before the call. -/
def DynamoDBRepository.ReserveSeat (db : DynamoDB) (fault : Bool) (now : Int)
    (eventID seatNumber userID : String) (currentVersion : Int) : DynamoDB × Option Error :=
  match db.UpdateItemSeat fault (eventID, seatNumber)
      (fun row => decide (row.Status = .AVAILABLE) && decide (row.Version = currentVersion))
      (fun row => { row with
        Status := .RESERVED
        UserID := some userID
        ReservedAt := some now
        Version := wrapInt64 (currentVersion + 1)
        UpdatedAt := now }) with
  | (db1, none) => (db1, none)
  | (db1, some err) =>
    if err = .ConditionalCheckFailedException then (db1, some .ErrSeatAlreadyReserved)
    else (db1, some (.wrapf "failed to reserve seat" err))

/-- `DynamoDBRepository.ReleaseSeat`: conditional write
`#status = :reserved AND user_id = :user_id`, removing `user_id` and `reserved_at`. -/
def DynamoDBRepository.ReleaseSeat (db : DynamoDB) (fault : Bool) (now : Int)
    (eventID seatNumber userID : String) : DynamoDB × Option Error :=
  match db.UpdateItemSeat fault (eventID, seatNumber)
      (fun row => decide (row.Status = .RESERVED) && decide (row.UserID = some userID))
      (fun row => { row with
        Status := .AVAILABLE
        Version := row.Version + 1
        UpdatedAt := now
        UserID := none
        ReservedAt := none }) with
  | (db1, none) => (db1, none)
  | (db1, some err) =>
    if err = .ConditionalCheckFailedException then (db1, some .ErrVersionMismatch)
    else (db1, some (.wrapf "failed to release seat" err))

/-- `DynamoDBRepository.ConfirmSeat`: conditional write
`#status = :reserved AND user_id = :user_id`; every client error is wrapped alike. -/
def DynamoDBRepository.ConfirmSeat (db : DynamoDB) (fault : Bool) (now : Int)
    (eventID seatNumber userID : String) : DynamoDB × Option Error :=
  match db.UpdateItemSeat fault (eventID, seatNumber)
      (fun row => decide (row.Status = .RESERVED) && decide (row.UserID = some userID))
      (fun row => { row with
        Status := .BOOKED
        Version := row.Version + 1
        UpdatedAt := now }) with
  | (db1, none) => (db1, none)
  | (db1, some err) => (db1, some (.wrapf "failed to confirm seat" err))

/-- `DynamoDBRepository.CreateReservation`: unconditional `PutItem`. -/
def DynamoDBRepository.CreateReservation (db : DynamoDB) (fault : Bool)
    (reservation : Reservation) : DynamoDB × Option Error :=
  if fault then (db, some (.wrapf "failed to create reservation" .clientFault))
  else
    ({ db with reservations := fun k =>
        if k = reservation.ReservationID then some reservation else db.reservations k }, none)

/-- `DynamoDBRepository.GetReservation`. -/
def DynamoDBRepository.GetReservation (db : DynamoDB) (fault : Bool) (reservationID : String) :
    Except Error Reservation :=
  if fault then .error (.wrapf "failed to get reservation" .clientFault)
  else
    match db.reservations reservationID with
    | none => .error .ErrReservationNotFound
    | some reservation => .ok reservation

/-- `DynamoDBRepository.UpdateReservationStatus`: `UpdateItem` with `SET #status = :status` and
no condition.  On a missing key DynamoDB creates an item holding only the key and the status;
read back into the Go struct its other fields are zero values. -/
def DynamoDBRepository.UpdateReservationStatus (db : DynamoDB) (fault : Bool)
    (reservationID status : String) : DynamoDB × Option Error :=
  if fault then (db, some (.wrapf "failed to update reservation status" .clientFault))
  else
    let row : Reservation :=
      match db.reservations reservationID with
      | some reservation => { reservation with Status := status }
      | none =>
        { ReservationID := reservationID, EventID := "", SeatNumber := "", UserID := "",
          Price := 0, CreatedAt := 0, ExpiresAt := 0, Status := status }
    ({ db with reservations := fun k => if k = reservationID then some row else db.reservations k },
      none)

/-- `DynamoDBRepository.CreateBooking`: builds a CONFIRMED booking from the reservation and puts
it under a fresh `bookingID`. -/
def DynamoDBRepository.CreateBooking (db : DynamoDB) (fault : Bool) (now : Int)
    (bookingID : String) (reservation : Reservation) (paymentID : String) :
    DynamoDB × Except Error String :=
  let booking : Booking :=
    { BookingID := bookingID
      EventID := reservation.EventID
      SeatNumber := reservation.SeatNumber
      UserID := reservation.UserID
      Price := reservation.Price
      PaymentID := paymentID
      CreatedAt := now
      Status := "CONFIRMED" }
  if fault then (db, .error (.wrapf "failed to create booking" .clientFault))
  else
    ({ db with bookings := fun k => if k = bookingID then some booking else db.bookings k },
      .ok bookingID)

/-- Decimal digits of a natural number, most significant first (`%d`). -/
def decimal (n : Nat) : List Char :=
  Nat.toDigits 10 n

/-- `fmt.Sprintf("S-%04d", n)` for a non-negative `n`: zero-padded to at least four digits. -/
def seatNumberOf (n : Nat) : String :=
  let digits := decimal n
  String.mk (['S', '-'] ++ List.replicate (4 - digits.length) '0' ++ digits)

/-- The seat row written by `InitializeSeats` for loop index `j`. -/
def initialSeat (now : Int) (eventID : String) (price : Float64) (j : Nat) : Seat :=
  { EventID := eventID
    SeatNumber := seatNumberOf (j + 1)
    Status := .AVAILABLE
    UserID := none
    Price := price
    ReservedAt := none
    Version := 0
    CreatedAt := now
    UpdatedAt := now }

/-- `BatchWriteItem` of put requests on the seats table, returning without error: the requests
the store leaves unprocessed are handed back in the output's `UnprocessedItems`, the others
are put. -/
def DynamoDB.BatchWriteItem (db : DynamoDB) (unprocessed : Seat → Bool)
    (writeRequests : List Seat) : DynamoDB × List Seat :=
  ((writeRequests.filter (fun row => !unprocessed row)).foldl DynamoDB.putSeat db,
    writeRequests.filter unprocessed)

/-- The outer loop of `InitializeSeats`: `for i := 0; i < totalSeats; i += batchSize`, with the
batch number `i / 25` selecting whether that `BatchWriteItem` call faults and which of its
requests it leaves unprocessed.  The output of the call is discarded and `created` grows by
`len(writeRequests)`.  The first argument bounds the number of iterations.  The index
arithmetic `i + batchSize` is exact for `totalSeats ≤ maxInt64 - 25`. -/
def InitializeSeats.loop (batchFault : Nat → Bool) (unprocessed : Nat → Seat → Bool)
    (now : Int) (eventID : String) (totalSeats : Int) (price : Float64) :
    Nat → Nat → Int → DynamoDB → DynamoDB × Int × Option Error
  | 0, _, created, db => (db, created, none)
  | fuel + 1, i, created, db =>
    if (i : Int) < totalSeats then
      let stop : Nat := if ((i + 25 : Nat) : Int) > totalSeats then totalSeats.toNat else i + 25
      let writeRequests := (List.range' i (stop - i)).map (initialSeat now eventID price)
      if batchFault (i / 25) then
        (db, created, some (.wrapf "failed to batch write seats" .clientFault))
      else
        InitializeSeats.loop batchFault unprocessed now eventID totalSeats price fuel (i + 25)
          (created + writeRequests.length)
          (db.BatchWriteItem (unprocessed (i / 25)) writeRequests).1
    else (db, created, none)

/-- `DynamoDBRepository.InitializeSeats`: batches of 25 put requests; returns the number of
seats created.  `totalSeats` iterations always suffice, as each one advances `i` by 25. -/
def DynamoDBRepository.InitializeSeats (db : DynamoDB) (batchFault : Nat → Bool)
    (unprocessed : Nat → Seat → Bool) (now : Int) (eventID : String) (totalSeats : Int)
    (price : Float64) : DynamoDB × Int × Option Error :=
  InitializeSeats.loop batchFault unprocessed now eventID totalSeats price totalSeats.toNat 0 0 db

/-! ## The lock store (redis.go) -/

/-- A Redis string key holding a lock token, with the `RedisLockTTL` it was set under. -/
structure LockEntry where
  token : String
  ttl : Int
deriving DecidableEq, Repr

/-- The Redis keyspace. -/
structure Redis where
  keys : String → Option LockEntry

/-- A keyspace with no keys. -/
def Redis.empty : Redis := { keys := fun _ => none }

/-- Key expiry: Redis drops the key once its time to live has elapsed. -/
def Redis.expire (r : Redis) (key : String) : Redis :=
  { keys := fun k => if k = key then none else r.keys k }

/-- `RedisRepository.getLockKey`. -/
def getLockKey (eventID seatNumber : String) : String :=
  "lock:seat:" ++ eventID ++ ":" ++ seatNumber

/-- `RedisRepository.AcquireLock`: `SetNX(key, token, ttl)` with
`ttl := time.Duration(cfg.RedisLockTTL) * time.Second`.  A negative `ttl` is sent as a negative
(or zero) expire time, which Redis rejects with an error reply whatever the key holds. -/
def RedisRepository.AcquireLock (r : Redis) (fault : Bool) (lockTTL : Int) (lockToken : String)
    (eventID seatNumber : String) : Redis × Except Error String :=
  let lockKey := getLockKey eventID seatNumber
  if fault then (r, .error (.wrapf "failed to acquire lock" .clientFault))
  else if durationOf lockTTL 1000000000 < 0 then
    (r, .error (.wrapf "failed to acquire lock" .invalidExpireTime))
  else
    match r.keys lockKey with
    | some _ => (r, .error .ErrLockAlreadyHeld)
    | none =>
      ({ keys := fun k => if k = lockKey then some { token := lockToken, ttl := lockTTL }
                          else r.keys k }, .ok lockToken)

/-- `RedisRepository.ReleaseLock`: the compare-and-delete script. -/
def RedisRepository.ReleaseLock (r : Redis) (fault : Bool) (eventID seatNumber lockToken : String) :
    Redis × Option Error :=
  let lockKey := getLockKey eventID seatNumber
  if fault then (r, some (.wrapf "failed to release lock" .clientFault))
  else
    match r.keys lockKey with
    | some entry =>
      if entry.token = lockToken then
        ({ keys := fun k => if k = lockKey then none else r.keys k }, none)
      else (r, some .ErrLockNotHeld)
    | none => (r, some .ErrLockNotHeld)

/-- `RedisRepository.CheckLock`. -/
def RedisRepository.CheckLock (r : Redis) (fault : Bool) (eventID seatNumber lockToken : String) :
    Except Error Bool :=
  if fault then .error (.wrapf "failed to check lock" .clientFault)
  else
    match r.keys (getLockKey eventID seatNumber) with
    | none => .ok false
    | some entry => .ok (decide (entry.token = lockToken))

/-! ## The coordinator (inventory.go) -/

/-- The configuration values the flows read. -/
structure Config where
  RedisLockTTL : Int
  ReservationTTLMinutes : Int
  ReservationCleanupIntervalSec : Int

/-- Which client calls of one flow fail for infrastructure reasons. -/
structure Faults where
  AcquireLock : Bool
  ReleaseLock : Bool
  GetSeat : Bool
  ReserveSeat : Bool
  CreateReservation : Bool
  ReleaseSeat : Bool
  GetReservation : Bool
  ConfirmSeat : Bool
  CreateBooking : Bool
  UpdateReservationStatus : Bool

/-- No client call fails. -/
def Faults.none : Faults :=
  { AcquireLock := false, ReleaseLock := false, GetSeat := false, ReserveSeat := false,
    CreateReservation := false, ReleaseSeat := false, GetReservation := false,
    ConfirmSeat := false, CreateBooking := false, UpdateReservationStatus := false }

/-- What one run of a flow reads from outside: the clock (Unix second `now`, nanosecond `nsec`
within it), the two identifiers it draws with `uuid.New()` (lock token, then reservation or
booking id) and the faults of its client calls. -/
structure Env where
  now : Int
  nsec : Int
  lockToken : String
  newID : String
  faults : Faults

/-- The two stores the service works on. -/
structure World where
  db : DynamoDB
  redis : Redis

/-- Steps 2 to 4 of `InventoryService.ReserveSeat`, run while the lock is held. -/
def InventoryService.ReserveSeat.body (cfg : Config) (env : Env) (db : DynamoDB)
    (eventID seatNumber userID : String) : DynamoDB × Except Error String :=
  match DynamoDBRepository.GetSeat db env.faults.GetSeat eventID seatNumber with
  | .error err => (db, .error (.wrapf "failed to get seat" err))
  | .ok seat =>
    if seat.Status ≠ .AVAILABLE then (db, .error .ErrSeatAlreadyReserved)
    else
      match DynamoDBRepository.ReserveSeat db env.faults.ReserveSeat env.now
          eventID seatNumber userID seat.Version with
      | (db1, some err) => (db1, .error (.wrapf "failed to reserve seat in dynamodb" err))
      | (db1, none) =>
        let reservationID := env.newID
        let reservation := NewReservation env.now env.nsec reservationID eventID seatNumber userID
          seat.Price cfg.ReservationTTLMinutes
        match DynamoDBRepository.CreateReservation db1 env.faults.CreateReservation reservation with
        | (db2, some err) =>
          let rollback := DynamoDBRepository.ReleaseSeat db2 env.faults.ReleaseSeat env.now
            eventID seatNumber userID
          (rollback.1, .error (.wrapf "failed to create reservation" err))
        | (db2, none) => (db2, .ok reservationID)

/-- `InventoryService.ReserveSeat`: acquire the lock, run the body, and release the lock on exit
(the deferred `ReleaseLock`, whose error is only logged). -/
def InventoryService.ReserveSeat (cfg : Config) (env : Env) (w : World)
    (eventID seatNumber userID : String) : World × Except Error String :=
  match RedisRepository.AcquireLock w.redis env.faults.AcquireLock cfg.RedisLockTTL env.lockToken
      eventID seatNumber with
  | (redis1, .error err) =>
    ({ w with redis := redis1 }, .error (.wrapf "failed to acquire lock" err))
  | (redis1, .ok lockToken) =>
    let out := InventoryService.ReserveSeat.body cfg env w.db eventID seatNumber userID
    let released := RedisRepository.ReleaseLock redis1 env.faults.ReleaseLock
      eventID seatNumber lockToken
    ({ db := out.1, redis := released.1 }, out.2)

/-- `InventoryService.ReleaseSeat`. -/
def InventoryService.ReleaseSeat (cfg : Config) (env : Env) (w : World)
    (eventID seatNumber userID : String) : World × Option Error :=
  match RedisRepository.AcquireLock w.redis env.faults.AcquireLock cfg.RedisLockTTL env.lockToken
      eventID seatNumber with
  | (redis1, .error err) =>
    ({ w with redis := redis1 }, some (.wrapf "failed to acquire lock" err))
  | (redis1, .ok lockToken) =>
    let out : DynamoDB × Option Error :=
      match DynamoDBRepository.ReleaseSeat w.db env.faults.ReleaseSeat env.now
          eventID seatNumber userID with
      | (db1, some err) => (db1, some (.wrapf "failed to release seat" err))
      | (db1, none) => (db1, none)
    let released := RedisRepository.ReleaseLock redis1 env.faults.ReleaseLock
      eventID seatNumber lockToken
    ({ db := out.1, redis := released.1 }, out.2)

/-- The part of `InventoryService.ConfirmBooking` run while the lock is held. -/
def InventoryService.ConfirmBooking.body (env : Env) (db : DynamoDB)
    (reservation : Reservation) (reservationID userID paymentID : String) :
    DynamoDB × Except Error String :=
  match DynamoDBRepository.ConfirmSeat db env.faults.ConfirmSeat env.now
      reservation.EventID reservation.SeatNumber userID with
  | (db1, some err) => (db1, .error (.wrapf "failed to confirm seat" err))
  | (db1, none) =>
    match DynamoDBRepository.CreateBooking db1 env.faults.CreateBooking env.now env.newID
        reservation paymentID with
    | (db2, .error err) => (db2, .error (.wrapf "failed to create booking" err))
    | (db2, .ok bookingID) =>
      let updated := DynamoDBRepository.UpdateReservationStatus db2
        env.faults.UpdateReservationStatus reservationID "CONFIRMED"
      (updated.1, .ok bookingID)

/-- `InventoryService.ConfirmBooking`. -/
def InventoryService.ConfirmBooking (cfg : Config) (env : Env) (w : World)
    (reservationID userID paymentID : String) : World × Except Error String :=
  match DynamoDBRepository.GetReservation w.db env.faults.GetReservation reservationID with
  | .error err => (w, .error (.wrapf "failed to get reservation" err))
  | .ok reservation =>
    if reservation.IsExpired env.now then (w, .error (.errorf "reservation has expired"))
    else if reservation.UserID ≠ userID then
      (w, .error (.errorf "reservation does not belong to user"))
    else
      match RedisRepository.AcquireLock w.redis env.faults.AcquireLock cfg.RedisLockTTL
          env.lockToken reservation.EventID reservation.SeatNumber with
      | (redis1, .error err) =>
        ({ w with redis := redis1 }, .error (.wrapf "failed to acquire lock" err))
      | (redis1, .ok lockToken) =>
        let out := InventoryService.ConfirmBooking.body env w.db reservation
          reservationID userID paymentID
        let released := RedisRepository.ReleaseLock redis1 env.faults.ReleaseLock
          reservation.EventID reservation.SeatNumber lockToken
        ({ db := out.1, redis := released.1 }, out.2)

/-- `InventoryService.InitializeSeats`. -/
def InventoryService.InitializeSeats (w : World) (batchFault : Nat → Bool)
    (unprocessed : Nat → Seat → Bool) (now : Int) (eventID : String) (totalSeats : Int)
    (price : Float64) : World × Int × Option Error :=
  let out := DynamoDBRepository.InitializeSeats w.db batchFault unprocessed now eventID
    totalSeats price
  ({ w with db := out.1 }, out.2)

/-- One tick of `InventoryService.CleanupExpiredReservations`: the `ticker.C` branch only logs
("TODO: Implement cleanup logic"), so neither store is touched. -/
def InventoryService.CleanupExpiredReservations.tick (w : World) : World := w

/-! ## Sequences of catalog writes -/

/-- A call of one of the catalog store's seat-writing operations, with its arguments. -/
inductive CatalogOp where
  | InitializeSeats (batchFault : Nat → Bool) (unprocessed : Nat → Seat → Bool) (now : Int)
      (eventID : String) (totalSeats : Int) (price : Float64)
  | ReserveSeat (fault : Bool) (now : Int) (eventID seatNumber userID : String)
      (currentVersion : Int)
  | ReleaseSeat (fault : Bool) (now : Int) (eventID seatNumber userID : String)
  | ConfirmSeat (fault : Bool) (now : Int) (eventID seatNumber userID : String)

/-- The store after one catalog call (its return value dropped). -/
def CatalogOp.apply (db : DynamoDB) : CatalogOp → DynamoDB
  | .InitializeSeats batchFault unprocessed now eventID totalSeats price =>
    (DynamoDBRepository.InitializeSeats db batchFault unprocessed now eventID totalSeats price).1
  | .ReserveSeat fault now eventID seatNumber userID currentVersion =>
    (DynamoDBRepository.ReserveSeat db fault now eventID seatNumber userID currentVersion).1
  | .ReleaseSeat fault now eventID seatNumber userID =>
    (DynamoDBRepository.ReleaseSeat db fault now eventID seatNumber userID).1
  | .ConfirmSeat fault now eventID seatNumber userID =>
    (DynamoDBRepository.ConfirmSeat db fault now eventID seatNumber userID).1

/-- The store after a sequence of catalog calls. -/
def runCatalogOps (db : DynamoDB) (ops : List CatalogOp) : DynamoDB :=
  ops.foldl CatalogOp.apply db

/-- The attribute discipline of a seat row: a RESERVED row carries both `user_id` and
`reserved_at`, an AVAILABLE row carries neither. -/
def Seat.attributesConsistent (seat : Seat) : Prop :=
  (seat.Status = .RESERVED → seat.UserID ≠ none ∧ seat.ReservedAt ≠ none) ∧
  (seat.Status = .AVAILABLE → seat.UserID = none ∧ seat.ReservedAt = none)

/-! ## Concurrent Reserve flows

`InventoryService.ReserveSeat` cut at its client calls: a flow is at a program point and each
step performs the next lock or catalog operation, so that steps of different flows interleave. -/

/-- The arguments of one `InventoryService.ReserveSeat` call and the identifiers it draws. -/
structure ReserveCall where
  eventID : String
  seatNumber : String
  userID : String
  lockToken : String
  reservationID : String

/-- Program points of `InventoryService.ReserveSeat`, each naming the operation done next. -/
inductive ReservePC where
  | start
  | locked (lockToken : String)
  | gotSeat (lockToken : String) (seat : Seat)
  | reserved (lockToken : String) (seat : Seat)
  | rollback (lockToken : String) (err : Error)
  | exiting (lockToken : String) (result : Except Error String)
  | done (result : Except Error String)

/-- The next operation of a Reserve flow: `AcquireLock`, `GetSeat` with the status check,
the conditional `ReserveSeat`, `CreateReservation`, the compensating `ReleaseSeat`, and the
deferred `ReleaseLock`.  A flow that has returned stays where it is. -/
def InventoryService.ReserveSeat.step (cfg : Config) (faults : Faults) (now nsec : Int)
    (call : ReserveCall) (w : World) : ReservePC → World × ReservePC
  | .start =>
    match RedisRepository.AcquireLock w.redis faults.AcquireLock cfg.RedisLockTTL call.lockToken
        call.eventID call.seatNumber with
    | (redis1, .error err) =>
      ({ w with redis := redis1 }, .done (.error (.wrapf "failed to acquire lock" err)))
    | (redis1, .ok lockToken) => ({ w with redis := redis1 }, .locked lockToken)
  | .locked lockToken =>
    match DynamoDBRepository.GetSeat w.db faults.GetSeat call.eventID call.seatNumber with
    | .error err => (w, .exiting lockToken (.error (.wrapf "failed to get seat" err)))
    | .ok seat =>
      if seat.Status ≠ .AVAILABLE then (w, .exiting lockToken (.error .ErrSeatAlreadyReserved))
      else (w, .gotSeat lockToken seat)
  | .gotSeat lockToken seat =>
    match DynamoDBRepository.ReserveSeat w.db faults.ReserveSeat now
        call.eventID call.seatNumber call.userID seat.Version with
    | (db1, some err) =>
      ({ w with db := db1 },
        .exiting lockToken (.error (.wrapf "failed to reserve seat in dynamodb" err)))
    | (db1, none) => ({ w with db := db1 }, .reserved lockToken seat)
  | .reserved lockToken seat =>
    match DynamoDBRepository.CreateReservation w.db faults.CreateReservation
        (NewReservation now nsec call.reservationID call.eventID call.seatNumber call.userID
          seat.Price cfg.ReservationTTLMinutes) with
    | (db1, some err) => ({ w with db := db1 }, .rollback lockToken err)
    | (db1, none) => ({ w with db := db1 }, .exiting lockToken (.ok call.reservationID))
  | .rollback lockToken err =>
    ({ w with db := (DynamoDBRepository.ReleaseSeat w.db faults.ReleaseSeat now
        call.eventID call.seatNumber call.userID).1 },
      .exiting lockToken (.error (.wrapf "failed to create reservation" err)))
  | .exiting lockToken result =>
    ({ w with redis := (RedisRepository.ReleaseLock w.redis faults.ReleaseLock
        call.eventID call.seatNumber lockToken).1 }, .done result)
  | .done result => (w, .done result)

/-- A Reserve flow running alone: `k` operations in a row. -/
def InventoryService.ReserveSeat.steps (cfg : Config) (faults : Faults) (now nsec : Int)
    (call : ReserveCall) : Nat → World × ReservePC → World × ReservePC
  | 0, x => x
  | k + 1, x =>
    InventoryService.ReserveSeat.steps cfg faults now nsec call k
      (InventoryService.ReserveSeat.step cfg faults now nsec call x.1 x.2)

/-- What happens next in a race: flow `i` performs its next operation (reading the clock),
or Redis drops a key whose time to live has elapsed. -/
inductive RaceAction where
  | turn (i : Nat) (now nsec : Int)
  | expire (key : String)

/-- The shared stores and the program point of every flow. -/
structure Race where
  world : World
  pc : Nat → ReservePC

/-- All flows about to start on the given stores. -/
def Race.init (w : World) : Race :=
  { world := w, pc := fun _ => .start }

/-- One action of a race among the flows `0 .. n-1`, none of whose client calls faults. -/
def Race.step (cfg : Config) (n : Nat) (calls : Nat → ReserveCall) (s : Race) :
    RaceAction → Race
  | .turn i now nsec =>
    if i < n then
      let out := InventoryService.ReserveSeat.step cfg Faults.none now nsec (calls i) s.world
        (s.pc i)
      { world := out.1, pc := fun j => if j = i then out.2 else s.pc j }
    else s
  | .expire key => { s with world := { s.world with redis := s.world.redis.expire key } }

/-- The race after a schedule of actions. -/
def Race.run (cfg : Config) (n : Nat) (calls : Nat → ReserveCall) (s : Race)
    (schedule : List RaceAction) : Race :=
  schedule.foldl (Race.step cfg n calls) s

/-- Number of turns the schedule gives to flow `i`. -/
def turnsOf (i : Nat) (schedule : List RaceAction) : Nat :=
  schedule.countP (fun a => match a with
    | .turn j _ _ => decide (j = i)
    | .expire _ => false)

/-- Whether the flow has returned. -/
def ReservePC.isDone : ReservePC → Bool
  | .done _ => true
  | _ => false

/-- An upper bound on the operations a Reserve flow still has to perform. -/
def ReservePC.remaining : ReservePC → Nat
  | .start => 6
  | .locked _ => 5
  | .gotSeat _ _ => 4
  | .reserved _ _ => 3
  | .rollback _ _ => 2
  | .exiting _ _ => 1
  | .done _ => 0

/-- The two errors a losing flow of a race may return: seat not available, lock already held. -/
def raceLoserError (err : Error) : Prop :=
  err.Is .ErrSeatAlreadyReserved = true ∨ err.Is .ErrLockAlreadyHeld = true

/-- Program points of a flow that has not reserved the seat: it has not written, it holds at
most a snapshot of the initial row, and if it is returning it returns a loser's error. -/
def loserPC (seat0 : Seat) : ReservePC → Prop
  | .start => True
  | .locked _ => True
  | .gotSeat _ seat => seat = seat0
  | .exiting _ (.error err) => raceLoserError err
  | .done (.error err) => raceLoserError err
  | _ => False

/-- Program points of a flow that is still about to try the conditional write. -/
def candidatePC (seat0 : Seat) : ReservePC → Prop
  | .locked _ => True
  | .gotSeat _ seat => seat = seat0
  | _ => False

/-- Program points of the flow whose conditional write succeeded. -/
def winnerPC (seat0 : Seat) (reservationID : String) : ReservePC → Prop
  | .reserved _ seat => seat = seat0
  | .exiting _ (.ok rid) => rid = reservationID
  | .done (.ok rid) => rid = reservationID
  | _ => False

/-- The invariant of a race for the seat row `seat0`.  Either the row is untouched, no flow has
written, and some flow is still about to try (or none has started and the lock is free); or
one flow has reserved the row and every other flow is a loser. -/
def RaceInv (n : Nat) (calls : Nat → ReserveCall) (eventID seatNumber : String) (seat0 : Seat)
    (st : Race) : Prop :=
  (st.world.db.seats (eventID, seatNumber) = some seat0 ∧
    (∀ i, i < n → loserPC seat0 (st.pc i)) ∧
    (((∀ i, i < n → st.pc i = .start) ∧
        st.world.redis.keys (getLockKey eventID seatNumber) = none) ∨
      ∃ i, i < n ∧ candidatePC seat0 (st.pc i))) ∨
  (∃ w now, w < n ∧
    st.world.db.seats (eventID, seatNumber) =
      some { seat0 with Status := .RESERVED, UserID := some (calls w).userID,
                        ReservedAt := some now, Version := wrapInt64 (seat0.Version + 1),
                        UpdatedAt := now } ∧
    winnerPC seat0 (calls w).reservationID (st.pc w) ∧
    ∀ i, i < n → i ≠ w → loserPC seat0 (st.pc i))

/-- The world in which the stored reservation `rid` carries the status `st` (as another
writer of the reservations table would leave it). -/
def World.withReservationStatus (w : World) (rid st : String) : World :=
  match w.db.reservations rid with
  | none => w
  | some r =>
    { db := { seats := w.db.seats
              reservations := fun k => if k = rid then some { r with Status := st }
                                       else w.db.reservations k
              bookings := w.db.bookings }
      redis := w.redis }

/-- The loop of `InventoryService.CleanupExpiredReservations`: the given number of ticker
events, then `ctx.Done`. -/
def InventoryService.CleanupExpiredReservations (w : World) : Nat → World
  | 0 => w
  | ticks + 1 =>
    InventoryService.CleanupExpiredReservations
      (InventoryService.CleanupExpiredReservations.tick w) ticks

/-- A row that is held (RESERVED or BOOKED) carries both `user_id` and `reserved_at`; an
AVAILABLE row carries no `reserved_at`. -/
def Seat.heldAttributesPresent (seat : Seat) : Prop :=
  (seat.Status ≠ .AVAILABLE → seat.UserID ≠ none ∧ seat.ReservedAt ≠ none) ∧
  (seat.Status = .AVAILABLE → seat.ReservedAt = none)

/-- The error returned by a catalog call, `none` when it succeeds. -/
def CatalogOp.result (db : DynamoDB) : CatalogOp → Option Error
  | .InitializeSeats batchFault unprocessed now eventID totalSeats price =>
    (DynamoDBRepository.InitializeSeats db batchFault unprocessed now eventID totalSeats
      price).2.2
  | .ReserveSeat fault now eventID seatNumber userID currentVersion =>
    (DynamoDBRepository.ReserveSeat db fault now eventID seatNumber userID currentVersion).2
  | .ReleaseSeat fault now eventID seatNumber userID =>
    (DynamoDBRepository.ReleaseSeat db fault now eventID seatNumber userID).2
  | .ConfirmSeat fault now eventID seatNumber userID =>
    (DynamoDBRepository.ConfirmSeat db fault now eventID seatNumber userID).2

/-- The key of the seat a conditional write addresses. -/
def CatalogOp.target : CatalogOp → Option (String × String)
  | .InitializeSeats _ _ _ _ _ _ => none
  | .ReserveSeat _ _ eventID seatNumber _ _ => some (eventID, seatNumber)
  | .ReleaseSeat _ _ eventID seatNumber _ => some (eventID, seatNumber)
  | .ConfirmSeat _ _ eventID seatNumber _ => some (eventID, seatNumber)

/-- Whether the call is one of the three conditional seat writes. -/
def CatalogOp.isSeatWrite : CatalogOp → Bool
  | .InitializeSeats _ _ _ _ _ _ => false
  | _ => true

/-- Whether the call addresses the seat `key` and succeeds on the store `db`. -/
def CatalogOp.writes (key : String × String) (db : DynamoDB) (op : CatalogOp) : Bool :=
  decide (op.target = some key) && (op.result db).isNone

/-- Number of calls of the sequence that address the seat `key` and succeed, each call run on
the store left by the calls before it. -/
def successfulWrites (key : String × String) : DynamoDB → List CatalogOp → Nat
  | _, [] => 0
  | db, op :: rest =>
    (if op.writes key db then 1 else 0) + successfulWrites key (op.apply db) rest

/-- Whether the arguments of the call are Go values: the expected version handed to
`ReserveSeat` is a Go `int`. -/
def CatalogOp.wellTyped : CatalogOp → Bool
  | .ReserveSeat _ _ _ _ _ currentVersion =>
    decide (minInt64 ≤ currentVersion) && decide (currentVersion ≤ maxInt64)
  | _ => true

/-- The parity of a seat's version follows its status: even while AVAILABLE, odd while
RESERVED. -/
def Seat.versionParity (seat : Seat) : Prop :=
  (seat.Status = .AVAILABLE → seat.Version % 2 = 0) ∧
  (seat.Status = .RESERVED → seat.Version % 2 = 1)

/-- The number a list of decimal digit characters denotes, most significant digit first. -/
def digitsValue (digits : List Char) : Nat :=
  digits.foldl (fun acc c => acc * 10 + (c.toNat - 48)) 0

/-! ## Sequences of flows -/

/-- A run of one of the coordinator's flows, with what it reads from outside and its
arguments, or the expiry of a lock key between two flows. -/
inductive FlowOp where
  | Reserve (env : Env) (eventID seatNumber userID : String)
  | Release (env : Env) (eventID seatNumber userID : String)
  | Confirm (env : Env) (reservationID userID paymentID : String)
  | LockExpiry (key : String)

/-- The stores after one flow (its return value dropped). -/
def FlowOp.apply (cfg : Config) (w : World) : FlowOp → World
  | .Reserve env eventID seatNumber userID =>
    (InventoryService.ReserveSeat cfg env w eventID seatNumber userID).1
  | .Release env eventID seatNumber userID =>
    (InventoryService.ReleaseSeat cfg env w eventID seatNumber userID).1
  | .Confirm env reservationID userID paymentID =>
    (InventoryService.ConfirmBooking cfg env w reservationID userID paymentID).1
  | .LockExpiry key => { w with redis := w.redis.expire key }

/-- The stores after a sequence of flows run one after the other. -/
def runFlows (cfg : Config) (w : World) (ops : List FlowOp) : World :=
  ops.foldl (FlowOp.apply cfg) w

/-- Whether the flow is a Release flow. -/
def FlowOp.isRelease : FlowOp → Bool
  | .Release _ _ _ _ => true
  | _ => false

/-- Every booking belongs to a BOOKED seat, and no two bookings belong to the same seat. -/
def BookingInv (db : DynamoDB) : Prop :=
  (∀ bid b, db.bookings bid = some b →
    ∃ seat, db.seats (b.EventID, b.SeatNumber) = some seat ∧ seat.Status = .BOOKED) ∧
  (∀ bid1 bid2 b1 b2, db.bookings bid1 = some b1 → db.bookings bid2 = some b2 →
    b1.EventID = b2.EventID → b1.SeatNumber = b2.SeatNumber → bid1 = bid2)

/-- Every reservation belongs to a seat that is not AVAILABLE, and no two reservations belong
to the same seat. -/
def ReservationInv (db : DynamoDB) : Prop :=
  (∀ rid r, db.reservations rid = some r →
    ∃ seat, db.seats (r.EventID, r.SeatNumber) = some seat ∧ seat.Status ≠ .AVAILABLE) ∧
  (∀ rid1 rid2 r1 r2, db.reservations rid1 = some r1 → db.reservations rid2 = some r2 →
    r1.EventID = r2.EventID → r1.SeatNumber = r2.SeatNumber → rid1 = rid2)

/-! ## Example data -/

/-- Default configuration values of `config.Load`. -/
def exampleConfig : Config :=
  { RedisLockTTL := 30, ReservationTTLMinutes := 10, ReservationCleanupIntervalSec := 60 }

/-- Event `E1` initialised with three seats at price 100 at time 1000; no lock held. -/
def exampleWorld : World :=
  (InventoryService.InitializeSeats { db := DynamoDB.empty, redis := Redis.empty }
    (fun _ => false) (fun _ _ => false) 1000 "E1" 3 100).1

/-- A fault-free environment reading clock `now` and drawing the two given identifiers. -/
def exampleEnv (now : Int) (lockToken newID : String) : Env :=
  { now := now, nsec := 0, lockToken := lockToken, newID := newID, faults := Faults.none }

/-- Seat `S-0001` of `exampleWorld` as `InitializeSeats` wrote it. -/
def exampleSeat : Seat := initialSeat 1000 "E1" 100 0

/-- Seat `S-0001` held by user `U1`. -/
def exampleReservedSeat : Seat :=
  { exampleSeat with Status := .RESERVED, UserID := some "U1", ReservedAt := some 1001,
                     Version := 1, UpdatedAt := 1001 }

/-- The world after `U1` reserved seat `S-0001` at time 1001, getting reservation `r1`, which
expires at 1601. -/
def exampleReservedWorld : World :=
  (InventoryService.ReserveSeat exampleConfig (exampleEnv 1001 "t1" "r1") exampleWorld
    "E1" "S-0001" "U1").1

/-- The world after `U1` then confirmed `r1` at time 1500, getting booking `b1`. -/
def exampleConfirmedWorld : World :=
  (InventoryService.ConfirmBooking exampleConfig (exampleEnv 1500 "t2" "b1") exampleReservedWorld
    "r1" "U1" "P1").1

/-- The environment of a Reserve flow whose reservation put fails. -/
def exampleFaultyPutEnv : Env :=
  { now := 1001, nsec := 0, lockToken := "t1", newID := "r1",
    faults := { Faults.none with CreateReservation := true } }

/-- The world `exampleConfirmedWorld` with the lock of seat `S-0001` held by another flow. -/
def exampleContendedWorld : World :=
  { db := exampleConfirmedWorld.db
    redis := (RedisRepository.AcquireLock exampleConfirmedWorld.redis false 30 "t9"
      "E1" "S-0001").1 }

/-- Three Reserve calls on seat `S-0001` of event `E1`; call `i` is by user `Ui`, draws lock
token `ti` and reservation id `ri`. -/
def exampleCalls (i : Nat) : ReserveCall :=
  { eventID := "E1"
    seatNumber := "S-0001"
    userID := String.mk ('U' :: decimal i)
    lockToken := String.mk ('t' :: decimal i)
    reservationID := String.mk ('r' :: decimal i) }

/-- An interleaving of the three calls: flow 0 takes the lock, flow 1 finds it held, the lock
expires, flow 2 takes it, both holders read the seat, flow 2 writes first and flow 0 loses the
conditional write; then every flow runs to its return. -/
def exampleSchedule : List RaceAction :=
  [.turn 0 1001 0, .turn 1 1001 0, .expire "lock:seat:E1:S-0001", .turn 2 1002 0, .turn 2 1002 0,
   .turn 0 1002 0, .turn 2 1003 0, .turn 0 1003 0, .turn 2 1003 0, .turn 2 1004 0, .turn 0 1004 0] ++
  [.turn 0 1005 0, .turn 0 1005 0, .turn 2 1005 0] ++ List.replicate 5 (.turn 1 1006 0)

/-- The world `exampleWorld` with the lock of seat `S-0001` held under token `t9`. -/
def exampleHeldWorld : World :=
  { db := exampleWorld.db
    redis := (RedisRepository.AcquireLock exampleWorld.redis false 30 "t9" "E1" "S-0001").1 }

/-- The configuration `exampleConfig` with a lock TTL of -1 second. -/
def exampleNegativeTTLConfig : Config :=
  { RedisLockTTL := -1, ReservationTTLMinutes := 10, ReservationCleanupIntervalSec := 60 }

/-- Eighteen turns taken in rotation by the flows 0, 1 and 2, six each. -/
def exampleRoundRobin : List RaceAction :=
  (List.range 18).map (fun k => .turn (k % 3) 1001 0)

/-- A lock store in which the lock of seat `S-0001`, once taken under token `t1`, has expired
and been taken again under token `t2`. -/
def exampleStaleRedis : Redis :=
  (RedisRepository.AcquireLock
    ((RedisRepository.AcquireLock Redis.empty false 30 "t1" "E1" "S-0001").1.expire
      (getLockKey "E1" "S-0001"))
    false 30 "t2" "E1" "S-0001").1

/-- The catalog call that initialises event `E1` with three seats at price 100 at time 1000. -/
def exampleInitialisation : List CatalogOp :=
  [.InitializeSeats (fun _ => false) (fun _ _ => false) 1000 "E1" 3 100]

/-- The second `BatchWriteItem` call (batch number 1) hands back the put requests of seats
`S-0029` and `S-0030` as unprocessed; every other request is processed. -/
def exampleUnprocessed (batch : Nat) (row : Seat) : Bool :=
  decide (batch = 1) && (decide (row.SeatNumber = "S-0029") || decide (row.SeatNumber = "S-0030"))

/-- Catalog calls on seat `S-0001`: `U1` reserves it, `U2` then fails to reserve it. -/
def exampleWrites1 : List CatalogOp :=
  [.ReserveSeat false 1001 "E1" "S-0001" "U1" 0, .ReserveSeat false 1002 "E1" "S-0001" "U2" 0]

/-- Further catalog calls: `U2` fails to release the seat, `U1` releases it, `U1` then fails to
confirm it, and `U2` reserves seat `S-0002`. -/
def exampleWrites2 : List CatalogOp :=
  [.ReleaseSeat false 1003 "E1" "S-0001" "U2", .ReleaseSeat false 1004 "E1" "S-0001" "U1",
   .ConfirmSeat false 1005 "E1" "S-0001" "U1", .ReserveSeat false 1006 "E1" "S-0002" "U2" 0]

/-- The environment of a flow whose deferred `ReleaseLock` call fails. -/
def exampleFaultyUnlockEnv : Env :=
  { now := 1001, nsec := 0, lockToken := "t1", newID := "r1",
    faults := { Faults.none with ReleaseLock := true } }

/-- A sequence of flows on a fresh event: `U1` reserves `S-0001` and confirms it twice, `U2`
tries to reserve the same seat, then reserves `S-0002`, releases it and reserves it again. -/
def exampleFlows : List FlowOp :=
  [.Reserve (exampleEnv 1001 "t1" "r1") "E1" "S-0001" "U1",
   .Confirm (exampleEnv 1500 "t2" "b1") "r1" "U1" "P1",
   .Confirm (exampleEnv 1510 "t3" "b2") "r1" "U1" "P1",
   .Reserve (exampleEnv 1520 "t4" "r2") "E1" "S-0001" "U2",
   .Reserve (exampleEnv 1530 "t5" "r3") "E1" "S-0002" "U2",
   .Release (exampleEnv 1540 "t6" "x6") "E1" "S-0002" "U2",
   .Reserve (exampleEnv 1550 "t7" "r4") "E1" "S-0002" "U2"]

/-- Flows on a fresh event: `U1` reserves `S-0001` and releases it, then `U2` reserves it. -/
def exampleReleaseFlows : List FlowOp :=
  [.Reserve (exampleEnv 1001 "t1" "r1") "E1" "S-0001" "U1",
   .Release (exampleEnv 1002 "t2" "x2") "E1" "S-0001" "U1",
   .Reserve (exampleEnv 1003 "t3" "r2") "E1" "S-0001" "U2"]

/-- Flows without a Release on a fresh event: `U1` reserves `S-0001`, `U2` tries the same seat,
`U1` confirms, and `U2` reserves `S-0002`. -/
def exampleNoReleaseFlows : List FlowOp :=
  [.Reserve (exampleEnv 1001 "t1" "r1") "E1" "S-0001" "U1",
   .Reserve (exampleEnv 1002 "t2" "r2") "E1" "S-0001" "U2",
   .Confirm (exampleEnv 1500 "t3" "b1") "r1" "U1" "P1",
   .Reserve (exampleEnv 1510 "t4" "r3") "E1" "S-0002" "U2"]

/-- Seat `S-0001` as AVAILABLE at the greatest version a Go `int` holds. -/
def exampleMaxVersionSeat : Seat :=
  { exampleSeat with Version := 9223372036854775807 }

/-- The world `exampleWorld` with seat `S-0001` at the greatest Go `int` version. -/
def exampleMaxVersionWorld : World :=
  { db := exampleWorld.db.putSeat exampleMaxVersionSeat, redis := exampleWorld.redis }

/-- The world `exampleConfirmedWorld` (seat `S-0001` BOOKED under booking `b1`) after
`InitializeSeats` was run again for event `E1` at time 2000. -/
def exampleReinitializedWorld : World :=
  (InventoryService.InitializeSeats exampleConfirmedWorld (fun _ => false) (fun _ _ => false)
    2000 "E1" 3 100).1

/-! ## Lemmas on Go integers -/

/-- Wrap-around leaves a value of the `int64` range as it is. -/
lemma wrapInt64_of_inRange (x : Int) (hlo : minInt64 ≤ x) (hhi : x ≤ maxInt64) :
    wrapInt64 x = x := by
  unfold minInt64 at hlo
  unfold maxInt64 at hhi
  unfold wrapInt64
  omega

/-- Wrap-around always lands in the `int64` range. -/
lemma wrapInt64_inRange (x : Int) : minInt64 ≤ wrapInt64 x ∧ wrapInt64 x ≤ maxInt64 := by
  unfold minInt64 maxInt64 wrapInt64
  omega

/-- The successor of a Go `int` below the greatest one is computed exactly. -/
lemma wrapInt64_succ (v : Int) (hlo : minInt64 ≤ v) (hhi : v < maxInt64) :
    wrapInt64 (v + 1) = v + 1 := by
  unfold minInt64 at hlo
  unfold maxInt64 at hhi
  unfold wrapInt64
  omega

/-! ## Theorems: the conditional seat writes -/

/-- C1, counterexample.  On the AVAILABLE seat `S-0001` at version 9223372036854775807, the
call `ReserveSeat` with that expected version succeeds and leaves the row RESERVED at version
-9223372036854775808, which is not the expected version plus one. -/
theorem reserveSeat_wraps_at_max_version :
    let out := DynamoDBRepository.ReserveSeat exampleMaxVersionWorld.db false 1001
      "E1" "S-0001" "U1" 9223372036854775807
    exampleMaxVersionWorld.db.seats ("E1", "S-0001") = some exampleMaxVersionSeat ∧
    exampleMaxVersionSeat.Status = .AVAILABLE ∧
    exampleMaxVersionSeat.Version = 9223372036854775807 ∧
    out.2 = none ∧
    (out.1.seats ("E1", "S-0001")).map Seat.Status = some .RESERVED ∧
    (out.1.seats ("E1", "S-0001")).map Seat.Version = some (-9223372036854775808) ∧
    (out.1.seats ("E1", "S-0001")).map Seat.Version ≠ some (9223372036854775807 + 1) := by
  decide

/-- C1, amended.  `DynamoDBRepository.ReserveSeat` on an existing seat row, the client call not
faulting, with an expected version that is a Go `int` below the greatest one:
the write succeeds exactly when the row is AVAILABLE at the expected version; on success the row
becomes RESERVED for the user with `reserved_at` set and version `expected + 1`, its event id,
seat number, price and creation time kept, and every other row kept; otherwise the store is
unchanged and the call returns `ErrSeatAlreadyReserved`. -/
theorem reserveSeat_contract (db : DynamoDB) (now : Int) (eventID seatNumber userID : String)
    (expectedVersion : Int) (row : Seat) (hrow : db.seats (eventID, seatNumber) = some row)
    (hlo : minInt64 ≤ expectedVersion) (hhi : expectedVersion < maxInt64) :
    let out := DynamoDBRepository.ReserveSeat db false now eventID seatNumber userID expectedVersion
    (out.2 = none ↔ (row.Status = .AVAILABLE ∧ row.Version = expectedVersion)) ∧
    ((row.Status = .AVAILABLE ∧ row.Version = expectedVersion) →
      (∃ row1, out.1.seats (eventID, seatNumber) = some row1 ∧
        row1.Status = .RESERVED ∧ row1.UserID = some userID ∧ row1.ReservedAt = some now ∧
        row1.Version = expectedVersion + 1 ∧ row1.UpdatedAt = now ∧
        row1.EventID = row.EventID ∧ row1.SeatNumber = row.SeatNumber ∧
        row1.Price = row.Price ∧ row1.CreatedAt = row.CreatedAt) ∧
      (∀ k, k ≠ (eventID, seatNumber) → out.1.seats k = db.seats k) ∧
      out.1.reservations = db.reservations ∧ out.1.bookings = db.bookings) ∧
    (¬ (row.Status = .AVAILABLE ∧ row.Version = expectedVersion) →
      out.1 = db ∧ out.2 = some .ErrSeatAlreadyReserved) := by
  have hw := wrapInt64_succ expectedVersion hlo hhi
  by_cases hc : row.Status = .AVAILABLE ∧ row.Version = expectedVersion
  · obtain ⟨h1, h2⟩ := hc
    simp [DynamoDBRepository.ReserveSeat, DynamoDB.UpdateItemSeat, hrow, h1, h2, hw]
    intro a b hk ha hb
    exact absurd hb (hk ha)
  · have hc2 : (decide (row.Status = .AVAILABLE) && decide (row.Version = expectedVersion))
        = false := by
      simpa using hc
    simp [DynamoDBRepository.ReserveSeat, DynamoDB.UpdateItemSeat, hrow, hc2, hc]

/-- Witness for C1: seat `S-0001` of a fresh event, reserved with expected version 0. -/
theorem reserveSeat_contract_witness :
    exampleWorld.db.seats ("E1", "S-0001") = some exampleSeat ∧
    ((DynamoDBRepository.ReserveSeat exampleWorld.db false 1001 "E1" "S-0001" "U1" 0).2 = none ↔
      (exampleSeat.Status = .AVAILABLE ∧ exampleSeat.Version = 0)) :=
  ⟨by decide,
   (reserveSeat_contract exampleWorld.db 1001 "E1" "S-0001" "U1" 0 exampleSeat (by decide)
      (by decide) (by decide)).1⟩

/-- C2. `DynamoDBRepository.ReleaseSeat` and `DynamoDBRepository.ConfirmSeat` on an existing seat
row, the client call not faulting: each succeeds exactly when the row is RESERVED with `user_id`
equal to the caller; otherwise it returns an error and the store is unchanged. -/
theorem releaseSeat_confirmSeat_owner_only (db : DynamoDB) (now : Int)
    (eventID seatNumber userID : String) (row : Seat)
    (hrow : db.seats (eventID, seatNumber) = some row) :
    let rel := DynamoDBRepository.ReleaseSeat db false now eventID seatNumber userID
    let con := DynamoDBRepository.ConfirmSeat db false now eventID seatNumber userID
    (rel.2 = none ↔ (row.Status = .RESERVED ∧ row.UserID = some userID)) ∧
    (con.2 = none ↔ (row.Status = .RESERVED ∧ row.UserID = some userID)) ∧
    (¬ (row.Status = .RESERVED ∧ row.UserID = some userID) →
      (rel.1 = db ∧ rel.2 = some .ErrVersionMismatch) ∧
      (con.1 = db ∧
        con.2 = some (.wrapf "failed to confirm seat" .ConditionalCheckFailedException))) := by
  by_cases hc : row.Status = .RESERVED ∧ row.UserID = some userID
  · obtain ⟨h1, h2⟩ := hc
    simp [DynamoDBRepository.ReleaseSeat, DynamoDBRepository.ConfirmSeat,
      DynamoDB.UpdateItemSeat, hrow, h1, h2]
  · have hc2 : (decide (row.Status = .RESERVED) && decide (row.UserID = some userID))
        = false := by
      simpa using hc
    simp [DynamoDBRepository.ReleaseSeat, DynamoDBRepository.ConfirmSeat,
      DynamoDB.UpdateItemSeat, hrow, hc2, hc]

/-- Witness for C2: a seat held by `U1` is neither released nor confirmed by `U2`. -/
theorem releaseSeat_confirmSeat_owner_only_witness :
    (exampleWorld.db.putSeat exampleReservedSeat).seats ("E1", "S-0001")
      = some exampleReservedSeat ∧
    ((DynamoDBRepository.ReleaseSeat (exampleWorld.db.putSeat exampleReservedSeat) false 1002
        "E1" "S-0001" "U2").2 = none ↔
      (exampleReservedSeat.Status = .RESERVED ∧ exampleReservedSeat.UserID = some "U2")) :=
  ⟨by decide,
   (releaseSeat_confirmSeat_owner_only (exampleWorld.db.putSeat exampleReservedSeat) 1002
      "E1" "S-0001" "U2" exampleReservedSeat (by decide)).1⟩

/-! ## Lemmas on the lock store -/

/-- On a free key, without a fault and with a lock TTL Redis accepts, `AcquireLock` installs
the token. -/
lemma acquireLock_free (r : Redis) (ttl : Int) (lockToken eventID seatNumber : String)
    (hfree : r.keys (getLockKey eventID seatNumber) = none)
    (httl : 0 ≤ durationOf ttl 1000000000) :
    RedisRepository.AcquireLock r false ttl lockToken eventID seatNumber =
      ({ keys := fun k => if k = getLockKey eventID seatNumber
            then some { token := lockToken, ttl := ttl } else r.keys k }, .ok lockToken) := by
  have h : ¬ durationOf ttl 1000000000 < 0 := not_lt.mpr httl
  simp [RedisRepository.AcquireLock, hfree, h]

/-- A successful `AcquireLock` found the key free and installed the token it returns. -/
lemma acquireLock_ok (r r1 : Redis) (fault : Bool) (ttl : Int)
    (lockToken eventID seatNumber tok : String)
    (h : RedisRepository.AcquireLock r fault ttl lockToken eventID seatNumber = (r1, .ok tok)) :
    fault = false ∧ r.keys (getLockKey eventID seatNumber) = none ∧ tok = lockToken ∧
    r1 = { keys := fun k => if k = getLockKey eventID seatNumber
            then some { token := lockToken, ttl := ttl } else r.keys k } := by
  unfold RedisRepository.AcquireLock at h
  cases fault with
  | true => simp at h
  | false =>
    by_cases hd : durationOf ttl 1000000000 < 0
    · simp [hd] at h
    · cases hk : r.keys (getLockKey eventID seatNumber) with
      | some entry => simp [hk, hd] at h
      | none =>
        simp [hk, hd] at h
        exact ⟨rfl, rfl, h.2.symm, h.1.symm⟩

/-- A successful `AcquireLock` was sent a lock TTL that is not negative. -/
lemma acquireLock_ok_ttl (r r1 : Redis) (fault : Bool) (ttl : Int)
    (lockToken eventID seatNumber tok : String)
    (h : RedisRepository.AcquireLock r fault ttl lockToken eventID seatNumber = (r1, .ok tok)) :
    0 ≤ durationOf ttl 1000000000 := by
  unfold RedisRepository.AcquireLock at h
  cases fault with
  | true => simp at h
  | false =>
    by_cases hd : durationOf ttl 1000000000 < 0
    · simp [hd] at h
    · exact not_lt.mp hd

/-- A failed `AcquireLock` leaves the keyspace as it was. -/
lemma acquireLock_error (r r1 : Redis) (fault : Bool) (ttl : Int)
    (lockToken eventID seatNumber : String) (err : Error)
    (h : RedisRepository.AcquireLock r fault ttl lockToken eventID seatNumber = (r1, .error err)) :
    r1 = r := by
  unfold RedisRepository.AcquireLock at h
  cases fault with
  | true => simp at h; exact h.1.symm
  | false =>
    by_cases hd : durationOf ttl 1000000000 < 0
    · simp [hd] at h; exact h.1.symm
    · cases hk : r.keys (getLockKey eventID seatNumber) with
      | some entry => simp [hk, hd] at h; exact h.1.symm
      | none => simp [hk, hd] at h

/-- Releasing, without a fault, the lock just installed on a free key restores the keyspace. -/
lemma releaseLock_after_acquire (r : Redis) (ttl : Int) (lockToken eventID seatNumber : String)
    (hfree : r.keys (getLockKey eventID seatNumber) = none) :
    (RedisRepository.ReleaseLock
      { keys := fun k => if k = getLockKey eventID seatNumber
          then some { token := lockToken, ttl := ttl } else r.keys k }
      false eventID seatNumber lockToken).1 = r := by
  cases r with
  | mk keys =>
    simp only [RedisRepository.ReleaseLock]
    simp
    funext k
    by_cases hk : k = getLockKey eventID seatNumber
    · simp [hk]; exact hfree.symm
    · simp [hk]

/-! ## Lemmas on the flows -/

/-- A successful `GetSeat` did not fault and found the row, whose version fits a Go `int`. -/
lemma getSeat_ok (db : DynamoDB) (fault : Bool) (eventID seatNumber : String) (seat : Seat)
    (h : DynamoDBRepository.GetSeat db fault eventID seatNumber = .ok seat) :
    fault = false ∧ db.seats (eventID, seatNumber) = some seat ∧
    minInt64 ≤ seat.Version ∧ seat.Version ≤ maxInt64 := by
  unfold DynamoDBRepository.GetSeat at h
  cases fault with
  | true => simp at h
  | false =>
    cases hs : db.seats (eventID, seatNumber) with
    | none => simp [hs] at h
    | some row =>
      simp only [hs, Bool.false_eq_true, if_false] at h
      by_cases hrg : minInt64 ≤ row.Version ∧ row.Version ≤ maxInt64
      · rw [if_pos hrg] at h
        cases h
        exact ⟨rfl, rfl, hrg.1, hrg.2⟩
      · rw [if_neg hrg] at h
        cases h

/-- A successful body of the Reserve flow found the seat AVAILABLE, reserved it at the version
read and stored the reservation under the drawn identifier. -/
lemma reserveBody_ok (cfg : Config) (env : Env) (db : DynamoDB)
    (eventID seatNumber userID rid : String)
    (h : (InventoryService.ReserveSeat.body cfg env db eventID seatNumber userID).2 = .ok rid) :
    ∃ seat0, db.seats (eventID, seatNumber) = some seat0 ∧ seat0.Status = .AVAILABLE ∧
      rid = env.newID ∧
      (InventoryService.ReserveSeat.body cfg env db eventID seatNumber userID).1 =
        { seats := fun k => if k = (eventID, seatNumber) then
            some { seat0 with Status := .RESERVED, UserID := some userID,
                              ReservedAt := some env.now,
                              Version := wrapInt64 (seat0.Version + 1),
                              UpdatedAt := env.now }
            else db.seats k
          reservations := fun k => if k = env.newID then
            some (NewReservation env.now env.nsec env.newID eventID seatNumber userID seat0.Price
              cfg.ReservationTTLMinutes)
            else db.reservations k
          bookings := db.bookings } := by
  unfold InventoryService.ReserveSeat.body at h ⊢
  unfold DynamoDBRepository.GetSeat DynamoDBRepository.ReserveSeat DynamoDB.UpdateItemSeat
    DynamoDBRepository.CreateReservation at h ⊢
  cases hf1 : env.faults.GetSeat <;> simp [hf1] at h ⊢
  cases hs : db.seats (eventID, seatNumber) with
  | none => simp [hs] at h
  | some seat0 =>
    simp [hs] at h ⊢
    by_cases hrg : minInt64 ≤ seat0.Version ∧ seat0.Version ≤ maxInt64
    · simp [hrg] at h ⊢
      by_cases hst : seat0.Status = .AVAILABLE
      · simp [hst] at h ⊢
        cases hf2 : env.faults.ReserveSeat <;> simp [hf2] at h ⊢
        cases hf3 : env.faults.CreateReservation <;> simp [hf3] at h ⊢
        exact ⟨h.symm, rfl⟩
      · simp [hst] at h
    · simp [hrg] at h

/-- A successful body of the Reserve flow read a version that fits a Go `int`. -/
lemma reserveBody_ok_range (cfg : Config) (env : Env) (db : DynamoDB)
    (eventID seatNumber userID rid : String) (seat0 : Seat)
    (hseat : db.seats (eventID, seatNumber) = some seat0)
    (h : (InventoryService.ReserveSeat.body cfg env db eventID seatNumber userID).2 = .ok rid) :
    minInt64 ≤ seat0.Version ∧ seat0.Version ≤ maxInt64 := by
  unfold InventoryService.ReserveSeat.body at h
  unfold DynamoDBRepository.GetSeat at h
  cases hf1 : env.faults.GetSeat <;> simp [hf1] at h
  simp only [hseat] at h
  by_cases hrg : minInt64 ≤ seat0.Version ∧ seat0.Version ≤ maxInt64
  · exact hrg
  · simp [hrg] at h

/-- A successful Reserve flow found the lock free and its body succeeded; if moreover the
deferred `ReleaseLock` did not fault, the keyspace is back to what it was. -/
lemma reserveFlow_ok (cfg : Config) (env : Env) (w : World)
    (eventID seatNumber userID rid : String)
    (h : (InventoryService.ReserveSeat cfg env w eventID seatNumber userID).2 = .ok rid) :
    w.redis.keys (getLockKey eventID seatNumber) = none ∧
    (InventoryService.ReserveSeat.body cfg env w.db eventID seatNumber userID).2 = .ok rid ∧
    (InventoryService.ReserveSeat cfg env w eventID seatNumber userID).1.db =
      (InventoryService.ReserveSeat.body cfg env w.db eventID seatNumber userID).1 ∧
    (env.faults.ReleaseLock = false →
      (InventoryService.ReserveSeat cfg env w eventID seatNumber userID).1.redis = w.redis) := by
  rcases hacq : RedisRepository.AcquireLock w.redis env.faults.AcquireLock cfg.RedisLockTTL
    env.lockToken eventID seatNumber with ⟨redis1, err | tok⟩
  · simp [InventoryService.ReserveSeat, hacq] at h
  · obtain ⟨_, hfree, htok, hr1⟩ := acquireLock_ok _ _ _ _ _ _ _ _ hacq
    simp only [InventoryService.ReserveSeat, hacq] at h ⊢
    refine ⟨hfree, h, trivial, ?_⟩
    intro hf
    subst htok hr1
    simp only [hf]
    exact releaseLock_after_acquire _ _ _ _ _ hfree

/-- A successful Reserve flow ran under a lock TTL that is not negative. -/
lemma reserveFlow_ok_ttl (cfg : Config) (env : Env) (w : World)
    (eventID seatNumber userID rid : String)
    (h : (InventoryService.ReserveSeat cfg env w eventID seatNumber userID).2 = .ok rid) :
    0 ≤ durationOf cfg.RedisLockTTL 1000000000 := by
  rcases hacq : RedisRepository.AcquireLock w.redis env.faults.AcquireLock cfg.RedisLockTTL
    env.lockToken eventID seatNumber with ⟨redis1, err | tok⟩
  · simp [InventoryService.ReserveSeat, hacq] at h
  · exact acquireLock_ok_ttl _ _ _ _ _ _ _ _ hacq

/-- A successful Release flow found the seat RESERVED by the caller and made it AVAILABLE,
removing `user_id` and `reserved_at` and adding one to the version. -/
lemma releaseFlow_ok (cfg : Config) (env : Env) (w : World)
    (eventID seatNumber userID : String)
    (h : (InventoryService.ReleaseSeat cfg env w eventID seatNumber userID).2 = none) :
    ∃ seat1, w.db.seats (eventID, seatNumber) = some seat1 ∧ seat1.Status = .RESERVED ∧
      seat1.UserID = some userID ∧
      (InventoryService.ReleaseSeat cfg env w eventID seatNumber userID).1.db =
        { seats := fun k => if k = (eventID, seatNumber) then
            some { seat1 with Status := .AVAILABLE, Version := seat1.Version + 1,
                              UpdatedAt := env.now, UserID := none, ReservedAt := none }
            else w.db.seats k
          reservations := w.db.reservations
          bookings := w.db.bookings } := by
  rcases hacq : RedisRepository.AcquireLock w.redis env.faults.AcquireLock cfg.RedisLockTTL
    env.lockToken eventID seatNumber with ⟨redis1, err | tok⟩
  · simp [InventoryService.ReleaseSeat, hacq] at h
  · simp only [InventoryService.ReleaseSeat, hacq] at h ⊢
    unfold DynamoDBRepository.ReleaseSeat DynamoDB.UpdateItemSeat at h ⊢
    cases hf : env.faults.ReleaseSeat <;> simp [hf] at h ⊢
    cases hs : w.db.seats (eventID, seatNumber) with
    | none => simp [hs] at h
    | some seat1 =>
      simp [hs] at h ⊢
      by_cases hc : seat1.Status = .RESERVED ∧ seat1.UserID = some userID
      · obtain ⟨h1, h2⟩ := hc
        simp [h1, h2]
      · rw [if_neg hc] at h
        simp at h

/-- With the reservation stored, not expired and owned by the caller, the lock free and no
fault, the Confirm flow is its body run under the lock, which it then releases. -/
lemma confirmFlow_run (cfg : Config) (env : Env) (w : World) (rid userID paymentID : String)
    (r : Reservation) (hnf : env.faults = Faults.none)
    (hr : w.db.reservations rid = some r) (hexp : env.now ≤ r.ExpiresAt) (hu : r.UserID = userID)
    (hfree : w.redis.keys (getLockKey r.EventID r.SeatNumber) = none)
    (httl : 0 ≤ durationOf cfg.RedisLockTTL 1000000000) :
    InventoryService.ConfirmBooking cfg env w rid userID paymentID =
      ({ db := (InventoryService.ConfirmBooking.body env w.db r rid userID paymentID).1
         redis := w.redis },
       (InventoryService.ConfirmBooking.body env w.db r rid userID paymentID).2) := by
  have hne : ¬ (env.now > r.ExpiresAt) := by omega
  simp only [InventoryService.ConfirmBooking, DynamoDBRepository.GetReservation, hnf,
    Faults.none, hr, Reservation.IsExpired]
  simp only [Bool.false_eq_true, if_false, decide_eq_true_eq, hne, hu, ne_eq, not_true_eq_false,
    acquireLock_free _ _ _ _ _ hfree httl, releaseLock_after_acquire _ _ _ _ _ hfree]

/-- On a seat RESERVED by the caller and with no fault, the body of the Confirm flow books the
seat, stores the booking under the drawn identifier and marks the reservation CONFIRMED. -/
lemma confirmBody_reserved (env : Env) (db : DynamoDB) (r : Reservation)
    (rid userID paymentID : String) (seat1 : Seat) (hnf : env.faults = Faults.none)
    (hs : db.seats (r.EventID, r.SeatNumber) = some seat1)
    (h1 : seat1.Status = .RESERVED) (h2 : seat1.UserID = some userID) :
    InventoryService.ConfirmBooking.body env db r rid userID paymentID =
      ({ seats := fun k => if k = (r.EventID, r.SeatNumber) then
            some { seat1 with Status := .BOOKED, Version := seat1.Version + 1,
                              UpdatedAt := env.now }
            else db.seats k
         reservations := fun k => if k = rid then
            some (match db.reservations rid with
              | some reservation => { reservation with Status := "CONFIRMED" }
              | none =>
                { ReservationID := rid, EventID := "", SeatNumber := "", UserID := "",
                  Price := 0, CreatedAt := 0, ExpiresAt := 0, Status := "CONFIRMED" })
            else db.reservations k
         bookings := fun k => if k = env.newID then
            some { BookingID := env.newID, EventID := r.EventID, SeatNumber := r.SeatNumber,
                   UserID := r.UserID, Price := r.Price, PaymentID := paymentID,
                   CreatedAt := env.now, Status := "CONFIRMED" }
            else db.bookings k },
       .ok env.newID) := by
  simp [InventoryService.ConfirmBooking.body, DynamoDBRepository.ConfirmSeat,
    DynamoDB.UpdateItemSeat, DynamoDBRepository.CreateBooking,
    DynamoDBRepository.UpdateReservationStatus, hnf, Faults.none, hs, h1, h2]

/-- On a seat that is missing, or not RESERVED by the caller, the body of the Confirm flow fails
at `ConfirmSeat` and writes nothing. -/
lemma confirmBody_not_reserved (env : Env) (db : DynamoDB) (r : Reservation)
    (rid userID paymentID : String) (hnf : env.faults = Faults.none)
    (hs : ∀ seat1, db.seats (r.EventID, r.SeatNumber) = some seat1 →
      ¬ (seat1.Status = .RESERVED ∧ seat1.UserID = some userID)) :
    InventoryService.ConfirmBooking.body env db r rid userID paymentID =
      (db, .error (.wrapf "failed to confirm seat"
        (.wrapf "failed to confirm seat" .ConditionalCheckFailedException))) := by
  cases hrow : db.seats (r.EventID, r.SeatNumber) with
  | none =>
    simp [InventoryService.ConfirmBooking.body, DynamoDBRepository.ConfirmSeat,
      DynamoDB.UpdateItemSeat, hnf, Faults.none, hrow]
  | some seat1 =>
    have hc := hs seat1 hrow
    simp only [InventoryService.ConfirmBooking.body, DynamoDBRepository.ConfirmSeat,
      DynamoDB.UpdateItemSeat, hnf, Faults.none, hrow, Bool.and_eq_true, decide_eq_true_eq]
    rw [if_neg hc]
    simp

/-- A successful body of the Confirm flow found the seat RESERVED by the caller, booked it,
stored the booking under the drawn identifier and left the reservation row with at most its
status changed. -/
lemma confirmBody_ok (env : Env) (db : DynamoDB) (r : Reservation)
    (rid userID paymentID bid : String) (hr : db.reservations rid = some r)
    (h : (InventoryService.ConfirmBooking.body env db r rid userID paymentID).2 = .ok bid) :
    ∃ seat1, db.seats (r.EventID, r.SeatNumber) = some seat1 ∧ seat1.Status = .RESERVED ∧
      seat1.UserID = some userID ∧ bid = env.newID ∧
      (InventoryService.ConfirmBooking.body env db r rid userID paymentID).1.seats =
        (fun k => if k = (r.EventID, r.SeatNumber) then
          some { seat1 with Status := .BOOKED, Version := seat1.Version + 1,
                            UpdatedAt := env.now }
          else db.seats k) ∧
      (InventoryService.ConfirmBooking.body env db r rid userID paymentID).1.bookings =
        (fun k => if k = env.newID then
          some { BookingID := env.newID, EventID := r.EventID, SeatNumber := r.SeatNumber,
                 UserID := r.UserID, Price := r.Price, PaymentID := paymentID,
                 CreatedAt := env.now, Status := "CONFIRMED" }
          else db.bookings k) ∧
      (∃ st, (InventoryService.ConfirmBooking.body env db r rid userID paymentID).1.reservations =
        (fun k => if k = rid then some { r with Status := st } else db.reservations k)) := by
  unfold InventoryService.ConfirmBooking.body at h ⊢
  unfold DynamoDBRepository.ConfirmSeat DynamoDB.UpdateItemSeat DynamoDBRepository.CreateBooking
    DynamoDBRepository.UpdateReservationStatus at h ⊢
  cases hf1 : env.faults.ConfirmSeat <;> simp [hf1] at h ⊢
  cases hs : db.seats (r.EventID, r.SeatNumber) with
  | none => simp [hs] at h
  | some seat1 =>
    simp only [hs] at h ⊢
    by_cases hc : seat1.Status = .RESERVED ∧ seat1.UserID = some userID
    · obtain ⟨h1, h2⟩ := hc
      simp [h1, h2] at h ⊢
      cases hf2 : env.faults.CreateBooking <;> simp [hf2] at h ⊢
      cases hf3 : env.faults.UpdateReservationStatus <;> simp [hr]
      · exact ⟨h.symm, "CONFIRMED", rfl⟩
      · refine ⟨h.symm, r.Status, ?_⟩
        funext k
        by_cases hk : k = rid
        · simp [hk, hr]
        · simp [hk]
    · rw [if_neg hc] at h
      simp at h

/-- A successful Confirm flow found the reservation stored, not expired and owned by the
caller, found the lock free, and its body succeeded; if moreover the deferred `ReleaseLock` did
not fault, the keyspace is back to what it was. -/
lemma confirmFlow_ok (cfg : Config) (env : Env) (w : World) (rid userID paymentID bid : String)
    (h : (InventoryService.ConfirmBooking cfg env w rid userID paymentID).2 = .ok bid) :
    ∃ r, w.db.reservations rid = some r ∧ env.now ≤ r.ExpiresAt ∧ r.UserID = userID ∧
      w.redis.keys (getLockKey r.EventID r.SeatNumber) = none ∧
      (InventoryService.ConfirmBooking.body env w.db r rid userID paymentID).2 = .ok bid ∧
      (InventoryService.ConfirmBooking cfg env w rid userID paymentID).1.db =
        (InventoryService.ConfirmBooking.body env w.db r rid userID paymentID).1 ∧
      (env.faults.ReleaseLock = false →
        (InventoryService.ConfirmBooking cfg env w rid userID paymentID).1.redis = w.redis) := by
  have key : ∃ r, w.db.reservations rid = some r ∧ env.faults.GetReservation = false ∧
      ¬ env.now > r.ExpiresAt ∧ r.UserID = userID ∧
      ∃ redis1 tok, RedisRepository.AcquireLock w.redis env.faults.AcquireLock cfg.RedisLockTTL
        env.lockToken r.EventID r.SeatNumber = (redis1, .ok tok) := by
    unfold InventoryService.ConfirmBooking DynamoDBRepository.GetReservation at h
    cases hf : env.faults.GetReservation <;> simp [hf] at h
    cases hr : w.db.reservations rid with
    | none => simp [hr] at h
    | some r =>
      simp only [hr] at h
      by_cases hexp : env.now > r.ExpiresAt
      · simp [Reservation.IsExpired, hexp] at h
      · by_cases hu : r.UserID = userID
        · rcases hacq : RedisRepository.AcquireLock w.redis env.faults.AcquireLock
            cfg.RedisLockTTL env.lockToken r.EventID r.SeatNumber with ⟨redis1, err | tok⟩
          · simp [Reservation.IsExpired, hexp, hu, hacq] at h
          · exact ⟨r, rfl, rfl, hexp, hu, redis1, tok, hacq⟩
        · simp [Reservation.IsExpired, hexp, hu] at h
  obtain ⟨r, hr, hf, hexp, hu, redis1, tok, hacq⟩ := key
  obtain ⟨_, hfree, htok, hr1⟩ := acquireLock_ok _ _ _ _ _ _ _ _ hacq
  have hval : InventoryService.ConfirmBooking cfg env w rid userID paymentID =
      ({ db := (InventoryService.ConfirmBooking.body env w.db r rid userID paymentID).1
         redis := (RedisRepository.ReleaseLock redis1 env.faults.ReleaseLock
            r.EventID r.SeatNumber tok).1 },
       (InventoryService.ConfirmBooking.body env w.db r rid userID paymentID).2) := by
    have hexp2 : ¬ r.ExpiresAt < env.now := hexp
    simp only [InventoryService.ConfirmBooking, DynamoDBRepository.GetReservation, hf, hr,
      Reservation.IsExpired, hexp]
    simp [hu, hexp2, hacq]
  rw [hval] at h ⊢
  refine ⟨r, hr, by omega, hu, hfree, h, rfl, ?_⟩
  intro hfl
  subst htok hr1
  simp only [hfl]
  exact releaseLock_after_acquire _ _ _ _ _ hfree

/-- A successful Confirm flow ran under a lock TTL that is not negative. -/
lemma confirmFlow_ok_ttl (cfg : Config) (env : Env) (w : World)
    (rid userID paymentID bid : String)
    (h : (InventoryService.ConfirmBooking cfg env w rid userID paymentID).2 = .ok bid) :
    0 ≤ durationOf cfg.RedisLockTTL 1000000000 := by
  unfold InventoryService.ConfirmBooking DynamoDBRepository.GetReservation at h
  cases hf : env.faults.GetReservation <;> simp [hf] at h
  cases hr : w.db.reservations rid with
  | none => simp [hr] at h
  | some r =>
    simp only [hr] at h
    by_cases hexp : env.now > r.ExpiresAt
    · simp [Reservation.IsExpired, hexp] at h
    · by_cases hu : r.UserID = userID
      · rcases hacq : RedisRepository.AcquireLock w.redis env.faults.AcquireLock
          cfg.RedisLockTTL env.lockToken r.EventID r.SeatNumber with ⟨redis1, err | tok⟩
        · simp [Reservation.IsExpired, hexp, hu, hacq] at h
        · exact acquireLock_ok_ttl _ _ _ _ _ _ _ _ hacq
      · simp [Reservation.IsExpired, hexp, hu] at h

/-- The body of the Confirm flow does not read the reservation's status: with another status
in the row it returns the same result and writes the same seats and bookings. -/
lemma confirmBody_status_not_read (env : Env) (db : DynamoDB) (r : Reservation)
    (rid userID paymentID st : String) :
    (InventoryService.ConfirmBooking.body env
        { seats := db.seats
          reservations := fun k => if k = rid then some { r with Status := st }
                                   else db.reservations k
          bookings := db.bookings }
        { r with Status := st } rid userID paymentID).2 =
      (InventoryService.ConfirmBooking.body env db r rid userID paymentID).2 := by
  simp only [InventoryService.ConfirmBooking.body, DynamoDBRepository.ConfirmSeat,
    DynamoDB.UpdateItemSeat, DynamoDBRepository.CreateBooking,
    DynamoDBRepository.UpdateReservationStatus]
  cases hs : db.seats (r.EventID, r.SeatNumber) with
  | none =>
    cases env.faults.ConfirmSeat <;> simp
  | some seat1 =>
    by_cases hc : seat1.Status = .RESERVED ∧ seat1.UserID = some userID
    · cases env.faults.ConfirmSeat <;> cases env.faults.CreateBooking <;>
        cases env.faults.UpdateReservationStatus <;> simp [hc]
    · cases env.faults.ConfirmSeat <;> simp [hc]

/-- The Confirm flow does not read the reservation's status. -/
lemma confirmFlow_status_not_read (cfg : Config) (env : Env) (w : World)
    (rid userID paymentID st : String) :
    (InventoryService.ConfirmBooking cfg env (w.withReservationStatus rid st)
        rid userID paymentID).2 =
      (InventoryService.ConfirmBooking cfg env w rid userID paymentID).2 := by
  unfold World.withReservationStatus
  cases hr : w.db.reservations rid with
  | none => rfl
  | some r =>
    simp only [InventoryService.ConfirmBooking, DynamoDBRepository.GetReservation, hr, if_pos]
    cases env.faults.GetReservation
    · simp only [Bool.false_eq_true, if_false, Reservation.IsExpired]
      by_cases hexp : env.now > r.ExpiresAt
      · simp [hexp]
      · by_cases hu : r.UserID = userID
        · subst hu
          simp only [hexp, decide_False, Bool.false_eq_true, if_false, ne_eq,
            not_true_eq_false]
          rcases hacq : RedisRepository.AcquireLock w.redis env.faults.AcquireLock
            cfg.RedisLockTTL env.lockToken r.EventID r.SeatNumber with ⟨redis1, err | tok⟩
          · rfl
          · exact confirmBody_status_not_read env w.db r rid r.UserID paymentID st
        · simp [hexp, hu]
    · rfl

/-! ## Theorems: the coordinator flows -/

/-- C4, counterexample.  Seat `S-0001` is AVAILABLE at version 9223372036854775807; the Reserve
flow of `U1` succeeds, the Release flow of `U1` run next succeeds, and the seat is left at
version -9223372036854775807, not at the initial version plus two. -/
theorem reserve_then_release_wraps_at_max_version :
    let reserve := InventoryService.ReserveSeat exampleConfig (exampleEnv 1001 "t1" "r1")
      exampleMaxVersionWorld "E1" "S-0001" "U1"
    let release := InventoryService.ReleaseSeat exampleConfig (exampleEnv 1002 "t2" "x2")
      reserve.1 "E1" "S-0001" "U1"
    exampleMaxVersionWorld.db.seats ("E1", "S-0001") = some exampleMaxVersionSeat ∧
    exampleMaxVersionSeat.Status = .AVAILABLE ∧
    exampleMaxVersionSeat.Version = 9223372036854775807 ∧
    reserve.2 = .ok "r1" ∧
    release.2 = none ∧
    (release.1.db.seats ("E1", "S-0001")).map Seat.Status = some .AVAILABLE ∧
    (release.1.db.seats ("E1", "S-0001")).map Seat.Version = some (-9223372036854775807) ∧
    (release.1.db.seats ("E1", "S-0001")).map Seat.Version ≠ some (9223372036854775807 + 2) := by
  refine ⟨by decide, by decide, by decide, by rfl, by rfl, by decide, by decide, by decide⟩

/-- C4, amended.  Reserve then Release by the same user: when the Reserve flow on a seat of
version `v` below the greatest Go `int` succeeds (which it only does on an AVAILABLE seat) and
the Release flow run next succeeds, the seat is AVAILABLE again with version exactly `v + 2`,
no `user_id`, no `reserved_at`, and its price unchanged. -/
theorem reserve_then_release_roundtrip (cfg : Config) (env1 env2 : Env) (w : World)
    (eventID seatNumber userID rid : String) (seat : Seat) (v : Int)
    (hseat : w.db.seats (eventID, seatNumber) = some seat) (hv : seat.Version = v)
    (hvhi : v < maxInt64)
    (hres : (InventoryService.ReserveSeat cfg env1 w eventID seatNumber userID).2 = .ok rid)
    (hrel : (InventoryService.ReleaseSeat cfg env2
      (InventoryService.ReserveSeat cfg env1 w eventID seatNumber userID).1
      eventID seatNumber userID).2 = none) :
    ∃ seat2, (InventoryService.ReleaseSeat cfg env2
        (InventoryService.ReserveSeat cfg env1 w eventID seatNumber userID).1
        eventID seatNumber userID).1.db.seats (eventID, seatNumber) = some seat2 ∧
      seat2.Status = .AVAILABLE ∧ seat2.Version = v + 2 ∧ seat2.UserID = none ∧
      seat2.ReservedAt = none ∧ seat2.Price = seat.Price := by
  obtain ⟨_, hbody, hdb, _⟩ := reserveFlow_ok cfg env1 w eventID seatNumber userID rid hres
  obtain ⟨seat0, hs0, _, _, hb⟩ := reserveBody_ok cfg env1 w.db eventID seatNumber userID rid hbody
  obtain ⟨hlo, _⟩ :=
    reserveBody_ok_range cfg env1 w.db eventID seatNumber userID rid seat hseat hbody
  obtain ⟨seat1, hs1, _, _, hfin⟩ := releaseFlow_ok cfg env2 _ eventID seatNumber userID hrel
  rw [hseat] at hs0
  cases hs0
  have hw := wrapInt64_succ seat.Version hlo (by omega)
  rw [hdb, hb] at hs1
  simp at hs1
  subst hs1
  rw [hfin]
  simp [hw]
  omega

/-- Witness for C4: user `U1` reserves and then releases seat `S-0001` of a fresh event. -/
theorem reserve_then_release_roundtrip_witness :
    ∃ seat2, (InventoryService.ReleaseSeat exampleConfig (exampleEnv 1002 "t2" "x2")
        (InventoryService.ReserveSeat exampleConfig (exampleEnv 1001 "t1" "r1") exampleWorld
          "E1" "S-0001" "U1").1
        "E1" "S-0001" "U1").1.db.seats ("E1", "S-0001") = some seat2 ∧
      seat2.Status = .AVAILABLE ∧ seat2.Version = 0 + 2 ∧ seat2.UserID = none ∧
      seat2.ReservedAt = none ∧ seat2.Price = exampleSeat.Price :=
  reserve_then_release_roundtrip exampleConfig (exampleEnv 1001 "t1" "r1")
    (exampleEnv 1002 "t2" "x2") exampleWorld "E1" "S-0001" "U1" "r1" exampleSeat 0
    (by decide) (by decide) (by decide) (by rfl) (by rfl)

/-- C5, counterexample.  Seat `S-0001` was booked by `U1` under booking `b1` and the event was
initialised again, so the seat is AVAILABLE.  `U2` reserves it and confirms before the
reservation expires, with no fault: Confirm returns booking id `b2`, and the bookings table
then holds two CONFIRMED bookings for the seat, `b1` and `b2`. -/
theorem reserve_then_confirm_second_booking :
    let reserve := InventoryService.ReserveSeat exampleConfig (exampleEnv 2001 "t3" "r2")
      exampleReinitializedWorld "E1" "S-0001" "U2"
    let confirm := InventoryService.ConfirmBooking exampleConfig (exampleEnv 2100 "t4" "b2")
      reserve.1 "r2" "U2" "P2"
    (exampleReinitializedWorld.db.seats ("E1", "S-0001")).map Seat.Status = some .AVAILABLE ∧
    reserve.2 = .ok "r2" ∧
    (reserve.1.db.reservations "r2").map Reservation.ExpiresAt = some 2601 ∧
    confirm.2 = .ok "b2" ∧
    (confirm.1.db.bookings "b1").map (fun b => (b.EventID, b.SeatNumber, b.UserID, b.Status))
      = some ("E1", "S-0001", "U1", "CONFIRMED") ∧
    (confirm.1.db.bookings "b2").map (fun b => (b.EventID, b.SeatNumber, b.UserID, b.Status))
      = some ("E1", "S-0001", "U2", "CONFIRMED") := by
  refine ⟨by decide, by rfl, by decide, by rfl, by decide, by decide⟩

/-- C5, amended.  Reserve then Confirm on a seat for which no booking is stored: when the
Reserve flow for user `u` on a seat of price `p` succeeds returning `rid` (its deferred lock
release not faulting) and Confirm is then called by `u` with no fault at a clock value not past
the `expires_at` of the stored reservation, Confirm returns the booking id it drew; the seat is
BOOKED, reservation `rid` is CONFIRMED, the bookings table gained exactly the row under that
id, for this event and seat, with user `u`, price `p`, the given payment id and status
CONFIRMED, and that row is the only booking of the seat. -/
theorem reserve_then_confirm (cfg : Config) (env1 env2 : Env) (w : World)
    (eventID seatNumber userID paymentID rid : String) (seat : Seat) (p : Float64)
    (hseat : w.db.seats (eventID, seatNumber) = some seat) (hp : seat.Price = p)
    (hnone : ∀ k b, w.db.bookings k = some b →
      ¬ (b.EventID = eventID ∧ b.SeatNumber = seatNumber))
    (hres : (InventoryService.ReserveSeat cfg env1 w eventID seatNumber userID).2 = .ok rid)
    (hrl : env1.faults.ReleaseLock = false)
    (hnf : env2.faults = Faults.none)
    (hexp : ∀ r, (InventoryService.ReserveSeat cfg env1 w eventID seatNumber userID).1.db.reservations
      rid = some r → env2.now ≤ r.ExpiresAt) :
    let out := InventoryService.ConfirmBooking cfg env2
      (InventoryService.ReserveSeat cfg env1 w eventID seatNumber userID).1 rid userID paymentID
    out.2 = .ok env2.newID ∧
    (∃ seat2, out.1.db.seats (eventID, seatNumber) = some seat2 ∧ seat2.Status = .BOOKED) ∧
    (∃ r, out.1.db.reservations rid = some r ∧ r.Status = "CONFIRMED") ∧
    (∃ b, out.1.db.bookings env2.newID = some b ∧ b.EventID = eventID ∧
      b.SeatNumber = seatNumber ∧ b.UserID = userID ∧ b.Price = p ∧
      b.PaymentID = paymentID ∧ b.Status = "CONFIRMED") ∧
    (∀ k, k ≠ env2.newID → out.1.db.bookings k = w.db.bookings k) ∧
    (∀ k b, out.1.db.bookings k = some b → b.EventID = eventID → b.SeatNumber = seatNumber →
      k = env2.newID) := by
  obtain ⟨hfree, hbody, hdb, hredis⟩ :=
    reserveFlow_ok cfg env1 w eventID seatNumber userID rid hres
  have httl := reserveFlow_ok_ttl cfg env1 w eventID seatNumber userID rid hres
  obtain ⟨seat0, hs0, _, hrid, hb⟩ :=
    reserveBody_ok cfg env1 w.db eventID seatNumber userID rid hbody
  rw [hseat] at hs0
  cases hs0
  subst hrid
  have hw1r : (InventoryService.ReserveSeat cfg env1 w eventID seatNumber userID).1.db.reservations
      env1.newID = some (NewReservation env1.now env1.nsec env1.newID eventID seatNumber userID
        seat.Price cfg.ReservationTTLMinutes) := by
    rw [hdb, hb]; simp
  have hw1s : (InventoryService.ReserveSeat cfg env1 w eventID seatNumber userID).1.db.seats
      (eventID, seatNumber) =
        some { seat with Status := .RESERVED, UserID := some userID,
                         ReservedAt := some env1.now,
                         Version := wrapInt64 (seat.Version + 1),
                         UpdatedAt := env1.now } := by
    rw [hdb, hb]; simp
  have hw1b : (InventoryService.ReserveSeat cfg env1 w eventID seatNumber userID).1.db.bookings
      = w.db.bookings := by
    rw [hdb, hb]
  have hrun := confirmFlow_run cfg env2
    (InventoryService.ReserveSeat cfg env1 w eventID seatNumber userID).1 env1.newID userID
    paymentID _ hnf hw1r (hexp _ hw1r) (by simp [NewReservation])
    (by rw [hredis hrl]; simpa [NewReservation] using hfree) httl
  have hbd := confirmBody_reserved env2
    (InventoryService.ReserveSeat cfg env1 w eventID seatNumber userID).1.db
    (NewReservation env1.now env1.nsec env1.newID eventID seatNumber userID seat.Price
      cfg.ReservationTTLMinutes) env1.newID userID paymentID _ hnf
    (by simpa [NewReservation] using hw1s) rfl rfl
  simp only [hrun, hbd, hw1r, hw1b]
  refine ⟨trivial, ?_, ?_, ?_, ?_, ?_⟩
  · simp [NewReservation]
  · simp
  · simp [NewReservation, hp]
  · intro k hk
    simp [hk]
  · intro k b hkb he hsn
    by_contra hk
    simp [hk] at hkb
    exact hnone k b hkb ⟨he, hsn⟩

/-- Witness for C5: `U1` reserves seat `S-0001` at time 1001 and confirms at time 1500. -/
theorem reserve_then_confirm_witness :
    (InventoryService.ConfirmBooking exampleConfig (exampleEnv 1500 "t2" "b1")
      (InventoryService.ReserveSeat exampleConfig (exampleEnv 1001 "t1" "r1") exampleWorld
        "E1" "S-0001" "U1").1 "r1" "U1" "P1").2 = .ok "b1" :=
  (reserve_then_confirm exampleConfig (exampleEnv 1001 "t1" "r1") (exampleEnv 1500 "t2" "b1")
    exampleWorld "E1" "S-0001" "U1" "P1" "r1" exampleSeat 100
    (by decide) (by decide)
    (by
      intro k b h
      have h0 : exampleWorld.db.bookings k = none := rfl
      rw [h0] at h
      exact absurd h (by simp))
    (by rfl) (by rfl) (by rfl)
    (by
      intro r h
      have h2 : r = NewReservation 1001 0 "r1" "E1" "S-0001" "U1" 100 10 :=
        (Option.some.inj ((show exampleReservedWorld.db.reservations "r1" = some
          (NewReservation 1001 0 "r1" "E1" "S-0001" "U1" 100 10) by decide).symm.trans h)).symm
      rw [h2]
      decide)).1

/-- C7, counterexample. At the boundary `now = expires_at` the expiry check passes: reservation
`r1` expires at 1601 and a Confirm at clock value 1601 returns a booking id, books the seat and
stores the booking, where the claim has it fail with the reservation-expired error. -/
theorem confirm_at_expiry_boundary_succeeds :
    (exampleReservedWorld.db.reservations "r1").map (fun r => r.ExpiresAt) = some 1601 ∧
    (InventoryService.ConfirmBooking exampleConfig (exampleEnv 1601 "t2" "b1")
      exampleReservedWorld "r1" "U1" "P1").2 = .ok "b1" ∧
    ((InventoryService.ConfirmBooking exampleConfig (exampleEnv 1601 "t2" "b1")
      exampleReservedWorld "r1" "U1" "P1").1.db.bookings "b1").map (fun b => b.SeatNumber)
      = some "S-0001" ∧
    ((InventoryService.ConfirmBooking exampleConfig (exampleEnv 1601 "t2" "b1")
      exampleReservedWorld "r1" "U1" "P1").1.db.seats ("E1", "S-0001")).map (fun x => x.Status)
      = some .BOOKED := by
  refine ⟨by decide, by rfl, by decide, by decide⟩

/-- C7, amended. The expiry check of Confirm passes exactly when `now ≤ expires_at`; for every
stored reservation and clock value with `expires_at < now`, Confirm fails with the
reservation-expired error and leaves both stores as they were: no booking is created and no
seat, reservation or lock is changed. -/
theorem confirm_expired_rejected (cfg : Config) (env : Env) (w : World)
    (rid userID paymentID : String) (r : Reservation)
    (hf : env.faults.GetReservation = false)
    (hr : w.db.reservations rid = some r) (hexp : r.ExpiresAt < env.now) :
    InventoryService.ConfirmBooking cfg env w rid userID paymentID =
      (w, .error (.errorf "reservation has expired")) ∧
    (∀ now : Int, r.IsExpired now = false ↔ now ≤ r.ExpiresAt) := by
  constructor
  · simp [InventoryService.ConfirmBooking, DynamoDBRepository.GetReservation, hf, hr,
      Reservation.IsExpired, hexp]
  · intro now
    simp [Reservation.IsExpired]

/-- Witness for C7 (amended): `r1` expires at 1601 and is confirmed at 1602. -/
theorem confirm_expired_rejected_witness :
    InventoryService.ConfirmBooking exampleConfig (exampleEnv 1602 "t2" "b1")
      exampleReservedWorld "r1" "U1" "P1" =
      (exampleReservedWorld, .error (.errorf "reservation has expired")) :=
  (confirm_expired_rejected exampleConfig (exampleEnv 1602 "t2" "b1") exampleReservedWorld
    "r1" "U1" "P1"
    (NewReservation 1001 0 "r1" "E1" "S-0001" "U1" 100 10) (by rfl) (by decide) (by decide)).1

/-- C8. Confirm by a user other than the owner of a stored, unexpired reservation fails with the
not-owner error and leaves both stores as they were: nothing is written to the seats,
reservations or bookings table and no lock is acquired. -/
theorem confirm_wrong_user_rejected (cfg : Config) (env : Env) (w : World)
    (rid owner userID paymentID : String) (r : Reservation)
    (hf : env.faults.GetReservation = false)
    (hr : w.db.reservations rid = some r) (hexp : env.now ≤ r.ExpiresAt)
    (hown : r.UserID = owner) (hne : userID ≠ owner) :
    InventoryService.ConfirmBooking cfg env w rid userID paymentID =
      (w, .error (.errorf "reservation does not belong to user")) := by
  have h1 : ¬ (env.now > r.ExpiresAt) := by omega
  have h2 : ¬ (r.UserID = userID) := by
    rw [hown]; exact fun h => hne h.symm
  simp [InventoryService.ConfirmBooking, DynamoDBRepository.GetReservation, hf, hr,
    Reservation.IsExpired, h1, h2]

/-- Witness for C8: `U2` tries to confirm the reservation `r1` of `U1`. -/
theorem confirm_wrong_user_rejected_witness :
    InventoryService.ConfirmBooking exampleConfig (exampleEnv 1500 "t2" "b1")
      exampleReservedWorld "r1" "U2" "P1" =
      (exampleReservedWorld, .error (.errorf "reservation does not belong to user")) :=
  confirm_wrong_user_rejected exampleConfig (exampleEnv 1500 "t2" "b1") exampleReservedWorld
    "r1" "U1" "U2" "P1" (NewReservation 1001 0 "r1" "E1" "S-0001" "U1" 100 10)
    (by rfl) (by decide) (by decide) (by decide) (by decide)

/-- C9, counterexample.  Seat `S-0001` is AVAILABLE at version 9223372036854775807; in the
Reserve flow of `U1` the conditional `ReserveSeat` succeeds, the reservation put fails and the
compensating `ReleaseSeat` is not faulted: the flow returns an error, and the seat ends
AVAILABLE at version -9223372036854775807, not at the initial version plus two. -/
theorem reserve_compensation_wraps_at_max_version :
    let out := InventoryService.ReserveSeat exampleConfig exampleFaultyPutEnv
      exampleMaxVersionWorld "E1" "S-0001" "U1"
    DynamoDBRepository.GetSeat exampleMaxVersionWorld.db false "E1" "S-0001"
      = .ok exampleMaxVersionSeat ∧
    exampleMaxVersionSeat.Version = 9223372036854775807 ∧
    (DynamoDBRepository.ReserveSeat exampleMaxVersionWorld.db false 1001 "E1" "S-0001" "U1"
      exampleMaxVersionSeat.Version).2 = none ∧
    exampleFaultyPutEnv.faults.CreateReservation = true ∧
    exampleFaultyPutEnv.faults.ReleaseSeat = false ∧
    out.2 = .error (.wrapf "failed to create reservation"
      (.wrapf "failed to create reservation" .clientFault)) ∧
    (out.1.db.seats ("E1", "S-0001")).map Seat.Status = some .AVAILABLE ∧
    (out.1.db.seats ("E1", "S-0001")).map Seat.Version = some (-9223372036854775807) ∧
    (out.1.db.seats ("E1", "S-0001")).map Seat.Version ≠ some (9223372036854775807 + 2) := by
  refine ⟨by rfl, by decide, by decide, by decide, by decide, by rfl, by decide, by decide,
    by decide⟩

/-- C9, amended.  Compensation: in a Reserve flow that gets the lock, reads a seat of version
`v` below the greatest Go `int`, and whose conditional `ReserveSeat` succeeds, whose
reservation put then fails and whose compensating `ReleaseSeat` is not faulted, the flow
returns an error and no reservation id, the reservations and bookings tables are unchanged, and
the seat ends AVAILABLE with version exactly `v + 2`, no `user_id` and no `reserved_at`. -/
theorem reserve_compensation (cfg : Config) (env : Env) (w : World)
    (eventID seatNumber userID : String) (seat : Seat) (v : Int) (redis1 : Redis) (tok : String)
    (hacq : RedisRepository.AcquireLock w.redis env.faults.AcquireLock cfg.RedisLockTTL
      env.lockToken eventID seatNumber = (redis1, .ok tok))
    (hget : DynamoDBRepository.GetSeat w.db env.faults.GetSeat eventID seatNumber = .ok seat)
    (hv : seat.Version = v) (hvhi : v < maxInt64)
    (hres : (DynamoDBRepository.ReserveSeat w.db env.faults.ReserveSeat env.now
      eventID seatNumber userID seat.Version).2 = none)
    (hput : env.faults.CreateReservation = true)
    (hrb : env.faults.ReleaseSeat = false) :
    let out := InventoryService.ReserveSeat cfg env w eventID seatNumber userID
    out.2 = .error (.wrapf "failed to create reservation"
      (.wrapf "failed to create reservation" .clientFault)) ∧
    out.1.db.reservations = w.db.reservations ∧
    out.1.db.bookings = w.db.bookings ∧
    (∃ seat2, out.1.db.seats (eventID, seatNumber) = some seat2 ∧
      seat2.Status = .AVAILABLE ∧ seat2.Version = v + 2 ∧ seat2.UserID = none ∧
      seat2.ReservedAt = none ∧ seat2.Price = seat.Price) := by
  obtain ⟨hf2, hseat, hlo, hhi⟩ := getSeat_ok _ _ _ _ _ hget
  have hw := wrapInt64_succ seat.Version hlo (by omega)
  have hrg : minInt64 ≤ seat.Version ∧ seat.Version ≤ maxInt64 := ⟨hlo, hhi⟩
  have hf3 : env.faults.ReserveSeat = false := by
    cases hf : env.faults.ReserveSeat with
    | false => rfl
    | true => simp [DynamoDBRepository.ReserveSeat, DynamoDB.UpdateItemSeat, hf] at hres
  have havail : seat.Status = .AVAILABLE := by
    by_contra hne
    simp [DynamoDBRepository.ReserveSeat, DynamoDB.UpdateItemSeat, hf3, hseat, hne] at hres
  simp only [InventoryService.ReserveSeat, hacq]
  simp [InventoryService.ReserveSeat.body, DynamoDBRepository.GetSeat,
    DynamoDBRepository.ReserveSeat, DynamoDBRepository.CreateReservation,
    DynamoDBRepository.ReleaseSeat, DynamoDB.UpdateItemSeat, hf2, hf3, hput, hrb, hseat, havail,
    hrg, hw]
  omega

/-- Witness for C9: the reservation put of the Reserve flow on seat `S-0001` (version 0) fails
and the seat is back to AVAILABLE at version 2. -/
theorem reserve_compensation_witness :
    ∃ seat2, (InventoryService.ReserveSeat exampleConfig exampleFaultyPutEnv exampleWorld
        "E1" "S-0001" "U1").1.db.seats ("E1", "S-0001") = some seat2 ∧
      seat2.Status = .AVAILABLE ∧ seat2.Version = 0 + 2 ∧ seat2.UserID = none ∧
      seat2.ReservedAt = none ∧ seat2.Price = exampleSeat.Price :=
  (reserve_compensation exampleConfig exampleFaultyPutEnv exampleWorld "E1" "S-0001" "U1"
    exampleSeat 0
    (RedisRepository.AcquireLock exampleWorld.redis false 30 "t1" "E1" "S-0001").1 "t1"
    (by rfl) (by rfl) (by decide) (by decide) (by decide) (by rfl) (by rfl)).2.2.2

/-- C6, counterexample. Confirm has no status check.  After `U1` confirmed `r1`, the row is
CONFIRMED, and a second Confirm of `r1` is not turned away on that account: it fails only at
`ConfirmSeat`, and when the seat's lock is held by another flow it fails at `AcquireLock`, so
the lock is taken before the flow is rejected.  And a stored, unexpired reservation of status
CANCELLED whose seat is still held by its user is confirmed: Confirm returns a booking id. -/
theorem confirm_non_pending_not_rejected :
    (exampleConfirmedWorld.db.reservations "r1").map (fun r => r.Status) = some "CONFIRMED" ∧
    (InventoryService.ConfirmBooking exampleConfig (exampleEnv 1510 "t3" "b2")
      exampleConfirmedWorld "r1" "U1" "P1").2 =
      .error (.wrapf "failed to confirm seat"
        (.wrapf "failed to confirm seat" .ConditionalCheckFailedException)) ∧
    (InventoryService.ConfirmBooking exampleConfig (exampleEnv 1510 "t3" "b2")
      exampleContendedWorld "r1" "U1" "P1").2 =
      .error (.wrapf "failed to acquire lock" .ErrLockAlreadyHeld) ∧
    ((exampleReservedWorld.withReservationStatus "r1" "CANCELLED").db.reservations "r1").map
      (fun r => r.Status) = some "CANCELLED" ∧
    (InventoryService.ConfirmBooking exampleConfig (exampleEnv 1500 "t2" "b1")
      (exampleReservedWorld.withReservationStatus "r1" "CANCELLED") "r1" "U1" "P1").2 =
      .ok "b1" := by
  refine ⟨by decide, by rfl, by rfl, by decide, by rfl⟩

/-- C6, amended. Confirm does not read the reservation's status: with any other status stored
in the row it returns the same result.  A second Confirm with the same reservation id after a
successful first one (whose lock release did not fault), run with no fault before the
reservation expires, still fails and leaves both stores as they were, so no new booking is
created; it fails at `ConfirmSeat`, the seat being BOOKED, after taking and releasing the
lock. -/
theorem confirm_status_not_read_second_confirm_fails (cfg : Config) (env1 env2 : Env)
    (w : World) (rid userID paymentID1 paymentID2 bid st : String) (r : Reservation)
    (hr : w.db.reservations rid = some r)
    (hfirst : (InventoryService.ConfirmBooking cfg env1 w rid userID paymentID1).2 = .ok bid)
    (hrl : env1.faults.ReleaseLock = false) (hnf : env2.faults = Faults.none)
    (hexp : env2.now ≤ r.ExpiresAt) :
    (InventoryService.ConfirmBooking cfg env1 (w.withReservationStatus rid st)
        rid userID paymentID1).2 = .ok bid ∧
    InventoryService.ConfirmBooking cfg env2
        (InventoryService.ConfirmBooking cfg env1 w rid userID paymentID1).1
        rid userID paymentID2 =
      ((InventoryService.ConfirmBooking cfg env1 w rid userID paymentID1).1,
        .error (.wrapf "failed to confirm seat"
          (.wrapf "failed to confirm seat" .ConditionalCheckFailedException))) := by
  refine ⟨(confirmFlow_status_not_read cfg env1 w rid userID paymentID1 st).trans hfirst, ?_⟩
  obtain ⟨r0, hr0, _, hu, hfree, hbody, hdb, hredis⟩ :=
    confirmFlow_ok cfg env1 w rid userID paymentID1 bid hfirst
  rw [hr] at hr0
  cases hr0
  obtain ⟨seat1, hs1, _, _, _, hseats, _, st1, hres⟩ :=
    confirmBody_ok env1 w.db r rid userID paymentID1 bid hr hbody
  have hw1r : (InventoryService.ConfirmBooking cfg env1 w rid userID paymentID1).1.db.reservations
      rid = some { r with Status := st1 } := by
    rw [hdb, hres]; simp
  have hw1s : (InventoryService.ConfirmBooking cfg env1 w rid userID paymentID1).1.db.seats
      (r.EventID, r.SeatNumber) =
        some { seat1 with Status := .BOOKED, Version := seat1.Version + 1,
                          UpdatedAt := env1.now } := by
    rw [hdb, hseats]; simp
  have hrun := confirmFlow_run cfg env2
    (InventoryService.ConfirmBooking cfg env1 w rid userID paymentID1).1 rid userID paymentID2
    { r with Status := st1 } hnf hw1r hexp hu (by rw [hredis hrl]; exact hfree)
    (confirmFlow_ok_ttl cfg env1 w rid userID paymentID1 bid hfirst)
  have hbd := confirmBody_not_reserved env2
    (InventoryService.ConfirmBooking cfg env1 w rid userID paymentID1).1.db
    { r with Status := st1 } rid userID paymentID2 hnf
    (by
      intro seat2 hs2
      rw [hw1s] at hs2
      cases hs2
      simp)
  rw [hrun, hbd]

/-- Witness for C6 (amended): `r1` confirmed at 1500 and again at 1510. -/
theorem confirm_status_not_read_second_confirm_fails_witness :
    InventoryService.ConfirmBooking exampleConfig (exampleEnv 1510 "t3" "b2")
        (InventoryService.ConfirmBooking exampleConfig (exampleEnv 1500 "t2" "b1")
          exampleReservedWorld "r1" "U1" "P1").1
        "r1" "U1" "P2" =
      ((InventoryService.ConfirmBooking exampleConfig (exampleEnv 1500 "t2" "b1")
          exampleReservedWorld "r1" "U1" "P1").1,
        .error (.wrapf "failed to confirm seat"
          (.wrapf "failed to confirm seat" .ConditionalCheckFailedException))) :=
  (confirm_status_not_read_second_confirm_fails exampleConfig (exampleEnv 1500 "t2" "b1")
    (exampleEnv 1510 "t3" "b2") exampleReservedWorld "r1" "U1" "P1" "P2" "b1" "CANCELLED"
    (NewReservation 1001 0 "r1" "E1" "S-0001" "U1" 100 10)
    (by decide) (by rfl) (by rfl) (by rfl) (by decide)).2

/-! ## The attribute discipline of seat rows -/

/-- A conditional update whose result rows are consistent keeps every row consistent. -/
lemma updateItemSeat_consistent (db : DynamoDB) (fault : Bool) (key : String × String)
    (condition : Seat → Bool) (update : Seat → Seat)
    (hupd : ∀ row, condition row = true → (update row).attributesConsistent)
    (hdb : ∀ k seat, db.seats k = some seat → seat.attributesConsistent) :
    ∀ k seat, (db.UpdateItemSeat fault key condition update).1.seats k = some seat →
      seat.attributesConsistent := by
  intro k seat h
  unfold DynamoDB.UpdateItemSeat at h
  cases fault with
  | true => exact hdb k seat (by simpa using h)
  | false =>
    simp only [Bool.false_eq_true, if_false] at h
    cases hrow : db.seats key with
    | none => exact hdb k seat (by simpa [hrow] using h)
    | some row =>
      simp only [hrow] at h
      by_cases hc : condition row = true
      · simp only [hc, if_true] at h
        by_cases hk : k = key
        · simp only [hk, if_true, Option.some.injEq] at h
          exact h ▸ hupd row hc
        · simp only [hk, if_false] at h
          exact hdb k seat h
      · simp only [hc] at h
        exact hdb k seat (by simpa using h)

/-- Putting a consistent row keeps every row consistent. -/
lemma putSeat_consistent (db : DynamoDB) (row : Seat) (hrow : row.attributesConsistent)
    (hdb : ∀ k seat, db.seats k = some seat → seat.attributesConsistent) :
    ∀ k seat, (db.putSeat row).seats k = some seat → seat.attributesConsistent := by
  intro k seat h
  unfold DynamoDB.putSeat at h
  by_cases hk : k = (row.EventID, row.SeatNumber)
  · simp only [hk, if_true, Option.some.injEq] at h
    exact h ▸ hrow
  · simp only [hk, if_false] at h
    exact hdb k seat h

/-- A batch of consistent rows keeps every row consistent. -/
lemma batchWriteItem_consistent (unprocessed : Seat → Bool) (rows : List Seat) :
    ∀ (db : DynamoDB), (∀ row ∈ rows, row.attributesConsistent) →
      (∀ k seat, db.seats k = some seat → seat.attributesConsistent) →
      ∀ k seat, (db.BatchWriteItem unprocessed rows).1.seats k = some seat →
        seat.attributesConsistent := by
  induction rows with
  | nil => intro db _ hdb; exact hdb
  | cons row rest ih =>
    intro db hrows hdb
    simp only [DynamoDB.BatchWriteItem, List.filter_cons]
    cases hu : unprocessed row
    · simp only [Bool.not_false, if_true, List.foldl_cons]
      exact ih (db.putSeat row) (fun x hx => hrows x (List.mem_cons_of_mem _ hx))
        (putSeat_consistent db row (hrows row (List.mem_cons_self _ _)) hdb)
    · simp only [Bool.not_true, Bool.false_eq_true, if_false]
      exact ih db (fun x hx => hrows x (List.mem_cons_of_mem _ hx)) hdb

/-- The rows written by `InitializeSeats` are consistent. -/
lemma initialSeat_consistent (now : Int) (eventID : String) (price : Float64) (j : Nat) :
    (initialSeat now eventID price j).attributesConsistent := by
  simp [Seat.attributesConsistent, initialSeat]

/-- The batch loop of `InitializeSeats` keeps every row consistent. -/
lemma initializeSeats_loop_consistent (batchFault : Nat → Bool)
    (unprocessed : Nat → Seat → Bool) (now : Int) (eventID : String)
    (totalSeats : Int) (price : Float64) (fuel : Nat) :
    ∀ (i : Nat) (created : Int) (db : DynamoDB),
      (∀ k seat, db.seats k = some seat → seat.attributesConsistent) →
      ∀ k seat, (InitializeSeats.loop batchFault unprocessed now eventID totalSeats price fuel i
        created db).1.seats k = some seat → seat.attributesConsistent := by
  induction fuel with
  | zero => intro i created db hdb; simpa [InitializeSeats.loop] using hdb
  | succ fuel ih =>
    intro i created db hdb
    simp only [InitializeSeats.loop]
    split
    · split
      · exact hdb
      · apply ih
        apply batchWriteItem_consistent _ _ _ _ hdb
        intro row hrow
        obtain ⟨j, _, rfl⟩ := List.mem_map.mp hrow
        exact initialSeat_consistent now eventID price j
    · exact hdb

/-- The store left by `ReserveSeat` is the one left by its conditional update. -/
lemma reserveSeat_store (db : DynamoDB) (fault : Bool) (now : Int)
    (eventID seatNumber userID : String) (currentVersion : Int) :
    (DynamoDBRepository.ReserveSeat db fault now eventID seatNumber userID currentVersion).1 =
      (db.UpdateItemSeat fault (eventID, seatNumber)
        (fun row => decide (row.Status = .AVAILABLE) && decide (row.Version = currentVersion))
        (fun row => { row with
          Status := .RESERVED, UserID := some userID, ReservedAt := some now,
          Version := wrapInt64 (currentVersion + 1), UpdatedAt := now })).1 := by
  unfold DynamoDBRepository.ReserveSeat
  split
  · next heq => rw [heq]
  · next heq => rw [heq]; split <;> rfl

/-- The store left by `ReleaseSeat` is the one left by its conditional update. -/
lemma releaseSeat_store (db : DynamoDB) (fault : Bool) (now : Int)
    (eventID seatNumber userID : String) :
    (DynamoDBRepository.ReleaseSeat db fault now eventID seatNumber userID).1 =
      (db.UpdateItemSeat fault (eventID, seatNumber)
        (fun row => decide (row.Status = .RESERVED) && decide (row.UserID = some userID))
        (fun row => { row with
          Status := .AVAILABLE, Version := row.Version + 1, UpdatedAt := now,
          UserID := none, ReservedAt := none })).1 := by
  unfold DynamoDBRepository.ReleaseSeat
  split
  · next heq => rw [heq]
  · next heq => rw [heq]; split <;> rfl

/-- The store left by `ConfirmSeat` is the one left by its conditional update. -/
lemma confirmSeat_store (db : DynamoDB) (fault : Bool) (now : Int)
    (eventID seatNumber userID : String) :
    (DynamoDBRepository.ConfirmSeat db fault now eventID seatNumber userID).1 =
      (db.UpdateItemSeat fault (eventID, seatNumber)
        (fun row => decide (row.Status = .RESERVED) && decide (row.UserID = some userID))
        (fun row => { row with
          Status := .BOOKED, Version := row.Version + 1, UpdatedAt := now })).1 := by
  unfold DynamoDBRepository.ConfirmSeat
  split
  · next heq => rw [heq]
  · next heq => rw [heq]

/-- Every catalog call keeps every row consistent. -/
lemma catalogOp_consistent (op : CatalogOp) (db : DynamoDB)
    (hdb : ∀ k seat, db.seats k = some seat → seat.attributesConsistent) :
    ∀ k seat, (CatalogOp.apply db op).seats k = some seat → seat.attributesConsistent := by
  cases op with
  | InitializeSeats batchFault unprocessed now eventID totalSeats price =>
    exact initializeSeats_loop_consistent batchFault unprocessed now eventID totalSeats price
      _ 0 0 db hdb
  | ReserveSeat fault now eventID seatNumber userID currentVersion =>
    simp only [CatalogOp.apply, reserveSeat_store]
    apply updateItemSeat_consistent _ _ _ _ _ _ hdb
    intro row _
    simp [Seat.attributesConsistent]
  | ReleaseSeat fault now eventID seatNumber userID =>
    simp only [CatalogOp.apply, releaseSeat_store]
    apply updateItemSeat_consistent _ _ _ _ _ _ hdb
    intro row _
    simp [Seat.attributesConsistent]
  | ConfirmSeat fault now eventID seatNumber userID =>
    simp only [CatalogOp.apply, confirmSeat_store]
    apply updateItemSeat_consistent _ _ _ _ _ _ hdb
    intro row hc
    simp only [Bool.and_eq_true, decide_eq_true_eq] at hc
    simp [Seat.attributesConsistent]

/-- Every sequence of catalog calls keeps every row consistent. -/
lemma runCatalogOps_consistent (ops : List CatalogOp) :
    ∀ (db : DynamoDB), (∀ k seat, db.seats k = some seat → seat.attributesConsistent) →
      ∀ k seat, (runCatalogOps db ops).seats k = some seat → seat.attributesConsistent := by
  induction ops with
  | nil => intro db hdb; exact hdb
  | cons op rest ih =>
    intro db hdb
    simp only [runCatalogOps, List.foldl_cons]
    exact ih (CatalogOp.apply db op) (catalogOp_consistent op db hdb)

/-- C10. In every store reached from the empty store by any sequence of `InitializeSeats`,
`ReserveSeat`, `ReleaseSeat` and `ConfirmSeat` calls with arbitrary arguments, succeeding or
failing, every RESERVED seat row carries both a `user_id` and a `reserved_at` attribute and
every AVAILABLE seat row carries neither. -/
theorem catalog_seat_attributes_invariant (ops : List CatalogOp) (key : String × String)
    (seat : Seat) (h : (runCatalogOps DynamoDB.empty ops).seats key = some seat) :
    (seat.Status = .RESERVED → seat.UserID ≠ none ∧ seat.ReservedAt ≠ none) ∧
    (seat.Status = .AVAILABLE → seat.UserID = none ∧ seat.ReservedAt = none) :=
  runCatalogOps_consistent ops DynamoDB.empty (by intro k seat hk; simp [DynamoDB.empty] at hk)
    key seat h

/-- Witness for C10: three seats initialised, then `S-0001` reserved by `U1`. -/
theorem catalog_seat_attributes_invariant_witness :
    (runCatalogOps DynamoDB.empty
      [.InitializeSeats (fun _ => false) (fun _ _ => false) 1000 "E1" 3 100,
       .ReserveSeat false 1001 "E1" "S-0001" "U1" 0]).seats ("E1", "S-0001")
      = some exampleReservedSeat ∧
    (exampleReservedSeat.Status = .RESERVED →
      exampleReservedSeat.UserID ≠ none ∧ exampleReservedSeat.ReservedAt ≠ none) :=
  ⟨by decide,
   (catalog_seat_attributes_invariant
      [.InitializeSeats (fun _ => false) (fun _ _ => false) 1000 "E1" 3 100,
       .ReserveSeat false 1001 "E1" "S-0001" "U1" 0]
      ("E1", "S-0001") exampleReservedSeat (by decide)).1⟩

/-! ## The race of concurrent Reserve flows -/

/-- The cut of the Reserve flow into operations is faithful: six operations run in a row,
whatever the faults, leave the stores and return the result of `InventoryService.ReserveSeat`. -/
lemma reserveSeat_eq_steps (cfg : Config) (env : Env) (w : World)
    (eventID seatNumber userID : String) :
    InventoryService.ReserveSeat.steps cfg env.faults env.now env.nsec
      { eventID := eventID, seatNumber := seatNumber, userID := userID,
        lockToken := env.lockToken, reservationID := env.newID } 6 (w, .start) =
      ((InventoryService.ReserveSeat cfg env w eventID seatNumber userID).1,
        .done (InventoryService.ReserveSeat cfg env w eventID seatNumber userID).2) := by
  simp only [InventoryService.ReserveSeat.steps, InventoryService.ReserveSeat]
  rcases hacq : RedisRepository.AcquireLock w.redis env.faults.AcquireLock cfg.RedisLockTTL
    env.lockToken eventID seatNumber with ⟨redis1, err | tok⟩
  · simp [InventoryService.ReserveSeat.step, hacq]
  · simp only [InventoryService.ReserveSeat.step, hacq, InventoryService.ReserveSeat.body]
    rcases hget : DynamoDBRepository.GetSeat w.db env.faults.GetSeat eventID seatNumber
      with err | seat
    · simp [InventoryService.ReserveSeat.step]
    · by_cases hst : seat.Status = .AVAILABLE
      · simp only [hst, ne_eq, not_true_eq_false, if_false, InventoryService.ReserveSeat.step]
        rcases hres : DynamoDBRepository.ReserveSeat w.db env.faults.ReserveSeat env.now
          eventID seatNumber userID seat.Version with ⟨db1, _ | err⟩
        · simp only [InventoryService.ReserveSeat.step]
          rcases hput : DynamoDBRepository.CreateReservation db1 env.faults.CreateReservation
            (NewReservation env.now env.nsec env.newID eventID seatNumber userID seat.Price
              cfg.ReservationTTLMinutes) with ⟨db2, _ | err⟩
          · simp [InventoryService.ReserveSeat.step]
          · simp [InventoryService.ReserveSeat.step]
        · simp [InventoryService.ReserveSeat.step]
      · simp [hst, InventoryService.ReserveSeat.step]

/-- The first operation: `AcquireLock` leaves the catalog alone, and the flow either holds the
lock or returns the lock-already-held error; on a free key it holds the lock. -/
lemma step_start (cfg : Config) (now nsec : Int) (call : ReserveCall) (w : World)
    (httl : 0 ≤ durationOf cfg.RedisLockTTL 1000000000) :
    (InventoryService.ReserveSeat.step cfg Faults.none now nsec call w .start).1.db = w.db ∧
    ((InventoryService.ReserveSeat.step cfg Faults.none now nsec call w .start).2
        = .locked call.lockToken ∨
      (InventoryService.ReserveSeat.step cfg Faults.none now nsec call w .start).2
        = .done (.error (.wrapf "failed to acquire lock" .ErrLockAlreadyHeld))) ∧
    (w.redis.keys (getLockKey call.eventID call.seatNumber) = none →
      (InventoryService.ReserveSeat.step cfg Faults.none now nsec call w .start).2
        = .locked call.lockToken) := by
  have hd : ¬ durationOf cfg.RedisLockTTL 1000000000 < 0 := not_lt.mpr httl
  simp only [InventoryService.ReserveSeat.step, RedisRepository.AcquireLock, Faults.none, hd]
  cases hk : w.redis.keys (getLockKey call.eventID call.seatNumber) <;> simp

/-- The second operation: `GetSeat` with the status check changes nothing; the flow keeps the
row as its snapshot when it is AVAILABLE and returns seat-not-available otherwise. -/
lemma step_locked (cfg : Config) (now nsec : Int) (call : ReserveCall) (w : World)
    (lockToken : String) (row : Seat)
    (hrow : w.db.seats (call.eventID, call.seatNumber) = some row)
    (hrg : minInt64 ≤ row.Version ∧ row.Version ≤ maxInt64) :
    InventoryService.ReserveSeat.step cfg Faults.none now nsec call w (.locked lockToken) =
      (w, if row.Status ≠ .AVAILABLE then .exiting lockToken (.error .ErrSeatAlreadyReserved)
          else .gotSeat lockToken row) := by
  simp only [InventoryService.ReserveSeat.step, DynamoDBRepository.GetSeat, Faults.none, hrow]
  by_cases h : row.Status = .AVAILABLE <;> simp [h, hrg]

/-- The conditional write on a row that is AVAILABLE at the snapshot's version reserves it. -/
lemma step_gotSeat_success (cfg : Config) (now nsec : Int) (call : ReserveCall) (w : World)
    (lockToken : String) (seat row : Seat)
    (hrow : w.db.seats (call.eventID, call.seatNumber) = some row)
    (h1 : row.Status = .AVAILABLE) (h2 : row.Version = seat.Version) :
    (InventoryService.ReserveSeat.step cfg Faults.none now nsec call w (.gotSeat lockToken seat)).2
      = .reserved lockToken seat ∧
    (InventoryService.ReserveSeat.step cfg Faults.none now nsec call w
      (.gotSeat lockToken seat)).1.db.seats (call.eventID, call.seatNumber)
      = some { row with Status := .RESERVED, UserID := some call.userID,
                        ReservedAt := some now, Version := wrapInt64 (seat.Version + 1),
                        UpdatedAt := now } := by
  simp [InventoryService.ReserveSeat.step, DynamoDBRepository.ReserveSeat,
    DynamoDB.UpdateItemSeat, Faults.none, hrow, h1, h2]

/-- The conditional write on a row that is not AVAILABLE changes nothing and the flow returns
seat-not-available. -/
lemma step_gotSeat_failure (cfg : Config) (now nsec : Int) (call : ReserveCall) (w : World)
    (lockToken : String) (seat row : Seat)
    (hrow : w.db.seats (call.eventID, call.seatNumber) = some row)
    (h1 : row.Status ≠ .AVAILABLE) :
    InventoryService.ReserveSeat.step cfg Faults.none now nsec call w (.gotSeat lockToken seat) =
      (w, .exiting lockToken
        (.error (.wrapf "failed to reserve seat in dynamodb" .ErrSeatAlreadyReserved))) := by
  simp [InventoryService.ReserveSeat.step, DynamoDBRepository.ReserveSeat,
    DynamoDB.UpdateItemSeat, Faults.none, hrow, h1]

/-- The reservation put leaves the seats table alone and the flow returns its reservation id. -/
lemma step_reserved (cfg : Config) (now nsec : Int) (call : ReserveCall) (w : World)
    (lockToken : String) (seat : Seat) :
    (InventoryService.ReserveSeat.step cfg Faults.none now nsec call w
      (.reserved lockToken seat)).1.db.seats = w.db.seats ∧
    (InventoryService.ReserveSeat.step cfg Faults.none now nsec call w (.reserved lockToken seat)).2
      = .exiting lockToken (.ok call.reservationID) := by
  simp [InventoryService.ReserveSeat.step, DynamoDBRepository.CreateReservation, Faults.none]

/-- The deferred `ReleaseLock` leaves the catalog alone and the flow returns its result. -/
lemma step_exiting (cfg : Config) (now nsec : Int) (call : ReserveCall) (w : World)
    (lockToken : String) (result : Except Error String) :
    (InventoryService.ReserveSeat.step cfg Faults.none now nsec call w
      (.exiting lockToken result)).1.db = w.db ∧
    (InventoryService.ReserveSeat.step cfg Faults.none now nsec call w (.exiting lockToken result)).2
      = .done result := by
  simp [InventoryService.ReserveSeat.step]

/-- Every operation of a flow that has not returned brings it closer to returning. -/
lemma step_remaining (cfg : Config) (faults : Faults) (now nsec : Int) (call : ReserveCall)
    (w : World) (pc : ReservePC) :
    (InventoryService.ReserveSeat.step cfg faults now nsec call w pc).2.remaining ≤
      pc.remaining - 1 := by
  cases pc with
  | start =>
    simp only [InventoryService.ReserveSeat.step]
    split <;> simp [ReservePC.remaining]
  | locked t =>
    simp only [InventoryService.ReserveSeat.step]
    split
    · simp [ReservePC.remaining]
    · split <;> simp [ReservePC.remaining]
  | gotSeat t seat =>
    simp only [InventoryService.ReserveSeat.step]
    split <;> simp [ReservePC.remaining]
  | reserved t seat =>
    simp only [InventoryService.ReserveSeat.step]
    split <;> simp [ReservePC.remaining]
  | rollback t err => simp [InventoryService.ReserveSeat.step, ReservePC.remaining]
  | exiting t result => simp [InventoryService.ReserveSeat.step, ReservePC.remaining]
  | done result => simp [InventoryService.ReserveSeat.step, ReservePC.remaining]

/-- The lock-already-held error, as the flow wraps it, is a loser's error. -/
lemma raceLoserError_lock :
    raceLoserError (.wrapf "failed to acquire lock" .ErrLockAlreadyHeld) := by
  right; decide

/-- The seat-not-available error of the status check is a loser's error. -/
lemma raceLoserError_status : raceLoserError .ErrSeatAlreadyReserved := by
  left; decide

/-- The seat-not-available error of the conditional write, as the flow wraps it, is a loser's
error. -/
lemma raceLoserError_write :
    raceLoserError (.wrapf "failed to reserve seat in dynamodb" .ErrSeatAlreadyReserved) := by
  left; decide

/-- While the row is untouched: a turn that leaves the row alone, takes flow `i` to a loser's
program point and keeps some flow about to try, preserves the invariant. -/
lemma raceInv_open_frame (n : Nat) (calls : Nat → ReserveCall) (eventID seatNumber : String)
    (seat0 : Seat) (st : Race) (i : Nat) (w1 : World) (pc1 : ReservePC)
    (hseat : st.world.db.seats (eventID, seatNumber) = some seat0)
    (hlos : ∀ j, j < n → loserPC seat0 (st.pc j))
    (hseat1 : w1.db.seats (eventID, seatNumber) = st.world.db.seats (eventID, seatNumber))
    (hpc1 : loserPC seat0 pc1)
    (hcand : (i < n ∧ candidatePC seat0 pc1) ∨
      ∃ j, j < n ∧ j ≠ i ∧ candidatePC seat0 (st.pc j)) :
    RaceInv n calls eventID seatNumber seat0
      { world := w1, pc := fun j => if j = i then pc1 else st.pc j } := by
  left
  refine ⟨by rw [hseat1, hseat], ?_, ?_⟩
  · intro j hj
    by_cases hji : j = i
    · simp [hji, hpc1]
    · simp [hji, hlos j hj]
  · right
    rcases hcand with ⟨hi, hc⟩ | ⟨j, hj, hji, hc⟩
    · exact ⟨i, hi, by simp [hc]⟩
    · exact ⟨j, hj, by simp [hji, hc]⟩

/-- Once flow `w` has reserved the row: a turn that leaves the row alone and takes flow `i` to
a winner's program point if `i = w` and to a loser's otherwise, preserves the invariant. -/
lemma raceInv_won_frame (n : Nat) (calls : Nat → ReserveCall) (eventID seatNumber : String)
    (seat0 : Seat) (st : Race) (i : Nat) (w1 : World) (pc1 : ReservePC) (w : Nat) (nw : Int)
    (hw : w < n)
    (hseat : st.world.db.seats (eventID, seatNumber) =
      some { seat0 with Status := .RESERVED, UserID := some (calls w).userID,
                        ReservedAt := some nw, Version := wrapInt64 (seat0.Version + 1),
                        UpdatedAt := nw })
    (hwin : winnerPC seat0 (calls w).reservationID (st.pc w))
    (hlos : ∀ j, j < n → j ≠ w → loserPC seat0 (st.pc j))
    (hseat1 : w1.db.seats (eventID, seatNumber) = st.world.db.seats (eventID, seatNumber))
    (hpcw : i = w → winnerPC seat0 (calls w).reservationID pc1)
    (hpcl : i ≠ w → loserPC seat0 pc1) :
    RaceInv n calls eventID seatNumber seat0
      { world := w1, pc := fun j => if j = i then pc1 else st.pc j } := by
  right
  refine ⟨w, nw, hw, by rw [hseat1, hseat], ?_, ?_⟩
  · by_cases hwi : w = i
    · simp [hwi, hpcw hwi.symm]
      exact hwi ▸ hpcw hwi.symm
    · simp [hwi, hwin]
  · intro j hj hjw
    by_cases hji : j = i
    · simp [hji]
      exact hpcl (hji ▸ hjw)
    · simp [hji, hlos j hj hjw]

/-- A turn of any flow preserves the invariant of the race. -/
lemma raceInv_turn (cfg : Config) (n : Nat) (calls : Nat → ReserveCall)
    (eventID seatNumber : String) (seat0 : Seat)
    (hcalls : ∀ i, i < n → (calls i).eventID = eventID ∧ (calls i).seatNumber = seatNumber)
    (havail : seat0.Status = .AVAILABLE)
    (hrg : minInt64 ≤ seat0.Version ∧ seat0.Version ≤ maxInt64)
    (httl : 0 ≤ durationOf cfg.RedisLockTTL 1000000000) (st : Race)
    (hinv : RaceInv n calls eventID seatNumber seat0 st) (i : Nat) (now nsec : Int)
    (hi : i < n) :
    RaceInv n calls eventID seatNumber seat0 (Race.step cfg n calls st (.turn i now nsec)) := by
  obtain ⟨he, hs⟩ := hcalls i hi
  simp only [Race.step, hi, if_true]
  rcases hinv with ⟨hseat, hlos, hcand⟩ | ⟨w, nw, hw, hseat, hwin, hlos⟩
  · -- the row is untouched
    have hseat0 : st.world.db.seats ((calls i).eventID, (calls i).seatNumber) = some seat0 := by
      rw [he, hs]; exact hseat
    have hli := hlos i hi
    have hother : ∀ pc, ¬ candidatePC seat0 pc → pc ≠ .start → st.pc i = pc →
        ∃ j, j < n ∧ j ≠ i ∧ candidatePC seat0 (st.pc j) := by
      intro pc hnc hns hpc
      rcases hcand with ⟨hall, _⟩ | ⟨j, hj, hcj⟩
      · exact absurd ((hall i hi).symm.trans hpc).symm hns
      · refine ⟨j, hj, ?_, hcj⟩
        intro hji
        rw [hji, hpc] at hcj
        exact hnc hcj
    cases hpc : st.pc i with
    | start =>
      obtain ⟨hdb, hor, hfree⟩ := step_start cfg now nsec (calls i) st.world httl
      apply raceInv_open_frame n calls eventID seatNumber seat0 st i _ _ hseat hlos
      · rw [hdb]
      · rcases hor with h | h <;> rw [h]
        · trivial
        · exact raceLoserError_lock
      · rcases hcand with ⟨_, hfr⟩ | ⟨j, hj, hcj⟩
        · left
          rw [hfree (by rw [he, hs]; exact hfr)]
          exact ⟨hi, trivial⟩
        · right
          refine ⟨j, hj, ?_, hcj⟩
          intro hji
          rw [hji, hpc] at hcj
          exact hcj
    | locked t =>
      rw [step_locked cfg now nsec (calls i) st.world t seat0 hseat0 hrg]
      simp only [havail, ne_eq, not_true_eq_false, if_false]
      exact raceInv_open_frame n calls eventID seatNumber seat0 st i _ _ hseat hlos rfl rfl
        (Or.inl ⟨hi, rfl⟩)
    | gotSeat t seat =>
      rw [hpc] at hli
      have hsnap : seat = seat0 := hli
      subst hsnap
      obtain ⟨hpc1, hrow1⟩ :=
        step_gotSeat_success cfg now nsec (calls i) st.world t seat seat hseat0 havail rfl
      right
      refine ⟨i, now, hi, ?_, ?_, ?_⟩
      · rw [← he, ← hs]; exact hrow1
      · simp only [if_true, hpc1]
        rfl
      · intro j hj hji
        simp only [hji, if_false]
        exact hlos j hj
    | reserved t seat => rw [hpc] at hli; exact hli.elim
    | rollback t err => rw [hpc] at hli; exact hli.elim
    | exiting t result =>
      obtain ⟨hdb, hpc1⟩ := step_exiting cfg now nsec (calls i) st.world t result
      rw [hpc] at hli
      apply raceInv_open_frame n calls eventID seatNumber seat0 st i _ _ hseat hlos
      · rw [hdb]
      · rw [hpc1]
        cases result with
        | error err => exact hli
        | ok rid => exact hli.elim
      · right
        exact hother _ (by simp [candidatePC]) (by simp) hpc
    | done result =>
      rw [hpc] at hli
      apply raceInv_open_frame n calls eventID seatNumber seat0 st i _ _ hseat hlos
      · rfl
      · simpa [InventoryService.ReserveSeat.step] using hli
      · right
        exact hother _ (by simp [candidatePC]) (by simp) hpc
  · -- flow w has reserved the row
    have hseatR : st.world.db.seats ((calls i).eventID, (calls i).seatNumber) =
        some { seat0 with Status := .RESERVED, UserID := some (calls w).userID,
                          ReservedAt := some nw, Version := wrapInt64 (seat0.Version + 1),
                          UpdatedAt := nw } := by
      rw [he, hs]; exact hseat
    by_cases hiw : i = w
    · subst hiw
      cases hpc : st.pc i with
      | start => rw [hpc] at hwin; exact hwin.elim
      | locked t => rw [hpc] at hwin; exact hwin.elim
      | gotSeat t seat => rw [hpc] at hwin; exact hwin.elim
      | rollback t err => rw [hpc] at hwin; exact hwin.elim
      | reserved t seat =>
        obtain ⟨hdb, hpc1⟩ := step_reserved cfg now nsec (calls i) st.world t seat
        apply raceInv_won_frame n calls eventID seatNumber seat0 st i _ _ i nw hw hseat hwin hlos
        · rw [hdb]
        · intro _; rw [hpc1]; rfl
        · intro h; exact absurd rfl h
      | exiting t result =>
        obtain ⟨hdb, hpc1⟩ := step_exiting cfg now nsec (calls i) st.world t result
        rw [hpc] at hwin
        apply raceInv_won_frame n calls eventID seatNumber seat0 st i _ _ i nw hw hseat
          (by rw [hpc]; exact hwin) hlos
        · rw [hdb]
        · intro _
          rw [hpc1]
          cases result with
          | error err => exact hwin.elim
          | ok rid => exact hwin
        · intro h; exact absurd rfl h
      | done result =>
        rw [hpc] at hwin
        apply raceInv_won_frame n calls eventID seatNumber seat0 st i _ _ i nw hw hseat
          (by rw [hpc]; exact hwin) hlos
        · rfl
        · intro _; simpa [InventoryService.ReserveSeat.step] using hwin
        · intro h; exact absurd rfl h
    · have hli := hlos i hi hiw
      cases hpc : st.pc i with
      | start =>
        obtain ⟨hdb, hor, _⟩ := step_start cfg now nsec (calls i) st.world httl
        apply raceInv_won_frame n calls eventID seatNumber seat0 st i _ _ w nw hw hseat hwin hlos
        · rw [hdb]
        · intro h; exact absurd h hiw
        · intro _
          rcases hor with h | h <;> rw [h]
          · trivial
          · exact raceLoserError_lock
      | locked t =>
        rw [step_locked cfg now nsec (calls i) st.world t _ hseatR (wrapInt64_inRange _)]
        apply raceInv_won_frame n calls eventID seatNumber seat0 st i _ _ w nw hw hseat hwin hlos
        · rfl
        · intro h; exact absurd h hiw
        · intro _
          simp only [ne_eq, reduceCtorEq, not_false_eq_true, if_true]
          exact raceLoserError_status
      | gotSeat t seat =>
        rw [step_gotSeat_failure cfg now nsec (calls i) st.world t seat _ hseatR (by simp)]
        apply raceInv_won_frame n calls eventID seatNumber seat0 st i _ _ w nw hw hseat hwin hlos
        · rfl
        · intro h; exact absurd h hiw
        · intro _; exact raceLoserError_write
      | reserved t seat => rw [hpc] at hli; exact hli.elim
      | rollback t err => rw [hpc] at hli; exact hli.elim
      | exiting t result =>
        obtain ⟨hdb, hpc1⟩ := step_exiting cfg now nsec (calls i) st.world t result
        rw [hpc] at hli
        apply raceInv_won_frame n calls eventID seatNumber seat0 st i _ _ w nw hw hseat hwin hlos
        · rw [hdb]
        · intro h; exact absurd h hiw
        · intro _
          rw [hpc1]
          cases result with
          | error err => exact hli
          | ok rid => exact hli.elim
      | done result =>
        rw [hpc] at hli
        apply raceInv_won_frame n calls eventID seatNumber seat0 st i _ _ w nw hw hseat hwin hlos
        · rfl
        · intro h; exact absurd h hiw
        · intro _; simpa [InventoryService.ReserveSeat.step] using hli

/-- The expiry of a key preserves the invariant of the race. -/
lemma raceInv_expire (cfg : Config) (n : Nat) (calls : Nat → ReserveCall)
    (eventID seatNumber : String) (seat0 : Seat) (st : Race)
    (hinv : RaceInv n calls eventID seatNumber seat0 st) (key : String) :
    RaceInv n calls eventID seatNumber seat0 (Race.step cfg n calls st (.expire key)) := by
  simp only [Race.step]
  rcases hinv with ⟨hseat, hlos, hcand⟩ | ⟨w, nw, hw, hseat, hwin, hlos⟩
  · left
    refine ⟨hseat, hlos, ?_⟩
    rcases hcand with ⟨hall, hfree⟩ | hc
    · left
      refine ⟨hall, ?_⟩
      simp only [Redis.expire]
      split
      · rfl
      · exact hfree
    · right; exact hc
  · right
    exact ⟨w, nw, hw, hseat, hwin, hlos⟩

/-- Every schedule preserves the invariant of the race. -/
lemma raceInv_run (cfg : Config) (n : Nat) (calls : Nat → ReserveCall)
    (eventID seatNumber : String) (seat0 : Seat)
    (hcalls : ∀ i, i < n → (calls i).eventID = eventID ∧ (calls i).seatNumber = seatNumber)
    (havail : seat0.Status = .AVAILABLE)
    (hrg : minInt64 ≤ seat0.Version ∧ seat0.Version ≤ maxInt64)
    (httl : 0 ≤ durationOf cfg.RedisLockTTL 1000000000) (schedule : List RaceAction) :
    ∀ st, RaceInv n calls eventID seatNumber seat0 st →
      RaceInv n calls eventID seatNumber seat0 (Race.run cfg n calls st schedule) := by
  induction schedule with
  | nil => intro st h; exact h
  | cons a rest ih =>
    intro st h
    simp only [Race.run, List.foldl_cons]
    apply ih
    cases a with
    | turn i now nsec =>
      by_cases hi : i < n
      · exact raceInv_turn cfg n calls eventID seatNumber seat0 hcalls havail hrg httl st h i
          now nsec hi
      · simpa [Race.step, hi] using h
    | expire key => exact raceInv_expire cfg n calls eventID seatNumber seat0 st h key

/-- Along a schedule the operations flow `i` still has to perform drop by one with each of its
turns. -/
lemma run_remaining (cfg : Config) (n : Nat) (calls : Nat → ReserveCall) (i : Nat) (hi : i < n)
    (schedule : List RaceAction) :
    ∀ st, ((Race.run cfg n calls st schedule).pc i).remaining ≤
      (st.pc i).remaining - turnsOf i schedule := by
  induction schedule with
  | nil => intro st; simp [Race.run, turnsOf]
  | cons a rest ih =>
    intro st
    simp only [Race.run, List.foldl_cons]
    refine le_trans (ih _) ?_
    cases a with
    | turn j now nsec =>
      by_cases hji : j = i
      · subst hji
        have hstep := step_remaining cfg Faults.none now nsec (calls j) st.world (st.pc j)
        have hcount : turnsOf j (RaceAction.turn j now nsec :: rest) = turnsOf j rest + 1 := by
          simp [turnsOf]
        simp only [Race.step, hi, if_true, hcount]
        omega
      · have hcount : turnsOf i (RaceAction.turn j now nsec :: rest) = turnsOf i rest := by
          simp [turnsOf, hji]
        have hij : ¬ i = j := fun h => hji h.symm
        by_cases hj : j < n
        · simp only [Race.step, hj, if_true, hij, if_false, hcount]
          exact le_refl _
        · simp only [Race.step, hj, if_false, hcount]
          exact le_refl _
    | expire key =>
      have hcount : turnsOf i (RaceAction.expire key :: rest) = turnsOf i rest := by
        simp [turnsOf]
      simp only [Race.step, hcount]
      exact le_refl _

/-- A flow with nothing left to perform has returned. -/
lemma done_of_remaining_zero (pc : ReservePC) (h : pc.remaining = 0) :
    ∃ result, pc = .done result := by
  cases pc <;> simp [ReservePC.remaining] at h
  exact ⟨_, rfl⟩

/-- C3, counterexample.  Three Reserve flows race for the AVAILABLE seat `S-0001`, no client
call faulting, each getting six turns.  When the seat's lock key is held at the start (and does
not expire), every flow returns the lock-already-held error and none returns a reservation id.
When the configured lock TTL is -1, every flow returns an error that is neither the
seat-not-available nor the lock-already-held error.  When the seat is at version
9223372036854775807, flow 0 wins and the seat ends at version -9223372036854775808. -/
theorem concurrent_reserve_without_winner :
    ((exampleHeldWorld.db.seats ("E1", "S-0001")).map Seat.Status = some .AVAILABLE ∧
      (∀ i, i < 3 → 6 ≤ turnsOf i exampleRoundRobin) ∧
      (Race.run exampleConfig 3 exampleCalls (Race.init exampleHeldWorld) exampleRoundRobin).pc 0
        = .done (.error (.wrapf "failed to acquire lock" .ErrLockAlreadyHeld)) ∧
      (Race.run exampleConfig 3 exampleCalls (Race.init exampleHeldWorld) exampleRoundRobin).pc 1
        = .done (.error (.wrapf "failed to acquire lock" .ErrLockAlreadyHeld)) ∧
      (Race.run exampleConfig 3 exampleCalls (Race.init exampleHeldWorld) exampleRoundRobin).pc 2
        = .done (.error (.wrapf "failed to acquire lock" .ErrLockAlreadyHeld))) ∧
    ((exampleWorld.db.seats ("E1", "S-0001")).map Seat.Status = some .AVAILABLE ∧
      exampleWorld.redis.keys (getLockKey "E1" "S-0001") = none ∧
      (∀ i, i < 3 →
        (Race.run exampleNegativeTTLConfig 3 exampleCalls (Race.init exampleWorld)
          exampleRoundRobin).pc i
        = .done (.error (.wrapf "failed to acquire lock"
            (.wrapf "failed to acquire lock" .invalidExpireTime)))) ∧
      Error.Is (.wrapf "failed to acquire lock"
        (.wrapf "failed to acquire lock" .invalidExpireTime)) .ErrSeatAlreadyReserved = false ∧
      Error.Is (.wrapf "failed to acquire lock"
        (.wrapf "failed to acquire lock" .invalidExpireTime)) .ErrLockAlreadyHeld = false) ∧
    ((exampleMaxVersionWorld.db.seats ("E1", "S-0001")).map Seat.Status = some .AVAILABLE ∧
      (exampleMaxVersionWorld.db.seats ("E1", "S-0001")).map Seat.Version
        = some 9223372036854775807 ∧
      exampleMaxVersionWorld.redis.keys (getLockKey "E1" "S-0001") = none ∧
      (Race.run exampleConfig 3 exampleCalls (Race.init exampleMaxVersionWorld)
        exampleRoundRobin).pc 0 = .done (.ok "r0") ∧
      ((Race.run exampleConfig 3 exampleCalls (Race.init exampleMaxVersionWorld)
        exampleRoundRobin).world.db.seats ("E1", "S-0001")).map Seat.Version
        = some (-9223372036854775808)) := by
  refine ⟨⟨by decide, by decide, by rfl, by rfl, by rfl⟩,
    ⟨by decide, by decide, ?_, by decide, by decide⟩,
    ⟨by decide, by decide, by decide, by rfl, by decide⟩⟩
  intro i hi
  interval_cases i <;> rfl

/-- C3, amended.  A race of `n ≥ 1` Reserve flows on one seat that is AVAILABLE with its lock
free and its version a Go `int` below the greatest one, the configured lock TTL not negative,
under any interleaving of their lock and catalog operations (and of lock expiries), no client
call faulting.  Every flow returns once it has had six turns; and when all have returned,
exactly one flow has returned its reservation id, every other flow has returned an error that
is the seat-not-available or the lock-already-held error, and the seat is RESERVED by the
winner's user with its version increased by exactly 1. -/
theorem concurrent_reserve_exactly_one (cfg : Config) (n : Nat) (calls : Nat → ReserveCall)
    (eventID seatNumber : String) (w0 : World) (seat0 : Seat) (hn : 0 < n)
    (hcalls : ∀ i, i < n → (calls i).eventID = eventID ∧ (calls i).seatNumber = seatNumber)
    (hseat : w0.db.seats (eventID, seatNumber) = some seat0)
    (havail : seat0.Status = .AVAILABLE)
    (hlo : minInt64 ≤ seat0.Version) (hhi : seat0.Version < maxInt64)
    (hfree : w0.redis.keys (getLockKey eventID seatNumber) = none)
    (httl : 0 ≤ durationOf cfg.RedisLockTTL 1000000000)
    (schedule : List RaceAction) :
    ((∀ i, i < n → 6 ≤ turnsOf i schedule) →
      ∀ i, i < n → ∃ result, (Race.run cfg n calls (Race.init w0) schedule).pc i = .done result) ∧
    ((∀ i, i < n → ∃ result, (Race.run cfg n calls (Race.init w0) schedule).pc i = .done result) →
      ∃ w, w < n ∧
        (Race.run cfg n calls (Race.init w0) schedule).pc w
          = .done (.ok (calls w).reservationID) ∧
        (∀ i, i < n → i ≠ w → ∃ err,
          (Race.run cfg n calls (Race.init w0) schedule).pc i = .done (.error err) ∧
          (err.Is .ErrSeatAlreadyReserved = true ∨ err.Is .ErrLockAlreadyHeld = true)) ∧
        ∃ seat, (Race.run cfg n calls (Race.init w0) schedule).world.db.seats
            (eventID, seatNumber) = some seat ∧
          seat.Status = .RESERVED ∧ seat.UserID = some (calls w).userID ∧
          seat.Version = seat0.Version + 1) := by
  constructor
  · intro hturns i hi
    apply done_of_remaining_zero
    have h := run_remaining cfg n calls i hi schedule (Race.init w0)
    have h6 := hturns i hi
    have h0 : ((Race.init w0).pc i).remaining = 6 := rfl
    omega
  · intro hdone
    have hinit : RaceInv n calls eventID seatNumber seat0 (Race.init w0) := by
      left
      exact ⟨hseat, fun _ _ => trivial, Or.inl ⟨fun _ _ => rfl, hfree⟩⟩
    have hrg : minInt64 ≤ seat0.Version ∧ seat0.Version ≤ maxInt64 := ⟨hlo, le_of_lt hhi⟩
    have hinv := raceInv_run cfg n calls eventID seatNumber seat0 hcalls havail hrg httl
      schedule _ hinit
    rcases hinv with ⟨_, _, hcand⟩ | ⟨w, nw, hw, hseatR, hwin, hlos⟩
    · exfalso
      rcases hcand with ⟨hall, _⟩ | ⟨j, hj, hcj⟩
      · obtain ⟨result, hr⟩ := hdone 0 hn
        rw [hall 0 hn] at hr
        cases hr
      · obtain ⟨result, hr⟩ := hdone j hj
        rw [hr] at hcj
        exact hcj
    · refine ⟨w, hw, ?_, ?_, _, hseatR, rfl, rfl, wrapInt64_succ _ hlo hhi⟩
      · obtain ⟨result, hr⟩ := hdone w hw
        rw [hr] at hwin ⊢
        cases result with
        | error err => exact hwin.elim
        | ok rid =>
          have hrid : rid = (calls w).reservationID := hwin
          rw [hrid]
      · intro i hi hiw
        obtain ⟨result, hr⟩ := hdone i hi
        have hl := hlos i hi hiw
        rw [hr] at hl ⊢
        cases result with
        | error err => exact ⟨err, rfl, hl⟩
        | ok rid => exact hl.elim

/-- Witness for C3: three users race for seat `S-0001` under `exampleSchedule`. -/
theorem concurrent_reserve_exactly_one_witness :
    ∃ w, w < 3 ∧
      (Race.run exampleConfig 3 exampleCalls (Race.init exampleWorld) exampleSchedule).pc w
        = .done (.ok (exampleCalls w).reservationID) ∧
      (∀ i, i < 3 → i ≠ w → ∃ err,
        (Race.run exampleConfig 3 exampleCalls (Race.init exampleWorld) exampleSchedule).pc i
          = .done (.error err) ∧
        (err.Is .ErrSeatAlreadyReserved = true ∨ err.Is .ErrLockAlreadyHeld = true)) ∧
      ∃ seat, (Race.run exampleConfig 3 exampleCalls (Race.init exampleWorld)
          exampleSchedule).world.db.seats ("E1", "S-0001") = some seat ∧
        seat.Status = .RESERVED ∧ seat.UserID = some (exampleCalls w).userID ∧
        seat.Version = exampleSeat.Version + 1 :=
  (concurrent_reserve_exactly_one exampleConfig 3 exampleCalls "E1" "S-0001" exampleWorld
      exampleSeat (by decide) (fun _ _ => ⟨rfl, rfl⟩) (by decide) (by decide) (by decide)
      (by decide) (by decide) (by decide) exampleSchedule).2
    ((concurrent_reserve_exactly_one exampleConfig 3 exampleCalls "E1" "S-0001" exampleWorld
      exampleSeat (by decide) (fun _ _ => ⟨rfl, rfl⟩) (by decide) (by decide) (by decide)
      (by decide) (by decide) (by decide) exampleSchedule).1 (by decide))

/-! ## Theorems: the lock store -/

/-- C14. `RedisRepository.ReleaseLock`, the call not faulting: when the entry of the seat exists
and stores the supplied token it is deleted, every other key is kept and the call succeeds; in
every other case the call returns `ErrLockNotHeld` and the lock store is unchanged.  So the
entry is deleted exactly when it exists with the supplied token, and a holder whose token is
not the stored one cannot remove the entry. -/
theorem releaseLock_contract (r : Redis) (eventID seatNumber lockToken : String) :
    (∀ entry, r.keys (getLockKey eventID seatNumber) = some entry → entry.token = lockToken →
      (RedisRepository.ReleaseLock r false eventID seatNumber lockToken).2 = none ∧
      (RedisRepository.ReleaseLock r false eventID seatNumber lockToken).1.keys
        (getLockKey eventID seatNumber) = none ∧
      ∀ k, k ≠ getLockKey eventID seatNumber →
        (RedisRepository.ReleaseLock r false eventID seatNumber lockToken).1.keys k = r.keys k) ∧
    ((∀ entry, r.keys (getLockKey eventID seatNumber) = some entry → entry.token ≠ lockToken) →
      RedisRepository.ReleaseLock r false eventID seatNumber lockToken
        = (r, some .ErrLockNotHeld)) ∧
    ((r.keys (getLockKey eventID seatNumber) ≠ none ∧
        (RedisRepository.ReleaseLock r false eventID seatNumber lockToken).1.keys
          (getLockKey eventID seatNumber) = none) ↔
      ∃ entry, r.keys (getLockKey eventID seatNumber) = some entry ∧
        entry.token = lockToken) := by
  cases hk : r.keys (getLockKey eventID seatNumber) with
  | none => simp [RedisRepository.ReleaseLock, hk]
  | some entry =>
    by_cases ht : entry.token = lockToken
    · simp only [RedisRepository.ReleaseLock, hk, ht]
      simp
      exact ⟨fun _ k hkne hke => absurd hke hkne, ht⟩
    · simp [RedisRepository.ReleaseLock, hk, ht]

/-- Witness for C14: the stale holder of token `t1` cannot release the lock now held under
token `t2`. -/
theorem releaseLock_contract_witness :
    (exampleStaleRedis.keys (getLockKey "E1" "S-0001")).map (fun entry => entry.token)
      = some "t2" ∧
    RedisRepository.ReleaseLock exampleStaleRedis false "E1" "S-0001" "t1"
      = (exampleStaleRedis, some .ErrLockNotHeld) :=
  ⟨by decide,
   (releaseLock_contract exampleStaleRedis "E1" "S-0001" "t1").2.1
     (by
      intro entry h
      have h2 : exampleStaleRedis.keys (getLockKey "E1" "S-0001")
          = some { token := "t2", ttl := 30 } := by decide
      rw [h2] at h
      cases h
      decide)⟩


/-! ## Properties of seat rows kept by every catalog call -/

/-- A conditional update keeps a property of all rows if the updated row has it whenever the
row it replaces had it and met the condition. -/
lemma updateItemSeat_preserves (P : Seat → Prop) (db : DynamoDB) (fault : Bool)
    (key : String × String) (condition : Seat → Bool) (update : Seat → Seat)
    (hupd : ∀ row, P row → condition row = true → P (update row))
    (hdb : ∀ k seat, db.seats k = some seat → P seat) :
    ∀ k seat, (db.UpdateItemSeat fault key condition update).1.seats k = some seat → P seat := by
  intro k seat h
  unfold DynamoDB.UpdateItemSeat at h
  cases fault with
  | true => exact hdb k seat (by simpa using h)
  | false =>
    simp only [Bool.false_eq_true, if_false] at h
    cases hrow : db.seats key with
    | none => exact hdb k seat (by simpa [hrow] using h)
    | some row =>
      simp only [hrow] at h
      by_cases hc : condition row = true
      · simp only [hc, if_true] at h
        by_cases hk : k = key
        · simp only [hk, if_true, Option.some.injEq] at h
          exact h ▸ hupd row (hdb key row hrow) hc
        · simp only [hk, if_false] at h
          exact hdb k seat h
      · simp only [hc] at h
        exact hdb k seat (by simpa using h)

/-- A batch of put requests keeps a property of all rows that the rows put have. -/
lemma batchWriteItem_preserves (P : Seat → Prop) (unprocessed : Seat → Bool) (rows : List Seat) :
    ∀ (db : DynamoDB), (∀ row ∈ rows, P row) →
      (∀ k seat, db.seats k = some seat → P seat) →
      ∀ k seat, (db.BatchWriteItem unprocessed rows).1.seats k = some seat → P seat := by
  induction rows with
  | nil => intro db _ hdb; exact hdb
  | cons row rest ih =>
    intro db hrows hdb
    simp only [DynamoDB.BatchWriteItem, List.filter_cons]
    cases hu : unprocessed row
    · simp only [Bool.not_false, if_true, List.foldl_cons]
      apply ih (db.putSeat row) (fun x hx => hrows x (List.mem_cons_of_mem _ hx))
      intro k seat h
      unfold DynamoDB.putSeat at h
      by_cases hk : k = (row.EventID, row.SeatNumber)
      · simp only [hk, if_true, Option.some.injEq] at h
        exact h ▸ hrows row (List.mem_cons_self _ _)
      · simp only [hk, if_false] at h
        exact hdb k seat h
    · simp only [Bool.not_true, Bool.false_eq_true, if_false]
      exact ih db (fun x hx => hrows x (List.mem_cons_of_mem _ hx)) hdb

/-- The batch loop of `InitializeSeats` keeps a property of all rows that fresh rows have. -/
lemma initializeSeats_loop_preserves (P : Seat → Prop) (batchFault : Nat → Bool)
    (unprocessed : Nat → Seat → Bool) (now : Int)
    (eventID : String) (totalSeats : Int) (price : Float64)
    (hinit : ∀ j, P (initialSeat now eventID price j)) (fuel : Nat) :
    ∀ (i : Nat) (created : Int) (db : DynamoDB),
      (∀ k seat, db.seats k = some seat → P seat) →
      ∀ k seat, (InitializeSeats.loop batchFault unprocessed now eventID totalSeats price fuel i
        created db).1.seats k = some seat → P seat := by
  induction fuel with
  | zero => intro i created db hdb; simpa [InitializeSeats.loop] using hdb
  | succ fuel ih =>
    intro i created db hdb
    simp only [InitializeSeats.loop]
    split
    · split
      · exact hdb
      · apply ih
        apply batchWriteItem_preserves P _ _ _ _ hdb
        intro row hrow
        obtain ⟨j, _, rfl⟩ := List.mem_map.mp hrow
        exact hinit j
    · exact hdb

/-- Every sequence of catalog calls keeps a property of all rows that fresh rows have and that
each of the three conditional updates keeps. -/
lemma runCatalogOps_preserves (P : Seat → Prop)
    (hinit : ∀ now eventID price j, P (initialSeat now eventID price j))
    (hreserve : ∀ (row : Seat) (userID : String) (now : Int), P row →
      row.Status = .AVAILABLE →
      P { row with Status := .RESERVED, UserID := some userID, ReservedAt := some now,
                   Version := wrapInt64 (row.Version + 1), UpdatedAt := now })
    (hrelease : ∀ (row : Seat) (now : Int), P row → row.Status = .RESERVED →
      P { row with Status := .AVAILABLE, Version := row.Version + 1, UpdatedAt := now,
                   UserID := none, ReservedAt := none })
    (hconfirm : ∀ (row : Seat) (now : Int), P row → row.Status = .RESERVED →
      P { row with Status := .BOOKED, Version := row.Version + 1, UpdatedAt := now })
    (ops : List CatalogOp) :
    ∀ (db : DynamoDB), (∀ k seat, db.seats k = some seat → P seat) →
      ∀ k seat, (runCatalogOps db ops).seats k = some seat → P seat := by
  induction ops with
  | nil => intro db hdb; exact hdb
  | cons op rest ih =>
    intro db hdb
    simp only [runCatalogOps, List.foldl_cons]
    apply ih (CatalogOp.apply db op)
    cases op with
    | InitializeSeats batchFault unprocessed now eventID totalSeats price =>
      exact initializeSeats_loop_preserves P batchFault unprocessed now eventID totalSeats price
        (hinit now eventID price) _ 0 0 db hdb
    | ReserveSeat fault now eventID seatNumber userID currentVersion =>
      simp only [CatalogOp.apply, reserveSeat_store]
      apply updateItemSeat_preserves P _ _ _ _ _ _ hdb
      intro row hP hc
      simp only [Bool.and_eq_true, decide_eq_true_eq] at hc
      rw [← hc.2]
      exact hreserve row userID now hP hc.1
    | ReleaseSeat fault now eventID seatNumber userID =>
      simp only [CatalogOp.apply, releaseSeat_store]
      apply updateItemSeat_preserves P _ _ _ _ _ _ hdb
      intro row hP hc
      simp only [Bool.and_eq_true, decide_eq_true_eq] at hc
      exact hrelease row now hP hc.1
    | ConfirmSeat fault now eventID seatNumber userID =>
      simp only [CatalogOp.apply, confirmSeat_store]
      apply updateItemSeat_preserves P _ _ _ _ _ _ hdb
      intro row hP hc
      simp only [Bool.and_eq_true, decide_eq_true_eq] at hc
      exact hconfirm row now hP hc.1

/-- In every store reached from the empty store by catalog calls, a held row carries both
`user_id` and `reserved_at` and an AVAILABLE row carries no `reserved_at`. -/
lemma runCatalogOps_heldAttributesPresent (ops : List CatalogOp) (k : String × String)
    (seat : Seat) (h : (runCatalogOps DynamoDB.empty ops).seats k = some seat) :
    seat.heldAttributesPresent := by
  refine runCatalogOps_preserves Seat.heldAttributesPresent ?_ ?_ ?_ ?_ ops DynamoDB.empty
    (by intro k seat hk; simp [DynamoDB.empty] at hk) k seat h
  · intro now eventID price j
    simp [Seat.heldAttributesPresent, initialSeat]
  · intro row userID now _ _
    simp [Seat.heldAttributesPresent]
  · intro row now _ _
    simp [Seat.heldAttributesPresent]
  · intro row now hP hst
    have := hP.1 (by rw [hst]; simp)
    simpa [Seat.heldAttributesPresent] using this


/-- C17, counterexample. `ConfirmSeat` does not remove `reserved_at`: seat `S-0001`, reserved by
`U1` at time 1001 and confirmed by `U1`, is BOOKED and still carries `reserved_at = 1001`. -/
theorem confirmSeat_keeps_reserved_at_example :
    (exampleWorld.db.putSeat exampleReservedSeat).seats ("E1", "S-0001")
      = some exampleReservedSeat ∧
    (DynamoDBRepository.ConfirmSeat (exampleWorld.db.putSeat exampleReservedSeat) false 1500
      "E1" "S-0001" "U1").2 = none ∧
    ((DynamoDBRepository.ConfirmSeat (exampleWorld.db.putSeat exampleReservedSeat) false 1500
      "E1" "S-0001" "U1").1.seats ("E1", "S-0001")).map
        (fun row => (row.Status, row.UserID, row.ReservedAt))
      = some (.BOOKED, some "U1", some 1001) := by
  refine ⟨by decide, by decide, by decide⟩

/-- C17, amended. `ConfirmSeat` on a seat RESERVED by the confirming user succeeds and leaves
the row BOOKED with that user's `user_id` and with the `reserved_at` it had, version one up.
In a store reached from the empty store by catalog calls that `reserved_at` is present, so
`reserved_at` is present on a seat while it is RESERVED or BOOKED and absent while it is
AVAILABLE. -/
theorem confirmSeat_keeps_user_and_reserved_at (db : DynamoDB) (now : Int)
    (eventID seatNumber userID : String) (row : Seat)
    (hrow : db.seats (eventID, seatNumber) = some row)
    (hst : row.Status = .RESERVED) (hu : row.UserID = some userID) :
    (DynamoDBRepository.ConfirmSeat db false now eventID seatNumber userID).2 = none ∧
    (∃ row1, (DynamoDBRepository.ConfirmSeat db false now eventID seatNumber userID).1.seats
        (eventID, seatNumber) = some row1 ∧
      row1.Status = .BOOKED ∧ row1.UserID = some userID ∧
      row1.ReservedAt = row.ReservedAt ∧ row1.Version = row.Version + 1 ∧
      ((∃ ops, db = runCatalogOps DynamoDB.empty ops) → row1.ReservedAt ≠ none)) ∧
    (∀ ops k seat, (runCatalogOps DynamoDB.empty ops).seats k = some seat →
      (seat.ReservedAt ≠ none ↔ (seat.Status = .RESERVED ∨ seat.Status = .BOOKED))) := by
  refine ⟨?_, ?_, ?_⟩
  · simp [DynamoDBRepository.ConfirmSeat, DynamoDB.UpdateItemSeat, hrow, hst, hu]
  · simp only [DynamoDBRepository.ConfirmSeat, DynamoDB.UpdateItemSeat, hrow, hst, hu]
    simp
    rintro ops rfl
    have h := (runCatalogOps_heldAttributesPresent ops _ row hrow).1 (by rw [hst]; simp)
    exact h.2
  · intro ops k seat h
    have hP := runCatalogOps_heldAttributesPresent ops k seat h
    constructor
    · intro hne
      cases hs : seat.Status with
      | AVAILABLE => exact absurd (hP.2 hs) hne
      | RESERVED => exact Or.inl rfl
      | BOOKED => exact Or.inr rfl
    · intro hor
      refine (hP.1 ?_).2
      rcases hor with h1 | h1 <;> rw [h1] <;> simp

/-- Witness for C17 (amended): seat `S-0001`, reserved by `U1`, confirmed by `U1`. -/
theorem confirmSeat_keeps_user_and_reserved_at_witness :
    (DynamoDBRepository.ConfirmSeat (exampleWorld.db.putSeat exampleReservedSeat) false 1500
      "E1" "S-0001" "U1").2 = none :=
  (confirmSeat_keeps_user_and_reserved_at (exampleWorld.db.putSeat exampleReservedSeat) 1500
    "E1" "S-0001" "U1" exampleReservedSeat (by decide) (by decide) (by decide)).1

/-! ## Theorems: the expiry reaper -/

/-- C16, the code at the failing input. The ticker branch of `CleanupExpiredReservations` only
logs: after any number of ticks both stores are as they were.  Reservation `r1` of
`exampleReservedWorld`, PENDING with `expires_at = 1601` and its seat's lock free, is still
PENDING after the reaper has run, and its seat is still RESERVED by `U1` at version 1. -/
theorem reaper_changes_nothing :
    (∀ (w : World) (ticks : Nat), InventoryService.CleanupExpiredReservations w ticks = w) ∧
    exampleReservedWorld.redis.keys (getLockKey "E1" "S-0001") = none ∧
    ((InventoryService.CleanupExpiredReservations exampleReservedWorld 5).db.reservations
      "r1").map (fun r => (r.Status, r.ExpiresAt)) = some ("PENDING", 1601) ∧
    ((InventoryService.CleanupExpiredReservations exampleReservedWorld 5).db.seats
      ("E1", "S-0001")).map (fun row => (row.Status, row.UserID, row.Version))
      = some (.RESERVED, some "U1", 1) := by
  have hall : ∀ (ticks : Nat) (w : World),
      InventoryService.CleanupExpiredReservations w ticks = w := by
    intro ticks
    induction ticks with
    | zero => intro w; rfl
    | succ k ih =>
      intro w
      simp only [InventoryService.CleanupExpiredReservations,
        InventoryService.CleanupExpiredReservations.tick]
      exact ih w
  refine ⟨fun w ticks => hall ticks w, by decide, ?_, ?_⟩
  · rw [hall]; decide
  · rw [hall]; decide


/-! ## Theorems: the version discipline -/

/-- A conditional update on a row of the store, seen from the seat `key`: the row at `key` is
the updated one when the update addresses it, does not fault and the condition holds, and the
old one otherwise. -/
lemma updateItemSeat_row (db : DynamoDB) (fault : Bool) (target key : String × String)
    (condition : Seat → Bool) (update : Seat → Seat) (seat : Seat)
    (hseat : db.seats key = some seat) :
    ((target = key ∧ fault = false ∧ condition seat = true) →
      (db.UpdateItemSeat fault target condition update).2 = none ∧
      (db.UpdateItemSeat fault target condition update).1.seats key = some (update seat)) ∧
    (¬ (target = key ∧ fault = false ∧ condition seat = true) →
      (target = key → (db.UpdateItemSeat fault target condition update).2 ≠ none) ∧
      (db.UpdateItemSeat fault target condition update).1.seats key = some seat) := by
  unfold DynamoDB.UpdateItemSeat
  constructor
  · rintro ⟨rfl, rfl, hc⟩
    simp [hseat, hc]
  · intro hno
    cases fault with
    | true => simp [hseat]
    | false =>
      by_cases ht : target = key
      · subst ht
        have hc : ¬ condition seat = true := fun hc => hno ⟨rfl, rfl, hc⟩
        simp [hseat, hc]
      · have hkt : ¬ key = target := fun h => ht h.symm
        simp only [Bool.false_eq_true, if_false]
        cases hrow : db.seats target with
        | none => simp [hseat, ht]
        | some row =>
          by_cases hc : condition row = true
          · simp [hc, hkt, hseat, ht]
          · simp [hc, hseat, ht]

/-- `ReserveSeat` succeeds exactly when its conditional update does. -/
lemma reserveSeat_result_none (db : DynamoDB) (fault : Bool) (now : Int)
    (eventID seatNumber userID : String) (currentVersion : Int) :
    (DynamoDBRepository.ReserveSeat db fault now eventID seatNumber userID currentVersion).2
        = none ↔
      (db.UpdateItemSeat fault (eventID, seatNumber)
        (fun row => decide (row.Status = .AVAILABLE) && decide (row.Version = currentVersion))
        (fun row => { row with
          Status := .RESERVED, UserID := some userID, ReservedAt := some now,
          Version := wrapInt64 (currentVersion + 1), UpdatedAt := now })).2 = none := by
  unfold DynamoDBRepository.ReserveSeat
  split
  · next heq => rw [heq]
  · next heq => rw [heq]; split <;> simp

/-- `ReleaseSeat` succeeds exactly when its conditional update does. -/
lemma releaseSeat_result_none (db : DynamoDB) (fault : Bool) (now : Int)
    (eventID seatNumber userID : String) :
    (DynamoDBRepository.ReleaseSeat db fault now eventID seatNumber userID).2 = none ↔
      (db.UpdateItemSeat fault (eventID, seatNumber)
        (fun row => decide (row.Status = .RESERVED) && decide (row.UserID = some userID))
        (fun row => { row with
          Status := .AVAILABLE, Version := row.Version + 1, UpdatedAt := now,
          UserID := none, ReservedAt := none })).2 = none := by
  unfold DynamoDBRepository.ReleaseSeat
  split
  · next heq => rw [heq]
  · next heq => rw [heq]; split <;> simp

/-- `ConfirmSeat` succeeds exactly when its conditional update does. -/
lemma confirmSeat_result_none (db : DynamoDB) (fault : Bool) (now : Int)
    (eventID seatNumber userID : String) :
    (DynamoDBRepository.ConfirmSeat db fault now eventID seatNumber userID).2 = none ↔
      (db.UpdateItemSeat fault (eventID, seatNumber)
        (fun row => decide (row.Status = .RESERVED) && decide (row.UserID = some userID))
        (fun row => { row with
          Status := .BOOKED, Version := row.Version + 1, UpdatedAt := now })).2 = none := by
  unfold DynamoDBRepository.ConfirmSeat
  split
  · next heq => rw [heq]
  · next heq => rw [heq]; simp

/-- A conditional update that adds one to the version of the seat, seen from that seat: the
seat's version goes up by exactly one when the update addresses it and succeeds, and stays
otherwise. -/
lemma updateItemSeat_version (db : DynamoDB) (fault : Bool) (target key : String × String)
    (condition : Seat → Bool) (update : Seat → Seat) (seat : Seat) (result : Option Error)
    (hseat : db.seats key = some seat)
    (hres : result = none ↔ (db.UpdateItemSeat fault target condition update).2 = none)
    (hupd : condition seat = true → (update seat).Version = seat.Version + 1) :
    ∃ seat1, (db.UpdateItemSeat fault target condition update).1.seats key = some seat1 ∧
      seat1.Version = seat.Version +
        (if (decide (some target = some key) && result.isNone) = true then 1 else 0) := by
  have h := updateItemSeat_row db fault target key condition update seat hseat
  by_cases hc : target = key ∧ fault = false ∧ condition seat = true
  · obtain ⟨hok, hrowk⟩ := h.1 hc
    refine ⟨_, hrowk, ?_⟩
    have hr : result = none := hres.mpr hok
    simp [hc.1, hr, hupd hc.2.2]
  · obtain ⟨hfail, hrowk⟩ := h.2 hc
    refine ⟨_, hrowk, ?_⟩
    by_cases ht : target = key
    · have hr : result ≠ none := fun hr => hfail ht (hres.mp hr)
      have hr2 : result.isNone = false := by
        cases result with
        | none => exact absurd rfl hr
        | some err => rfl
      simp [hr2]
    · simp [ht]

/-- On an AVAILABLE seat whose version is even, the Go `int` successor of an expected version
equal to it is computed exactly: the greatest Go `int` is odd. -/
lemma wrapInt64_succ_of_even (v : Int) (hev : v % 2 = 0) (hlo : minInt64 ≤ v)
    (hhi : v ≤ maxInt64) : wrapInt64 (v + 1) = v + 1 := by
  unfold minInt64 at hlo
  unfold maxInt64 at hhi
  unfold wrapInt64
  omega

/-- One conditional seat write with Go arguments, seen from an existing seat whose version
parity follows its status: its version goes up by exactly one when the call addresses the seat
and succeeds, and stays as it is otherwise. -/
lemma catalogOp_version (db : DynamoDB) (op : CatalogOp) (key : String × String) (seat : Seat)
    (hseat : db.seats key = some seat) (hpar : seat.versionParity)
    (hop : op.isSeatWrite = true) (hty : op.wellTyped = true) :
    ∃ seat1, (op.apply db).seats key = some seat1 ∧
      seat1.Version = seat.Version + (if op.writes key db = true then 1 else 0) := by
  cases op with
  | InitializeSeats batchFault unprocessed now eventID totalSeats price =>
    simp [CatalogOp.isSeatWrite] at hop
  | ReserveSeat fault now eventID seatNumber userID currentVersion =>
    simp only [CatalogOp.apply, CatalogOp.writes, CatalogOp.target, CatalogOp.result,
      reserveSeat_store]
    apply updateItemSeat_version db fault (eventID, seatNumber) key _ _ seat _ hseat
      (reserveSeat_result_none db fault now eventID seatNumber userID currentVersion)
    intro hc
    simp only [Bool.and_eq_true, decide_eq_true_eq] at hc
    simp only [CatalogOp.wellTyped, Bool.and_eq_true, decide_eq_true_eq] at hty
    have hev := hpar.1 hc.1
    rw [hc.2] at hev
    simp only [hc.2]
    exact wrapInt64_succ_of_even currentVersion hev hty.1 hty.2
  | ReleaseSeat fault now eventID seatNumber userID =>
    simp only [CatalogOp.apply, CatalogOp.writes, CatalogOp.target, CatalogOp.result,
      releaseSeat_store]
    apply updateItemSeat_version db fault (eventID, seatNumber) key _ _ seat _ hseat
      (releaseSeat_result_none db fault now eventID seatNumber userID)
    intro _
    rfl
  | ConfirmSeat fault now eventID seatNumber userID =>
    simp only [CatalogOp.apply, CatalogOp.writes, CatalogOp.target, CatalogOp.result,
      confirmSeat_store]
    apply updateItemSeat_version db fault (eventID, seatNumber) key _ _ seat _ hseat
      (confirmSeat_result_none db fault now eventID seatNumber userID)
    intro _
    rfl

/-- Every sequence of catalog calls, whatever its arguments, keeps the version parity of all
rows: `InitializeSeats` writes AVAILABLE rows at version 0, `ReserveSeat` takes an AVAILABLE
row to RESERVED and `ReleaseSeat` a RESERVED row to AVAILABLE, each changing the parity of the
version, and wrap-around keeps parity. -/
lemma runCatalogOps_versionParity (ops : List CatalogOp) :
    ∀ (db : DynamoDB), (∀ k seat, db.seats k = some seat → seat.versionParity) →
      ∀ k seat, (runCatalogOps db ops).seats k = some seat → seat.versionParity := by
  refine runCatalogOps_preserves Seat.versionParity ?_ ?_ ?_ ?_ ops
  · intro now eventID price j
    simp [Seat.versionParity, initialSeat]
  · intro row userID now hP hst
    have hev := hP.1 hst
    constructor
    · intro h; cases h
    · intro _
      show wrapInt64 (row.Version + 1) % 2 = 1
      unfold wrapInt64
      omega
  · intro row now hP hst
    have hodd := hP.2 hst
    constructor
    · intro _
      show (row.Version + 1) % 2 = 0
      omega
    · intro h; cases h
  · intro row now _ _
    constructor
    · intro h; cases h
    · intro h; cases h

/-- Along a sequence of conditional seat writes with Go arguments, on a store whose rows have
the version parity of their status, the version of an existing seat goes up by the number of
calls that address it and succeed. -/
lemma runCatalogOps_version (key : String × String) (ops : List CatalogOp) :
    ∀ (db : DynamoDB) (seat : Seat), db.seats key = some seat →
      (∀ k row, db.seats k = some row → row.versionParity) →
      (∀ op ∈ ops, op.isSeatWrite = true ∧ op.wellTyped = true) →
      ∃ seat1, (runCatalogOps db ops).seats key = some seat1 ∧
        seat1.Version = seat.Version + successfulWrites key db ops := by
  induction ops with
  | nil =>
    intro db seat hseat _ _
    exact ⟨seat, hseat, by simp [successfulWrites]⟩
  | cons op rest ih =>
    intro db seat hseat hpar hops
    obtain ⟨hw, hty⟩ := hops op (List.mem_cons_self _ _)
    obtain ⟨seat1, hseat1, hv1⟩ :=
      catalogOp_version db op key seat hseat (hpar key seat hseat) hw hty
    obtain ⟨seat2, hseat2, hv2⟩ :=
      ih (op.apply db) seat1 hseat1 (runCatalogOps_versionParity [op] db hpar)
        (fun x hx => hops x (List.mem_cons_of_mem _ hx))
    refine ⟨seat2, by simpa [runCatalogOps] using hseat2, ?_⟩
    rw [hv2, hv1]
    simp only [successfulWrites]
    split <;> push_cast <;> ring

/-- The store after a sequence of catalog calls followed by another. -/
lemma runCatalogOps_append (db : DynamoDB) (ops1 ops2 : List CatalogOp) :
    runCatalogOps db (ops1 ++ ops2) = runCatalogOps (runCatalogOps db ops1) ops2 := by
  simp [runCatalogOps, List.foldl_append]

/-- C13. For every seat of a store reached from the empty store by catalog calls (so the seat
was written by `InitializeSeats`) and every sequence of catalog `ReserveSeat`, `ReleaseSeat`
and `ConfirmSeat` calls whose expected versions are Go `int`s: a call that addresses the seat
and succeeds increases its version by exactly 1 and every other call leaves it unchanged; so
after a sequence the version has gone up by the number of successful writes of the seat, it
never decreases when the sequence is continued, and it is strictly larger once the
continuation holds a successful write.  The wrap-around of `ReserveSeat` at the greatest Go
`int` is not met: in such a store an AVAILABLE seat has an even version. -/
theorem version_increases_by_one_per_successful_write (ops0 : List CatalogOp)
    (key : String × String) (seat : Seat) (ops1 ops2 : List CatalogOp)
    (hseat : (runCatalogOps DynamoDB.empty ops0).seats key = some seat)
    (h1 : ∀ op ∈ ops1, op.isSeatWrite = true ∧ op.wellTyped = true)
    (h2 : ∀ op ∈ ops2, op.isSeatWrite = true ∧ op.wellTyped = true) :
    (∀ op : CatalogOp, op.isSeatWrite = true → op.wellTyped = true →
      ∃ seat1, (op.apply (runCatalogOps DynamoDB.empty ops0)).seats key = some seat1 ∧
        seat1.Version = seat.Version +
          (if op.writes key (runCatalogOps DynamoDB.empty ops0) = true then 1 else 0)) ∧
    ∃ seatA seatB, (runCatalogOps (runCatalogOps DynamoDB.empty ops0) ops1).seats key
        = some seatA ∧
      (runCatalogOps (runCatalogOps DynamoDB.empty ops0) (ops1 ++ ops2)).seats key
        = some seatB ∧
      seatA.Version = seat.Version
        + successfulWrites key (runCatalogOps DynamoDB.empty ops0) ops1 ∧
      seatB.Version = seatA.Version
        + successfulWrites key (runCatalogOps (runCatalogOps DynamoDB.empty ops0) ops1) ops2 ∧
      seatA.Version ≤ seatB.Version ∧
      (0 < successfulWrites key (runCatalogOps (runCatalogOps DynamoDB.empty ops0) ops1) ops2 →
        seatA.Version < seatB.Version) := by
  have hpar0 : ∀ k row, (runCatalogOps DynamoDB.empty ops0).seats k = some row →
      row.versionParity :=
    runCatalogOps_versionParity ops0 DynamoDB.empty
      (by intro k row hk; simp [DynamoDB.empty] at hk)
  refine ⟨fun op hop hty =>
    catalogOp_version _ op key seat hseat (hpar0 key seat hseat) hop hty, ?_⟩
  obtain ⟨seatA, hA, hvA⟩ := runCatalogOps_version key ops1 _ seat hseat hpar0 h1
  obtain ⟨seatB, hB, hvB⟩ := runCatalogOps_version key ops2 _ seatA hA
    (runCatalogOps_versionParity ops1 _ hpar0) h2
  refine ⟨seatA, seatB, hA, by rw [runCatalogOps_append]; exact hB, hvA, hvB, ?_, ?_⟩
  · omega
  · intro hpos
    omega

/-- Witness for C13: seat `S-0001` of a fresh event under `exampleWrites1` and then
`exampleWrites2`: one successful write in each, so versions 1 and then 2. -/
theorem version_increases_by_one_per_successful_write_witness :
    ∃ seatA seatB,
      (runCatalogOps (runCatalogOps DynamoDB.empty exampleInitialisation)
        exampleWrites1).seats ("E1", "S-0001") = some seatA ∧
      (runCatalogOps (runCatalogOps DynamoDB.empty exampleInitialisation)
        (exampleWrites1 ++ exampleWrites2)).seats ("E1", "S-0001") = some seatB ∧
      seatA.Version = exampleSeat.Version + successfulWrites ("E1", "S-0001")
        (runCatalogOps DynamoDB.empty exampleInitialisation) exampleWrites1 ∧
      seatB.Version = seatA.Version + successfulWrites ("E1", "S-0001")
        (runCatalogOps (runCatalogOps DynamoDB.empty exampleInitialisation) exampleWrites1)
        exampleWrites2 ∧
      seatA.Version ≤ seatB.Version ∧
      (0 < successfulWrites ("E1", "S-0001")
          (runCatalogOps (runCatalogOps DynamoDB.empty exampleInitialisation) exampleWrites1)
          exampleWrites2 →
        seatA.Version < seatB.Version) :=
  (version_increases_by_one_per_successful_write exampleInitialisation ("E1", "S-0001")
    exampleSeat exampleWrites1 exampleWrites2 (by decide) (by decide) (by decide)).2

/-! ## Theorems: the lock discipline of the flows -/

/-- The lock taken by a flow and the deferred release: a failed acquisition leaves the lock
store as it was; after a successful one, a release that does not fault restores the lock store
with the seat's key free, and a release that faults leaves the entry under the flow's token. -/
lemma scoped_lock (r : Redis) (faultAcquire : Bool) (ttl : Int)
    (lockToken eventID seatNumber : String) :
    (∀ r1 err, RedisRepository.AcquireLock r faultAcquire ttl lockToken eventID seatNumber
        = (r1, .error err) → r1 = r) ∧
    (∀ r1 tok, RedisRepository.AcquireLock r faultAcquire ttl lockToken eventID seatNumber
        = (r1, .ok tok) →
      (RedisRepository.ReleaseLock r1 false eventID seatNumber tok).1 = r ∧
      r.keys (getLockKey eventID seatNumber) = none ∧
      (RedisRepository.ReleaseLock r1 true eventID seatNumber tok).1.keys
        (getLockKey eventID seatNumber) = some { token := lockToken, ttl := ttl }) := by
  constructor
  · intro r1 err h
    exact acquireLock_error _ _ _ _ _ _ _ _ h
  · intro r1 tok h
    obtain ⟨_, hfree, htok, hr1⟩ := acquireLock_ok _ _ _ _ _ _ _ _ h
    subst htok hr1
    refine ⟨releaseLock_after_acquire _ _ _ _ _ hfree, hfree, ?_⟩
    simp [RedisRepository.ReleaseLock]

/-- C18, counterexample. A Reserve flow whose deferred `ReleaseLock` call fails returns its
reservation id while the lock entry of the seat, free before, still stands under the flow's
token `t1`: the failure of the release is only logged. -/
theorem lock_left_when_release_fails :
    exampleWorld.redis.keys (getLockKey "E1" "S-0001") = none ∧
    (InventoryService.ReserveSeat exampleConfig exampleFaultyUnlockEnv exampleWorld
      "E1" "S-0001" "U1").2 = .ok "r1" ∧
    (InventoryService.ReserveSeat exampleConfig exampleFaultyUnlockEnv exampleWorld
      "E1" "S-0001" "U1").1.redis.keys (getLockKey "E1" "S-0001")
      = some { token := "t1", ttl := 30 } := by
  refine ⟨by decide, by rfl, by decide⟩

/-- C18, amended. Every run of the Reserve, Release or Confirm flow, whatever its result and
whatever faults its other calls meet: if the lock acquisition fails, or Confirm returns before
acquiring (reservation not read, expired, or not the caller's), the lock store is unchanged;
if the acquisition succeeds, the flow calls `ReleaseLock` with its own token when it returns,
and then the lock store is back to what it was with the seat's key free when that call does
not fault, while the entry stays under the flow's token when that call faults. -/
theorem lock_released_on_every_exit (cfg : Config) (env : Env) (w : World)
    (eventID seatNumber userID reservationID paymentID : String) :
    ((∀ r1 err, RedisRepository.AcquireLock w.redis env.faults.AcquireLock cfg.RedisLockTTL
          env.lockToken eventID seatNumber = (r1, .error err) →
        (InventoryService.ReserveSeat cfg env w eventID seatNumber userID).1 = w ∧
        (InventoryService.ReleaseSeat cfg env w eventID seatNumber userID).1 = w) ∧
     (∀ r1 tok, RedisRepository.AcquireLock w.redis env.faults.AcquireLock cfg.RedisLockTTL
          env.lockToken eventID seatNumber = (r1, .ok tok) →
        (env.faults.ReleaseLock = false →
          (InventoryService.ReserveSeat cfg env w eventID seatNumber userID).1.redis = w.redis ∧
          (InventoryService.ReleaseSeat cfg env w eventID seatNumber userID).1.redis = w.redis ∧
          w.redis.keys (getLockKey eventID seatNumber) = none) ∧
        (env.faults.ReleaseLock = true →
          (InventoryService.ReserveSeat cfg env w eventID seatNumber userID).1.redis.keys
            (getLockKey eventID seatNumber)
            = some { token := env.lockToken, ttl := cfg.RedisLockTTL } ∧
          (InventoryService.ReleaseSeat cfg env w eventID seatNumber userID).1.redis.keys
            (getLockKey eventID seatNumber)
            = some { token := env.lockToken, ttl := cfg.RedisLockTTL }))) ∧
    ((∀ err, DynamoDBRepository.GetReservation w.db env.faults.GetReservation reservationID
          = .error err →
        (InventoryService.ConfirmBooking cfg env w reservationID userID paymentID).1 = w) ∧
     (∀ r, DynamoDBRepository.GetReservation w.db env.faults.GetReservation reservationID
          = .ok r → (r.IsExpired env.now = true ∨ r.UserID ≠ userID) →
        (InventoryService.ConfirmBooking cfg env w reservationID userID paymentID).1 = w) ∧
     (∀ r, DynamoDBRepository.GetReservation w.db env.faults.GetReservation reservationID
          = .ok r → r.IsExpired env.now = false → r.UserID = userID →
        (∀ r1 err, RedisRepository.AcquireLock w.redis env.faults.AcquireLock cfg.RedisLockTTL
            env.lockToken r.EventID r.SeatNumber = (r1, .error err) →
          (InventoryService.ConfirmBooking cfg env w reservationID userID paymentID).1 = w) ∧
        (∀ r1 tok, RedisRepository.AcquireLock w.redis env.faults.AcquireLock cfg.RedisLockTTL
            env.lockToken r.EventID r.SeatNumber = (r1, .ok tok) →
          (env.faults.ReleaseLock = false →
            (InventoryService.ConfirmBooking cfg env w reservationID userID paymentID).1.redis
              = w.redis ∧
            w.redis.keys (getLockKey r.EventID r.SeatNumber) = none) ∧
          (env.faults.ReleaseLock = true →
            (InventoryService.ConfirmBooking cfg env w reservationID userID
              paymentID).1.redis.keys (getLockKey r.EventID r.SeatNumber)
              = some { token := env.lockToken, ttl := cfg.RedisLockTTL })))) := by
  refine ⟨⟨?_, ?_⟩, ?_, ?_, ?_⟩
  · intro r1 err h
    have hr := (scoped_lock w.redis _ _ _ _ _).1 r1 err h
    subst hr
    simp [InventoryService.ReserveSeat, InventoryService.ReleaseSeat, h]
  · intro r1 tok h
    obtain ⟨h1, h2, h3⟩ := (scoped_lock w.redis _ _ _ _ _).2 r1 tok h
    constructor
    · intro hf
      simp only [InventoryService.ReserveSeat, InventoryService.ReleaseSeat, h, hf]
      exact ⟨h1, h1, h2⟩
    · intro hf
      simp only [InventoryService.ReserveSeat, InventoryService.ReleaseSeat, h, hf]
      exact ⟨h3, h3⟩
  · intro err h
    simp [InventoryService.ConfirmBooking, h]
  · intro r h hor
    simp only [InventoryService.ConfirmBooking, h]
    rcases hor with hexp | hu
    · simp [hexp]
    · by_cases hexp : r.IsExpired env.now = true
      · simp [hexp]
      · simp [hexp, hu]
  · intro r h hexp hu
    constructor
    · intro r1 err hacq
      have hr := (scoped_lock w.redis _ _ _ _ _).1 r1 err hacq
      subst hr
      simp [InventoryService.ConfirmBooking, h, hexp, hu, hacq]
    · intro r1 tok hacq
      obtain ⟨h1, h2, h3⟩ := (scoped_lock w.redis _ _ _ _ _).2 r1 tok hacq
      constructor
      · intro hf
        simp only [InventoryService.ConfirmBooking, h, hexp, hu, hacq, hf]
        simp
        exact ⟨h1, h2⟩
      · intro hf
        simp only [InventoryService.ConfirmBooking, h, hexp, hu, hacq, hf]
        simp
        exact h3

/-- Witness for C18 (amended): a Release flow by `U2` on the seat held by `U1` fails at the
conditional write and still releases its lock. -/
theorem lock_released_on_every_exit_witness :
    (InventoryService.ReleaseSeat exampleConfig (exampleEnv 1002 "t2" "x2") exampleReservedWorld
      "E1" "S-0001" "U2").1.redis = exampleReservedWorld.redis :=
  ((((lock_released_on_every_exit exampleConfig (exampleEnv 1002 "t2" "x2") exampleReservedWorld
      "E1" "S-0001" "U2" "r1" "P1").1.2
    (RedisRepository.AcquireLock exampleReservedWorld.redis false 30 "t2" "E1" "S-0001").1 "t2"
    (by rfl)).1 (by rfl)).2).1

/-! ## Theorems: batch initialisation -/

/-- The character of a decimal digit denotes that digit. -/
lemma digitChar_value (k : Nat) (hk : k < 10) : (Nat.digitChar k).toNat - 48 = k := by
  interval_cases k <;> rfl

/-- The digits produced by `Nat.toDigitsCore` are put in front of the accumulator. -/
lemma toDigitsCore_append (b : Nat) (fuel : Nat) :
    ∀ (n : Nat) (ds : List Char),
      Nat.toDigitsCore b fuel n ds = Nat.toDigitsCore b fuel n [] ++ ds := by
  induction fuel with
  | zero => intro n ds; simp [Nat.toDigitsCore]
  | succ fuel ih =>
    intro n ds
    simp only [Nat.toDigitsCore]
    split
    · simp
    · rw [ih (n / b) (Nat.digitChar (n % b) :: ds), ih (n / b) [Nat.digitChar (n % b)]]
      simp

/-- Appending a digit multiplies the value by ten and adds the digit. -/
lemma digitsValue_append_one (xs : List Char) (c : Char) :
    digitsValue (xs ++ [c]) = digitsValue xs * 10 + (c.toNat - 48) := by
  simp [digitsValue, List.foldl_append]

/-- With enough fuel the digits of a number denote it. -/
lemma digitsValue_toDigitsCore (fuel : Nat) :
    ∀ n, n < fuel → digitsValue (Nat.toDigitsCore 10 fuel n []) = n := by
  induction fuel with
  | zero => intro n h; omega
  | succ fuel ih =>
    intro n h
    simp only [Nat.toDigitsCore]
    split
    · next h0 =>
      have hn : n < 10 := by omega
      have hmod : n % 10 = n := Nat.mod_eq_of_lt hn
      simp [digitsValue, hmod, digitChar_value n hn]
    · next h0 =>
      rw [toDigitsCore_append, digitsValue_append_one, ih (n / 10) (by omega),
        digitChar_value (n % 10) (Nat.mod_lt _ (by decide))]
      omega

/-- The decimal digits of a number denote it. -/
lemma digitsValue_decimal (n : Nat) : digitsValue (decimal n) = n := by
  simp only [decimal, Nat.toDigits]
  exact digitsValue_toDigitsCore (n + 1) n (by omega)

/-- Leading zeros do not change the value. -/
lemma digitsValue_pad (k : Nat) (ds : List Char) :
    digitsValue (List.replicate k '0' ++ ds) = digitsValue ds := by
  induction k with
  | zero => simp
  | succ k ih =>
    have : ∀ (m : Nat) (acc : Nat), acc = 0 →
        List.foldl (fun acc c => acc * 10 + (Char.toNat c - 48)) acc (List.replicate m '0' ++ ds)
          = List.foldl (fun acc c => acc * 10 + (Char.toNat c - 48)) 0 ds := by
      intro m
      induction m with
      | zero => intro acc h; subst h; simp
      | succ m ihm =>
        intro acc h
        subst h
        simp only [List.replicate_succ, List.cons_append, List.foldl_cons]
        exact ihm _ (by decide)
    exact this (k + 1) 0 rfl

/-- Distinct numbers get distinct seat numbers. -/
lemma seatNumberOf_injective (i j : Nat) (h : seatNumberOf i = seatNumberOf j) : i = j := by
  have hd := congrArg String.data h
  simp only [seatNumberOf, List.append_assoc, List.cons_append,
    List.nil_append, List.cons.injEq, true_and] at hd
  have hv := congrArg digitsValue hd
  rwa [digitsValue_pad, digitsValue_pad, digitsValue_decimal, digitsValue_decimal] at hv

/-- Put requests leave alone every key that none of them addresses. -/
lemma putSeats_other (rows : List Seat) :
    ∀ (db : DynamoDB) (k : String × String),
      (∀ row ∈ rows, (row.EventID, row.SeatNumber) ≠ k) →
      (rows.foldl DynamoDB.putSeat db).seats k = db.seats k := by
  induction rows with
  | nil => intro db k _; rfl
  | cons row rest ih =>
    intro db k h
    simp only [List.foldl_cons]
    rw [ih (db.putSeat row) k (fun x hx => h x (List.mem_cons_of_mem _ hx))]
    have hne : ¬ k = (row.EventID, row.SeatNumber) :=
      fun hk => h row (List.mem_cons_self _ _) hk.symm
    simp [DynamoDB.putSeat, hne]

/-- Put requests leave the reservations and bookings tables alone. -/
lemma putSeats_tables (rows : List Seat) :
    ∀ (db : DynamoDB), (rows.foldl DynamoDB.putSeat db).reservations = db.reservations ∧
      (rows.foldl DynamoDB.putSeat db).bookings = db.bookings := by
  induction rows with
  | nil => intro db; exact ⟨rfl, rfl⟩
  | cons row rest ih =>
    intro db
    simp only [List.foldl_cons]
    rw [(ih (db.putSeat row)).1, (ih (db.putSeat row)).2]
    exact ⟨rfl, rfl⟩

/-- A batch of put requests leaves alone every key that no request addresses. -/
lemma batchWriteItem_other (unprocessed : Seat → Bool) (rows : List Seat) (db : DynamoDB)
    (k : String × String) (h : ∀ row ∈ rows, (row.EventID, row.SeatNumber) ≠ k) :
    (db.BatchWriteItem unprocessed rows).1.seats k = db.seats k :=
  putSeats_other _ db k (fun row hrow => h row (List.mem_of_mem_filter hrow))

/-- A batch of put requests leaves the reservations and bookings tables alone. -/
lemma batchWriteItem_tables (unprocessed : Seat → Bool) (rows : List Seat) (db : DynamoDB) :
    (db.BatchWriteItem unprocessed rows).1.reservations = db.reservations ∧
    (db.BatchWriteItem unprocessed rows).1.bookings = db.bookings :=
  putSeats_tables _ db

/-- A batch that leaves no request unprocessed puts every row, in order. -/
lemma batchWriteItem_processed (unprocessed : Seat → Bool) (rows : List Seat) (db : DynamoDB)
    (h : ∀ row, unprocessed row = false) :
    (db.BatchWriteItem unprocessed rows).1 = rows.foldl DynamoDB.putSeat db := by
  have hf : rows.filter (fun row => !unprocessed row) = rows := by
    apply List.filter_eq_self.mpr
    intro row _
    simp [h row]
  simp only [DynamoDB.BatchWriteItem, hf]

/-- After the put requests of the fresh rows of the indices `js`, the seat numbered `j + 1`
holds the fresh row of index `j`, for every `j` among them. -/
lemma putSeats_initialSeats (now : Int) (eventID : String) (price : Float64)
    (js : List Nat) :
    ∀ (db : DynamoDB) (j : Nat), j ∈ js →
      ((js.map (initialSeat now eventID price)).foldl DynamoDB.putSeat db).seats
        (eventID, seatNumberOf (j + 1)) = some (initialSeat now eventID price j) := by
  induction js with
  | nil => intro db j hj; simp at hj
  | cons j0 rest ih =>
    intro db j hj
    simp only [List.map_cons, List.foldl_cons]
    by_cases hrest : j ∈ rest
    · exact ih (db.putSeat (initialSeat now eventID price j0)) j hrest
    · have hj0 : j = j0 := by
        rcases List.mem_cons.mp hj with h | h
        · exact h
        · exact absurd h hrest
      subst hj0
      rw [putSeats_other (rest.map (initialSeat now eventID price))
        (db.putSeat (initialSeat now eventID price j)) (eventID, seatNumberOf (j + 1))
        (by
          intro row hrow
          obtain ⟨i, hi, rfl⟩ := List.mem_map.mp hrow
          intro hk
          simp only [initialSeat, Prod.mk.injEq, true_and] at hk
          have := seatNumberOf_injective _ _ hk
          have hij : i = j := by omega
          exact hrest (hij ▸ hi))]
      simp [DynamoDB.putSeat, initialSeat]

/-- With no batch faulting, no request left unprocessed and enough iterations, the loop of
`InitializeSeats` started at index `i` puts the fresh rows of the indices `i .. count - 1`, in
order, and adds their number to the count of seats created. -/
lemma initializeSeats_loop_all (batchFault : Nat → Bool) (hok : ∀ k, batchFault k = false)
    (unprocessed : Nat → Seat → Bool) (hall : ∀ k row, unprocessed k row = false)
    (now : Int) (eventID : String) (count : Nat) (price : Float64) (fuel : Nat) :
    ∀ (i : Nat) (created : Int) (db : DynamoDB), count - i ≤ fuel →
      InitializeSeats.loop batchFault unprocessed now eventID (count : Int) price fuel i
          created db =
        (((List.range' i (count - i)).map (initialSeat now eventID price)).foldl
            DynamoDB.putSeat db,
          created + ((count - i : Nat) : Int), none) := by
  induction fuel with
  | zero =>
    intro i created db h
    have h0 : count - i = 0 := by omega
    simp [InitializeSeats.loop, h0]
  | succ fuel ih =>
    intro i created db h
    simp only [InitializeSeats.loop, hok, Bool.false_eq_true, if_false,
      batchWriteItem_processed _ _ _ (hall _)]
    by_cases hi : (i : Int) < (count : Int)
    · have hi2 : i < count := by exact_mod_cast hi
      simp only [hi, if_true]
      rw [ih (i + 25) _ _ (by omega)]
      by_cases h25 : ((i + 25 : Nat) : Int) > (count : Int)
      · have h25n : count < i + 25 := by exact_mod_cast h25
        have hz : count - (i + 25) = 0 := by omega
        simp only [h25, if_true, Int.toNat_ofNat, hz, List.range'_zero, List.map_nil,
          List.length_map, List.length_range', List.foldl_nil]
        simp
      · have h25n : i + 25 ≤ count := by
          have : ¬ count < i + 25 := fun hlt => h25 (by exact_mod_cast hlt)
          omega
        have hsplit : List.range' i (count - i) =
            List.range' i 25 ++ List.range' (i + 25) (count - (i + 25)) := by
          have := List.range'_append i 25 (count - (i + 25)) 1
          simp only [mul_one, Nat.one_mul] at this
          rw [this]
          congr 1
          omega
        simp only [h25, if_false, Nat.add_sub_cancel_left, List.length_map, List.length_range',
          hsplit, List.map_append, List.foldl_append]
        refine Prod.ext rfl (Prod.ext ?_ rfl)
        simp only
        push_cast
        omega
    · have hi2 : count ≤ i := by
        have : ¬ i < count := fun hlt => hi (by exact_mod_cast hlt)
        omega
      have h0 : count - i = 0 := by omega
      simp [hi, h0]

/-- `InitializeSeats(event, count, price)` with `count ≥ 0`, no batch write failing and no
put request left unprocessed returns `count` and no error, and writes exactly the `count`
seats numbered `seatNumberOf j` for `1 ≤ j ≤ count` (that is `S-` and `j` zero-padded to four
digits): each of these rows is AVAILABLE at version 0 with the given price and no `user_id` or
`reserved_at`, the numbers are pairwise distinct, and every other row of the store is left as
it was.  The count is bounded so that the loop index `i + batchSize` fits a Go `int`. -/
lemma initializeSeats_all_processed (db : DynamoDB) (batchFault : Nat → Bool)
    (unprocessed : Nat → Seat → Bool)
    (now : Int) (eventID : String) (totalSeats : Int) (price : Float64)
    (hcount : 0 ≤ totalSeats) (_hbound : totalSeats + 25 ≤ maxInt64)
    (hok : ∀ k, batchFault k = false) (hall : ∀ k row, unprocessed k row = false) :
    (DynamoDBRepository.InitializeSeats db batchFault unprocessed now eventID totalSeats
      price).2.1 = totalSeats ∧
    (DynamoDBRepository.InitializeSeats db batchFault unprocessed now eventID totalSeats
      price).2.2 = none ∧
    (∀ j : Nat, 1 ≤ j → (j : Int) ≤ totalSeats →
      ∃ row, (DynamoDBRepository.InitializeSeats db batchFault unprocessed now eventID totalSeats
          price).1.seats (eventID, seatNumberOf j) = some row ∧
        row.EventID = eventID ∧ row.SeatNumber = seatNumberOf j ∧ row.Status = .AVAILABLE ∧
        row.Version = 0 ∧ row.Price = price ∧ row.UserID = none ∧ row.ReservedAt = none) ∧
    (∀ i j : Nat, seatNumberOf i = seatNumberOf j → i = j) ∧
    (∀ k, (∀ j : Nat, 1 ≤ j → (j : Int) ≤ totalSeats → k ≠ (eventID, seatNumberOf j)) →
      (DynamoDBRepository.InitializeSeats db batchFault unprocessed now eventID totalSeats
        price).1.seats k = db.seats k) ∧
    (DynamoDBRepository.InitializeSeats db batchFault unprocessed now eventID totalSeats
      price).1.reservations = db.reservations ∧
    (DynamoDBRepository.InitializeSeats db batchFault unprocessed now eventID totalSeats
      price).1.bookings = db.bookings := by
  obtain ⟨count, rfl⟩ := Int.eq_ofNat_of_zero_le hcount
  have hrun : DynamoDBRepository.InitializeSeats db batchFault unprocessed now eventID
      (count : Int) price =
      (((List.range' 0 count).map (initialSeat now eventID price)).foldl DynamoDB.putSeat db,
        (count : Int), none) := by
    simp only [DynamoDBRepository.InitializeSeats, Int.toNat_ofNat]
    rw [initializeSeats_loop_all batchFault hok unprocessed hall now eventID count price count
      0 0 db (by omega)]
    simp
  rw [hrun]
  refine ⟨rfl, rfl, ?_, seatNumberOf_injective, ?_, ?_, ?_⟩
  · intro j hj1 hj2
    have hj3 : j ≤ count := by exact_mod_cast hj2
    have hmem : j - 1 ∈ List.range' 0 count := by
      simp only [List.mem_range'_1]
      omega
    have h := putSeats_initialSeats now eventID price (List.range' 0 count) db (j - 1) hmem
    have hjj : j - 1 + 1 = j := by omega
    rw [hjj] at h
    refine ⟨_, h, ?_⟩
    simp [initialSeat, hjj]
  · intro k hk
    apply putSeats_other
    intro row hrow
    obtain ⟨i, hi, rfl⟩ := List.mem_map.mp hrow
    simp only [List.mem_range'_1] at hi
    intro heq
    exact hk (i + 1) (by omega) (by exact_mod_cast (by omega : i + 1 ≤ count))
      (by simpa [initialSeat] using heq.symm)
  · exact (putSeats_tables _ db).1
  · exact (putSeats_tables _ db).2

/-- C15, the code at the failing input.  `InitializeSeats("E1", 30, 100)` on the empty store,
neither `BatchWriteItem` call returning an error, the second call handing back the put
requests of `S-0029` and `S-0030` as unprocessed: the output of the call is discarded and
`len(writeRequests)` is added to the count, so the call returns 30 and no error, while the
store holds 28 seats of the event: `S-0028` is there, `S-0029` and `S-0030` are not. -/
theorem initializeSeats_counts_unprocessed_items :
    (DynamoDBRepository.InitializeSeats DynamoDB.empty (fun _ => false) exampleUnprocessed
      1000 "E1" 30 100).2.1 = 30 ∧
    (DynamoDBRepository.InitializeSeats DynamoDB.empty (fun _ => false) exampleUnprocessed
      1000 "E1" 30 100).2.2 = none ∧
    ((List.range 31).filter (fun j =>
        ((DynamoDBRepository.InitializeSeats DynamoDB.empty (fun _ => false) exampleUnprocessed
          1000 "E1" 30 100).1.seats ("E1", seatNumberOf j)).isSome)
      = (List.range 29).tail) ∧
    ((DynamoDBRepository.InitializeSeats DynamoDB.empty (fun _ => false) exampleUnprocessed
      1000 "E1" 30 100).1.seats ("E1", "S-0028")).map Seat.Status = some .AVAILABLE ∧
    (DynamoDBRepository.InitializeSeats DynamoDB.empty (fun _ => false) exampleUnprocessed
      1000 "E1" 30 100).1.seats ("E1", "S-0029") = none ∧
    (DynamoDBRepository.InitializeSeats DynamoDB.empty (fun _ => false) exampleUnprocessed
      1000 "E1" 30 100).1.seats ("E1", "S-0030") = none ∧
    (DynamoDB.empty.BatchWriteItem (exampleUnprocessed 1)
      ((List.range' 25 5).map (initialSeat 1000 "E1" 100))).2.map Seat.SeatNumber
      = ["S-0029", "S-0030"] := by
  decide

/-! ## What a flow may write -/

/-- The catalog after the body of the Reserve flow: either nothing is written, or the seat was
AVAILABLE and its row is rewritten, not to BOOKED, with the bookings untouched; and then
either the new reservation of that seat is stored and the seat is RESERVED, or the
reservations are untouched. -/
lemma reserveBody_cases (cfg : Config) (env : Env) (db : DynamoDB)
    (eventID seatNumber userID : String) :
    (InventoryService.ReserveSeat.body cfg env db eventID seatNumber userID).1 = db ∨
    ∃ seat0 row1, db.seats (eventID, seatNumber) = some seat0 ∧ seat0.Status = .AVAILABLE ∧
      (InventoryService.ReserveSeat.body cfg env db eventID seatNumber userID).1.seats =
        (fun k => if k = (eventID, seatNumber) then some row1 else db.seats k) ∧
      (InventoryService.ReserveSeat.body cfg env db eventID seatNumber userID).1.bookings
        = db.bookings ∧
      row1.Status ≠ .BOOKED ∧
      (((InventoryService.ReserveSeat.body cfg env db eventID seatNumber userID).1.reservations =
          (fun k => if k = env.newID then
            some (NewReservation env.now env.nsec env.newID eventID seatNumber userID
              seat0.Price cfg.ReservationTTLMinutes)
            else db.reservations k) ∧ row1.Status = .RESERVED) ∨
       (InventoryService.ReserveSeat.body cfg env db eventID seatNumber userID).1.reservations
          = db.reservations) := by
  unfold InventoryService.ReserveSeat.body
  unfold DynamoDBRepository.GetSeat DynamoDBRepository.ReserveSeat DynamoDB.UpdateItemSeat
    DynamoDBRepository.CreateReservation DynamoDBRepository.ReleaseSeat DynamoDB.UpdateItemSeat
  cases hf1 : env.faults.GetSeat
  swap
  · left; simp
  cases hs : db.seats (eventID, seatNumber) with
  | none => left; simp
  | some seat0 =>
    by_cases hrg : minInt64 ≤ seat0.Version ∧ seat0.Version ≤ maxInt64
    swap
    · left; simp [hrg]
    by_cases hst : seat0.Status = .AVAILABLE
    swap
    · left; simp [hst, hrg]
    cases hf2 : env.faults.ReserveSeat
    swap
    · left; simp [hst, hrg]
    cases hf3 : env.faults.CreateReservation
    · right
      refine ⟨seat0, { seat0 with Status := .RESERVED, UserID := some userID,
                                  ReservedAt := some env.now,
                                  Version := wrapInt64 (seat0.Version + 1),
                                  UpdatedAt := env.now },
        rfl, hst, ?_⟩
      simp [hst, hrg, NewReservation]
    · cases hf4 : env.faults.ReleaseSeat
      · right
        refine ⟨seat0, { seat0 with Status := .AVAILABLE, UserID := none,
                                    ReservedAt := none,
                                    Version := wrapInt64 (seat0.Version + 1) + 1,
                                    UpdatedAt := env.now },
          rfl, hst, ?_⟩
        simp [hst, hrg]
        funext k
        by_cases hk : k = (eventID, seatNumber)
        · simp [hk]
        · simp [hk]
      · right
        refine ⟨seat0, { seat0 with Status := .RESERVED, UserID := some userID,
                                    ReservedAt := some env.now,
                                    Version := wrapInt64 (seat0.Version + 1),
                                    UpdatedAt := env.now },
          rfl, hst, ?_⟩
        simp [hst, hrg]


/-- The catalog after the Reserve flow is the one its body leaves, or untouched. -/
lemma reserveFlow_db (cfg : Config) (env : Env) (w : World)
    (eventID seatNumber userID : String) :
    (InventoryService.ReserveSeat cfg env w eventID seatNumber userID).1.db = w.db ∨
    (InventoryService.ReserveSeat cfg env w eventID seatNumber userID).1.db =
      (InventoryService.ReserveSeat.body cfg env w.db eventID seatNumber userID).1 := by
  rcases hacq : RedisRepository.AcquireLock w.redis env.faults.AcquireLock cfg.RedisLockTTL
    env.lockToken eventID seatNumber with ⟨redis1, err | tok⟩
  · left; simp [InventoryService.ReserveSeat, hacq]
  · right; simp [InventoryService.ReserveSeat, hacq]

/-- The catalog after the Release flow: either nothing is written, or the seat was RESERVED
and its row is rewritten to AVAILABLE, with the reservations and bookings untouched. -/
lemma releaseFlow_cases (cfg : Config) (env : Env) (w : World)
    (eventID seatNumber userID : String) :
    (InventoryService.ReleaseSeat cfg env w eventID seatNumber userID).1.db = w.db ∨
    ∃ seat1 row1, w.db.seats (eventID, seatNumber) = some seat1 ∧ seat1.Status = .RESERVED ∧
      row1.Status = .AVAILABLE ∧
      (InventoryService.ReleaseSeat cfg env w eventID seatNumber userID).1.db.seats =
        (fun k => if k = (eventID, seatNumber) then some row1 else w.db.seats k) ∧
      (InventoryService.ReleaseSeat cfg env w eventID seatNumber userID).1.db.reservations
        = w.db.reservations ∧
      (InventoryService.ReleaseSeat cfg env w eventID seatNumber userID).1.db.bookings
        = w.db.bookings := by
  rcases hacq : RedisRepository.AcquireLock w.redis env.faults.AcquireLock cfg.RedisLockTTL
    env.lockToken eventID seatNumber with ⟨redis1, err | tok⟩
  · left; simp [InventoryService.ReleaseSeat, hacq]
  · simp only [InventoryService.ReleaseSeat, hacq]
    unfold DynamoDBRepository.ReleaseSeat DynamoDB.UpdateItemSeat
    cases hf : env.faults.ReleaseSeat
    swap
    · left; simp
    cases hs : w.db.seats (eventID, seatNumber) with
    | none => left; simp
    | some seat1 =>
      by_cases hc : seat1.Status = .RESERVED ∧ seat1.UserID = some userID
      · right
        refine ⟨seat1, { seat1 with Status := .AVAILABLE, Version := seat1.Version + 1,
                                    UpdatedAt := env.now, UserID := none,
                                    ReservedAt := none },
          rfl, hc.1, rfl, ?_⟩
        simp [hc.1, hc.2]
      · left
        simp only [Bool.false_eq_true, if_false, Bool.and_eq_true, decide_eq_true_eq]
        rw [if_neg hc]
        simp

/-- The catalog after the body of the Confirm flow: either nothing is written, or the seat of
the reservation was RESERVED and its row is rewritten to BOOKED; then the bookings are
untouched or gain the booking of that seat under the drawn identifier, and the reservations
are untouched or the reservation's row has its status set to CONFIRMED. -/
lemma confirmBody_cases (env : Env) (db : DynamoDB) (r : Reservation)
    (rid userID paymentID : String) (hr : db.reservations rid = some r) :
    (InventoryService.ConfirmBooking.body env db r rid userID paymentID).1 = db ∨
    ∃ seat1 row1, db.seats (r.EventID, r.SeatNumber) = some seat1 ∧
      seat1.Status = .RESERVED ∧ row1.Status = .BOOKED ∧
      (InventoryService.ConfirmBooking.body env db r rid userID paymentID).1.seats =
        (fun k => if k = (r.EventID, r.SeatNumber) then some row1 else db.seats k) ∧
      ((InventoryService.ConfirmBooking.body env db r rid userID paymentID).1.bookings
          = db.bookings ∨
        (InventoryService.ConfirmBooking.body env db r rid userID paymentID).1.bookings =
          (fun k => if k = env.newID then
            some { BookingID := env.newID, EventID := r.EventID, SeatNumber := r.SeatNumber,
                   UserID := r.UserID, Price := r.Price, PaymentID := paymentID,
                   CreatedAt := env.now, Status := "CONFIRMED" }
            else db.bookings k)) ∧
      ((InventoryService.ConfirmBooking.body env db r rid userID paymentID).1.reservations
          = db.reservations ∨
        (InventoryService.ConfirmBooking.body env db r rid userID paymentID).1.reservations =
          (fun k => if k = rid then some { r with Status := "CONFIRMED" }
            else db.reservations k)) := by
  unfold InventoryService.ConfirmBooking.body
  unfold DynamoDBRepository.ConfirmSeat DynamoDB.UpdateItemSeat DynamoDBRepository.CreateBooking
    DynamoDBRepository.UpdateReservationStatus
  cases hf1 : env.faults.ConfirmSeat
  swap
  · left; simp
  cases hs : db.seats (r.EventID, r.SeatNumber) with
  | none => left; simp
  | some seat1 =>
    by_cases hc : seat1.Status = .RESERVED ∧ seat1.UserID = some userID
    swap
    · left
      simp only [Bool.false_eq_true, if_false, Bool.and_eq_true, decide_eq_true_eq]
      rw [if_neg hc]
    right
    refine ⟨seat1, { seat1 with Status := .BOOKED, Version := seat1.Version + 1,
                                UpdatedAt := env.now },
      rfl, hc.1, rfl, ?_⟩
    cases hf2 : env.faults.CreateBooking
    · cases hf3 : env.faults.UpdateReservationStatus
      · simp [hc.1, hc.2, hr]
      · simp [hc.1, hc.2]
    · simp [hc.1, hc.2]

/-- The catalog after the Confirm flow is the one its body leaves on the stored reservation,
or untouched. -/
lemma confirmFlow_db (cfg : Config) (env : Env) (w : World)
    (rid userID paymentID : String) :
    (InventoryService.ConfirmBooking cfg env w rid userID paymentID).1.db = w.db ∨
    ∃ r, w.db.reservations rid = some r ∧
      (InventoryService.ConfirmBooking cfg env w rid userID paymentID).1.db =
        (InventoryService.ConfirmBooking.body env w.db r rid userID paymentID).1 := by
  unfold InventoryService.ConfirmBooking DynamoDBRepository.GetReservation
  cases hf : env.faults.GetReservation
  swap
  · left; simp
  cases hr : w.db.reservations rid with
  | none => left; simp
  | some r =>
    by_cases hexp : r.IsExpired env.now = true
    · left; simp [hexp]
    by_cases hu : r.UserID = userID
    swap
    · left; simp [hexp, hu]
    rcases hacq : RedisRepository.AcquireLock w.redis env.faults.AcquireLock cfg.RedisLockTTL
      env.lockToken r.EventID r.SeatNumber with ⟨redis1, err | tok⟩
    · left; simp [hexp, hu, hacq]
    · right
      exact ⟨r, rfl, by simp [hexp, hu, hacq]⟩


/-! ## Bookings along sequences of flows -/

/-- Rewriting the row of a seat that is not BOOKED, with the bookings untouched, keeps the
bookings invariant. -/
lemma bookingInv_seat_rewrite (db out : DynamoDB) (key : String × String) (old row1 : Seat)
    (hold : db.seats key = some old) (hnb : old.Status ≠ .BOOKED)
    (hseats : out.seats = (fun k => if k = key then some row1 else db.seats k))
    (hbook : out.bookings = db.bookings) (h : BookingInv db) : BookingInv out := by
  refine ⟨?_, ?_⟩
  · intro bid b hb
    rw [hbook] at hb
    obtain ⟨seat, hseat, hst⟩ := h.1 bid b hb
    have hk : (b.EventID, b.SeatNumber) ≠ key := by
      intro hk
      rw [hk, hold] at hseat
      cases hseat
      exact hnb hst
    exact ⟨seat, by rw [hseats]; simp only [hk, if_false]; exact hseat, hst⟩
  · intro bid1 bid2 b1 b2 h1 h2
    rw [hbook] at h1 h2
    exact h.2 bid1 bid2 b1 b2 h1 h2

/-- Booking a RESERVED seat and then storing at most the booking of that seat keeps the
bookings invariant. -/
lemma bookingInv_confirm (db out : DynamoDB) (key : String × String) (seat1 row1 : Seat)
    (newID : String) (b : Booking) (hkey : (b.EventID, b.SeatNumber) = key)
    (hold : db.seats key = some seat1) (hst : seat1.Status = .RESERVED)
    (hrow : row1.Status = .BOOKED)
    (hseats : out.seats = (fun k => if k = key then some row1 else db.seats k))
    (hbook : out.bookings = db.bookings ∨
      out.bookings = (fun k => if k = newID then some b else db.bookings k))
    (h : BookingInv db) : BookingInv out := by
  have hfree : ∀ bid b0, db.bookings bid = some b0 → (b0.EventID, b0.SeatNumber) ≠ key := by
    intro bid b0 hb0 hk
    obtain ⟨seat, hseat, hs⟩ := h.1 bid b0 hb0
    rw [hk, hold] at hseat
    cases hseat
    rw [hst] at hs
    cases hs
  have hkeep : ∀ bid b0, db.bookings bid = some b0 →
      ∃ seat, out.seats (b0.EventID, b0.SeatNumber) = some seat ∧ seat.Status = .BOOKED := by
    intro bid b0 hb0
    obtain ⟨seat, hseat, hs⟩ := h.1 bid b0 hb0
    have hk := hfree bid b0 hb0
    exact ⟨seat, by rw [hseats]; simp only [hk, if_false]; exact hseat, hs⟩
  rcases hbook with hbook | hbook
  · refine ⟨?_, ?_⟩
    · intro bid b0 hb0
      rw [hbook] at hb0
      exact hkeep bid b0 hb0
    · intro bid1 bid2 b1 b2 h1 h2
      rw [hbook] at h1 h2
      exact h.2 bid1 bid2 b1 b2 h1 h2
  · refine ⟨?_, ?_⟩
    · intro bid b0 hb0
      rw [hbook] at hb0
      by_cases hid : bid = newID
      · simp only [hid, if_true, Option.some.injEq] at hb0
        subst hb0
        exact ⟨row1, by rw [hseats, hkey]; simp, hrow⟩
      · simp only [hid, if_false] at hb0
        exact hkeep bid b0 hb0
    · intro bid1 bid2 b1 b2 h1 h2 he hs
      rw [hbook] at h1 h2
      by_cases hid1 : bid1 = newID
      · by_cases hid2 : bid2 = newID
        · rw [hid1, hid2]
        · exfalso
          simp only [hid1, if_true, Option.some.injEq] at h1
          simp only [hid2, if_false] at h2
          subst h1
          exact hfree bid2 b2 h2 (by rw [← hkey, he, hs])
      · by_cases hid2 : bid2 = newID
        · exfalso
          simp only [hid2, if_true, Option.some.injEq] at h2
          simp only [hid1, if_false] at h1
          subst h2
          exact hfree bid1 b1 h1 (by rw [← hkey, he, hs])
        · simp only [hid1, if_false] at h1
          simp only [hid2, if_false] at h2
          exact h.2 bid1 bid2 b1 b2 h1 h2 he hs

/-- Every flow keeps the bookings invariant. -/
lemma bookingInv_flow (cfg : Config) (w : World) (op : FlowOp) (h : BookingInv w.db) :
    BookingInv (op.apply cfg w).db := by
  cases op with
  | Reserve env eventID seatNumber userID =>
    simp only [FlowOp.apply]
    rcases reserveFlow_db cfg env w eventID seatNumber userID with hdb | hdb
    · rw [hdb]; exact h
    · rw [hdb]
      rcases reserveBody_cases cfg env w.db eventID seatNumber userID with hsame | hcase
      · rw [hsame]; exact h
      · obtain ⟨seat0, row1, hs0, hav, hseats, hbook, _, _⟩ := hcase
        exact bookingInv_seat_rewrite w.db _ _ seat0 row1 hs0 (by rw [hav]; simp) hseats hbook h
  | Release env eventID seatNumber userID =>
    simp only [FlowOp.apply]
    rcases releaseFlow_cases cfg env w eventID seatNumber userID with hdb | hcase
    · rw [hdb]; exact h
    · obtain ⟨seat1, row1, hs1, hst, _, hseats, _, hbook⟩ := hcase
      exact bookingInv_seat_rewrite w.db _ _ seat1 row1 hs1 (by rw [hst]; simp) hseats hbook h
  | Confirm env rid userID paymentID =>
    simp only [FlowOp.apply]
    rcases confirmFlow_db cfg env w rid userID paymentID with hdb | ⟨r, hr, hdb⟩
    · rw [hdb]; exact h
    · rw [hdb]
      rcases confirmBody_cases env w.db r rid userID paymentID hr with hsame | hcase
      · rw [hsame]; exact h
      · obtain ⟨seat1, row1, hs1, hst, hrow, hseats, hbook, _⟩ := hcase
        exact bookingInv_confirm w.db _ (r.EventID, r.SeatNumber) seat1 row1 env.newID _ rfl
          hs1 hst hrow hseats hbook h
  | LockExpiry key => exact h

/-- Every sequence of flows keeps the bookings invariant. -/
lemma bookingInv_runFlows (cfg : Config) (ops : List FlowOp) :
    ∀ w : World, BookingInv w.db → BookingInv (runFlows cfg w ops).db := by
  induction ops with
  | nil => intro w h; exact h
  | cons op rest ih =>
    intro w h
    simp only [runFlows, List.foldl_cons]
    exact ih _ (bookingInv_flow cfg w op h)


/-- The batch loop of `InitializeSeats` leaves the reservations and bookings tables alone. -/
lemma initializeSeats_loop_tables (batchFault : Nat → Bool)
    (unprocessed : Nat → Seat → Bool) (now : Int) (eventID : String)
    (totalSeats : Int) (price : Float64) (fuel : Nat) :
    ∀ (i : Nat) (created : Int) (db : DynamoDB),
      (InitializeSeats.loop batchFault unprocessed now eventID totalSeats price fuel i created
        db).1.reservations = db.reservations ∧
      (InitializeSeats.loop batchFault unprocessed now eventID totalSeats price fuel i created
        db).1.bookings = db.bookings := by
  induction fuel with
  | zero => intro i created db; exact ⟨rfl, rfl⟩
  | succ fuel ih =>
    intro i created db
    simp only [InitializeSeats.loop]
    split
    · split
      · exact ⟨rfl, rfl⟩
      · refine ⟨((ih _ _ _).1).trans ?_, ((ih _ _ _).2).trans ?_⟩
        · exact (batchWriteItem_tables _ _ db).1
        · exact (batchWriteItem_tables _ _ db).2
    · exact ⟨rfl, rfl⟩

/-- After a successful Confirm, a Confirm of the same reservation id stores no booking. -/
lemma confirm_again_no_booking (cfg : Config) (env1 env2 : Env) (w : World)
    (rid userID1 userID2 paymentID1 paymentID2 bid : String)
    (hfirst : (InventoryService.ConfirmBooking cfg env1 w rid userID1 paymentID1).2 = .ok bid) :
    (InventoryService.ConfirmBooking cfg env2
        (InventoryService.ConfirmBooking cfg env1 w rid userID1 paymentID1).1
        rid userID2 paymentID2).1.db.bookings =
      (InventoryService.ConfirmBooking cfg env1 w rid userID1 paymentID1).1.db.bookings := by
  obtain ⟨r, hr, _, _, _, hbody, hdb, _⟩ :=
    confirmFlow_ok cfg env1 w rid userID1 paymentID1 bid hfirst
  obtain ⟨seat1, _, _, _, _, hseats, _, st1, hres⟩ :=
    confirmBody_ok env1 w.db r rid userID1 paymentID1 bid hr hbody
  have hw1r : (InventoryService.ConfirmBooking cfg env1 w rid userID1 paymentID1).1.db.reservations
      rid = some { r with Status := st1 } := by
    rw [hdb, hres]; simp
  have hw1s : (InventoryService.ConfirmBooking cfg env1 w rid userID1 paymentID1).1.db.seats
      (r.EventID, r.SeatNumber) =
        some { seat1 with Status := .BOOKED, Version := seat1.Version + 1,
                          UpdatedAt := env1.now } := by
    rw [hdb, hseats]; simp
  rcases confirmFlow_db cfg env2
      (InventoryService.ConfirmBooking cfg env1 w rid userID1 paymentID1).1
      rid userID2 paymentID2 with h2 | ⟨r2, hr2, h2⟩
  · rw [h2]
  · rw [h2]
    rw [hw1r] at hr2
    cases hr2
    rcases confirmBody_cases env2 _ { r with Status := st1 } rid userID2 paymentID2 hw1r
      with hsame | ⟨seat2, _, hs2, hst2, _⟩
    · rw [hsame]
    · exfalso
      rw [hw1s] at hs2
      cases hs2
      cases hst2

/-- C11. In every state reached from one `InitializeSeats` on the empty catalog by any
sequence of Reserve, Release and Confirm flows, each with any faults (and with lock expiries
between them), no two bookings with status CONFIRMED belong to the same (event, seat); and a
second Confirm of a reservation id whose Confirm has just succeeded creates no booking. -/
theorem at_most_one_confirmed_booking_per_seat (cfg : Config) (redis0 : Redis)
    (batchFault : Nat → Bool) (unprocessed : Nat → Seat → Bool) (now : Int) (eventID : String)
    (totalSeats : Int)
    (price : Float64) (ops : List FlowOp) :
    (∀ bid1 bid2 b1 b2,
      (runFlows cfg (InventoryService.InitializeSeats { db := DynamoDB.empty, redis := redis0 }
        batchFault unprocessed now eventID totalSeats price).1 ops).db.bookings bid1 = some b1 →
      (runFlows cfg (InventoryService.InitializeSeats { db := DynamoDB.empty, redis := redis0 }
        batchFault unprocessed now eventID totalSeats price).1 ops).db.bookings bid2 = some b2 →
      b1.Status = "CONFIRMED" → b2.Status = "CONFIRMED" →
      b1.EventID = b2.EventID → b1.SeatNumber = b2.SeatNumber → bid1 = bid2) ∧
    (∀ (env1 env2 : Env) (rid userID1 userID2 paymentID1 paymentID2 bid : String),
      (InventoryService.ConfirmBooking cfg env1
        (runFlows cfg (InventoryService.InitializeSeats { db := DynamoDB.empty, redis := redis0 }
          batchFault unprocessed now eventID totalSeats
            price).1 ops) rid userID1 paymentID1).2 = .ok bid →
      (InventoryService.ConfirmBooking cfg env2
        (InventoryService.ConfirmBooking cfg env1
          (runFlows cfg (InventoryService.InitializeSeats
            { db := DynamoDB.empty, redis := redis0 }
            batchFault unprocessed now eventID totalSeats price).1 ops) rid userID1 paymentID1).1
        rid userID2 paymentID2).1.db.bookings =
      (InventoryService.ConfirmBooking cfg env1
        (runFlows cfg (InventoryService.InitializeSeats { db := DynamoDB.empty, redis := redis0 }
          batchFault unprocessed now eventID totalSeats
            price).1 ops) rid userID1 paymentID1).1.db.bookings)
    := by
  constructor
  · have hinit : BookingInv (InventoryService.InitializeSeats
        { db := DynamoDB.empty, redis := redis0 } batchFault unprocessed now eventID totalSeats
          price).1.db
        := by
      have hb := (initializeSeats_loop_tables batchFault unprocessed now eventID totalSeats price
        totalSeats.toNat 0 0 DynamoDB.empty).2
      have hb2 : ∀ bid, (InventoryService.InitializeSeats
          { db := DynamoDB.empty, redis := redis0 } batchFault unprocessed now eventID totalSeats
          price).1.db.bookings bid = none := by
        intro bid
        simp only [InventoryService.InitializeSeats, DynamoDBRepository.InitializeSeats, hb]
        rfl
      refine ⟨?_, ?_⟩
      · intro bid b h
        rw [hb2] at h
        cases h
      · intro bid1 bid2 b1 b2 h
        rw [hb2] at h
        cases h
    have hinv := bookingInv_runFlows cfg ops _ hinit
    intro bid1 bid2 b1 b2 h1 h2 _ _ he hs
    exact hinv.2 bid1 bid2 b1 b2 h1 h2 he hs
  · intro env1 env2 rid userID1 userID2 paymentID1 paymentID2 bid hfirst
    exact confirm_again_no_booking cfg env1 env2 _ rid userID1 userID2 paymentID1 paymentID2
      bid hfirst

/-- Witness for C11: after `exampleFlows` on three fresh seats the only booking is `b1`. -/
theorem at_most_one_confirmed_booking_per_seat_witness :
    ((runFlows exampleConfig exampleWorld exampleFlows).db.bookings "b1").map
      (fun b => (b.SeatNumber, b.Status)) = some ("S-0001", "CONFIRMED") ∧
    (runFlows exampleConfig exampleWorld exampleFlows).db.bookings "b2" = none ∧
    ∀ bid1 bid2 b1 b2,
      (runFlows exampleConfig exampleWorld exampleFlows).db.bookings bid1 = some b1 →
      (runFlows exampleConfig exampleWorld exampleFlows).db.bookings bid2 = some b2 →
      b1.Status = "CONFIRMED" → b2.Status = "CONFIRMED" →
      b1.EventID = b2.EventID → b1.SeatNumber = b2.SeatNumber → bid1 = bid2 :=
  ⟨by decide, by decide,
   (at_most_one_confirmed_booking_per_seat exampleConfig Redis.empty (fun _ => false)
      (fun _ _ => false) 1000
      "E1" 3 100 exampleFlows).1⟩


/-! ## Reservations along sequences of flows -/

/-- Rewriting the row of an AVAILABLE seat and then storing at most the reservation of that
seat, the seat then not being AVAILABLE, keeps the reservations invariant. -/
lemma reservationInv_reserve (db out : DynamoDB) (key : String × String) (seat0 row1 : Seat)
    (newID : String) (r : Reservation) (hkey : (r.EventID, r.SeatNumber) = key)
    (hold : db.seats key = some seat0) (hav : seat0.Status = .AVAILABLE)
    (hseats : out.seats = (fun k => if k = key then some row1 else db.seats k))
    (hres : (out.reservations = (fun k => if k = newID then some r else db.reservations k) ∧
        row1.Status = .RESERVED) ∨ out.reservations = db.reservations)
    (h : ReservationInv db) : ReservationInv out := by
  have hfree : ∀ rid r0, db.reservations rid = some r0 →
      (r0.EventID, r0.SeatNumber) ≠ key := by
    intro rid r0 hr0 hk
    obtain ⟨seat, hseat, hs⟩ := h.1 rid r0 hr0
    rw [hk, hold] at hseat
    cases hseat
    exact hs hav
  have hkeep : ∀ rid r0, db.reservations rid = some r0 →
      ∃ seat, out.seats (r0.EventID, r0.SeatNumber) = some seat ∧ seat.Status ≠ .AVAILABLE := by
    intro rid r0 hr0
    obtain ⟨seat, hseat, hs⟩ := h.1 rid r0 hr0
    have hk := hfree rid r0 hr0
    exact ⟨seat, by rw [hseats]; simp only [hk, if_false]; exact hseat, hs⟩
  rcases hres with ⟨hres, hrow⟩ | hres
  · refine ⟨?_, ?_⟩
    · intro rid r0 hr0
      rw [hres] at hr0
      by_cases hid : rid = newID
      · simp only [hid, if_true, Option.some.injEq] at hr0
        subst hr0
        exact ⟨row1, by rw [hseats, hkey]; simp, by rw [hrow]; simp⟩
      · simp only [hid, if_false] at hr0
        exact hkeep rid r0 hr0
    · intro rid1 rid2 r1 r2 h1 h2 he hs
      rw [hres] at h1 h2
      by_cases hid1 : rid1 = newID
      · by_cases hid2 : rid2 = newID
        · rw [hid1, hid2]
        · exfalso
          simp only [hid1, if_true, Option.some.injEq] at h1
          simp only [hid2, if_false] at h2
          subst h1
          exact hfree rid2 r2 h2 (by rw [← hkey, he, hs])
      · by_cases hid2 : rid2 = newID
        · exfalso
          simp only [hid2, if_true, Option.some.injEq] at h2
          simp only [hid1, if_false] at h1
          subst h2
          exact hfree rid1 r1 h1 (by rw [← hkey, he, hs])
        · simp only [hid1, if_false] at h1
          simp only [hid2, if_false] at h2
          exact h.2 rid1 rid2 r1 r2 h1 h2 he hs
  · refine ⟨?_, ?_⟩
    · intro rid r0 hr0
      rw [hres] at hr0
      exact hkeep rid r0 hr0
    · intro rid1 rid2 r1 r2 h1 h2
      rw [hres] at h1 h2
      exact h.2 rid1 rid2 r1 r2 h1 h2

/-- Rewriting a seat's row to one that is not AVAILABLE and then changing at most the status
of a stored reservation keeps the reservations invariant. -/
lemma reservationInv_confirm (db out : DynamoDB) (key : String × String) (row1 : Seat)
    (rid : String) (r : Reservation) (st : String) (hr : db.reservations rid = some r)
    (hrow : row1.Status ≠ .AVAILABLE)
    (hseats : out.seats = (fun k => if k = key then some row1 else db.seats k))
    (hres : out.reservations = db.reservations ∨
      out.reservations =
        (fun k => if k = rid then some { r with Status := st } else db.reservations k))
    (h : ReservationInv db) : ReservationInv out := by
  have hback : ∀ rid1 r1, out.reservations rid1 = some r1 →
      ∃ r0, db.reservations rid1 = some r0 ∧ r0.EventID = r1.EventID ∧
        r0.SeatNumber = r1.SeatNumber := by
    intro rid1 r1 h1
    rcases hres with hres | hres
    · rw [hres] at h1
      exact ⟨r1, h1, rfl, rfl⟩
    · rw [hres] at h1
      by_cases hid : rid1 = rid
      · simp only [hid, if_true, Option.some.injEq] at h1
        subst h1
        exact ⟨r, by rw [hid]; exact hr, rfl, rfl⟩
      · simp only [hid, if_false] at h1
        exact ⟨r1, h1, rfl, rfl⟩
  refine ⟨?_, ?_⟩
  · intro rid1 r1 h1
    obtain ⟨r0, hr0, he, hs⟩ := hback rid1 r1 h1
    obtain ⟨seat, hseat, hst⟩ := h.1 rid1 r0 hr0
    rw [he, hs] at hseat
    by_cases hk : (r1.EventID, r1.SeatNumber) = key
    · exact ⟨row1, by rw [hseats]; simp [hk], hrow⟩
    · exact ⟨seat, by rw [hseats]; simp only [hk, if_false]; exact hseat, hst⟩
  · intro rid1 rid2 r1 r2 h1 h2 he hs
    obtain ⟨r01, hr01, he1, hs1⟩ := hback rid1 r1 h1
    obtain ⟨r02, hr02, he2, hs2⟩ := hback rid2 r2 h2
    exact h.2 rid1 rid2 r01 r02 hr01 hr02 (by rw [he1, he2, he]) (by rw [hs1, hs2, hs])

/-- Every flow other than Release keeps the reservations invariant. -/
lemma reservationInv_flow (cfg : Config) (w : World) (op : FlowOp)
    (hop : op.isRelease = false) (h : ReservationInv w.db) :
    ReservationInv (op.apply cfg w).db := by
  cases op with
  | Reserve env eventID seatNumber userID =>
    simp only [FlowOp.apply]
    rcases reserveFlow_db cfg env w eventID seatNumber userID with hdb | hdb
    · rw [hdb]; exact h
    · rw [hdb]
      rcases reserveBody_cases cfg env w.db eventID seatNumber userID with hsame | hcase
      · rw [hsame]; exact h
      · obtain ⟨seat0, row1, hs0, hav, hseats, _, _, hres⟩ := hcase
        exact reservationInv_reserve w.db _ (eventID, seatNumber) seat0 row1 env.newID
          (NewReservation env.now env.nsec env.newID eventID seatNumber userID seat0.Price
            cfg.ReservationTTLMinutes) rfl hs0 hav hseats hres h
  | Release env eventID seatNumber userID => simp [FlowOp.isRelease] at hop
  | Confirm env rid userID paymentID =>
    simp only [FlowOp.apply]
    rcases confirmFlow_db cfg env w rid userID paymentID with hdb | ⟨r, hr, hdb⟩
    · rw [hdb]; exact h
    · rw [hdb]
      rcases confirmBody_cases env w.db r rid userID paymentID hr with hsame | hcase
      · rw [hsame]; exact h
      · obtain ⟨seat1, row1, _, _, hrow, hseats, _, hres⟩ := hcase
        exact reservationInv_confirm w.db _ (r.EventID, r.SeatNumber) row1 rid r "CONFIRMED" hr
          (by rw [hrow]; simp) hseats hres h
  | LockExpiry key => exact h

/-- Every sequence of flows without a Release keeps the reservations invariant. -/
lemma reservationInv_runFlows (cfg : Config) (ops : List FlowOp) :
    ∀ w : World, (∀ op ∈ ops, op.isRelease = false) → ReservationInv w.db →
      ReservationInv (runFlows cfg w ops).db := by
  induction ops with
  | nil => intro w _ h; exact h
  | cons op rest ih =>
    intro w hops h
    simp only [runFlows, List.foldl_cons]
    exact ih _ (fun x hx => hops x (List.mem_cons_of_mem _ hx))
      (reservationInv_flow cfg w op (hops op (List.mem_cons_self _ _)) h)

/-- C12, counterexample. The Release flow leaves the reservation of the released seat PENDING:
after `U1` reserved and released `S-0001` and `U2` reserved it, the reservations `r1` and `r2`
are both PENDING for (`E1`, `S-0001`). -/
theorem two_pending_reservations_after_release :
    ((runFlows exampleConfig exampleWorld exampleReleaseFlows).db.reservations "r1").map
      (fun r => (r.EventID, r.SeatNumber, r.UserID, r.Status))
      = some ("E1", "S-0001", "U1", "PENDING") ∧
    ((runFlows exampleConfig exampleWorld exampleReleaseFlows).db.reservations "r2").map
      (fun r => (r.EventID, r.SeatNumber, r.UserID, r.Status))
      = some ("E1", "S-0001", "U2", "PENDING") ∧
    "r1" ≠ "r2" := by
  refine ⟨by decide, by decide, by decide⟩

/-- C12, amended. In every state reached from one `InitializeSeats` on the empty catalog by
any sequence of Reserve and Confirm flows, each with any faults (and with lock expiries
between them) but with no Release flow, no two reservations, and so no two PENDING ones,
belong to the same (event_id, seat_number). -/
theorem at_most_one_pending_reservation_without_release (cfg : Config) (redis0 : Redis)
    (batchFault : Nat → Bool) (unprocessed : Nat → Seat → Bool) (now : Int) (eventID : String)
    (totalSeats : Int)
    (price : Float64) (ops : List FlowOp) (hops : ∀ op ∈ ops, op.isRelease = false) :
    ∀ rid1 rid2 r1 r2,
      (runFlows cfg (InventoryService.InitializeSeats { db := DynamoDB.empty, redis := redis0 }
        batchFault unprocessed now eventID totalSeats price).1 ops).db.reservations rid1
        = some r1 →
      (runFlows cfg (InventoryService.InitializeSeats { db := DynamoDB.empty, redis := redis0 }
        batchFault unprocessed now eventID totalSeats price).1 ops).db.reservations rid2
        = some r2 →
      r1.Status = "PENDING" → r2.Status = "PENDING" →
      r1.EventID = r2.EventID → r1.SeatNumber = r2.SeatNumber → rid1 = rid2 := by
  have hinit : ReservationInv (InventoryService.InitializeSeats
      { db := DynamoDB.empty, redis := redis0 } batchFault unprocessed now eventID totalSeats
        price).1.db
      := by
    have hb := (initializeSeats_loop_tables batchFault unprocessed now eventID totalSeats price
      totalSeats.toNat 0 0 DynamoDB.empty).1
    have hb2 : ∀ rid, (InventoryService.InitializeSeats
        { db := DynamoDB.empty, redis := redis0 } batchFault unprocessed now eventID totalSeats
        price).1.db.reservations rid = none := by
      intro rid
      simp only [InventoryService.InitializeSeats, DynamoDBRepository.InitializeSeats, hb]
      rfl
    refine ⟨?_, ?_⟩
    · intro rid r h
      rw [hb2] at h
      cases h
    · intro rid1 rid2 r1 r2 h
      rw [hb2] at h
      cases h
  have hinv := reservationInv_runFlows cfg ops _ hops hinit
  intro rid1 rid2 r1 r2 h1 h2 _ _ he hs
  exact hinv.2 rid1 rid2 r1 r2 h1 h2 he hs

/-- Witness for C12 (amended): `exampleNoReleaseFlows` on three fresh seats. -/
theorem at_most_one_pending_reservation_without_release_witness :
    ((runFlows exampleConfig exampleWorld exampleNoReleaseFlows).db.reservations "r3").map
      (fun r => (r.SeatNumber, r.Status)) = some ("S-0002", "PENDING") ∧
    ∀ rid1 rid2 r1 r2,
      (runFlows exampleConfig exampleWorld exampleNoReleaseFlows).db.reservations rid1
        = some r1 →
      (runFlows exampleConfig exampleWorld exampleNoReleaseFlows).db.reservations rid2
        = some r2 →
      r1.Status = "PENDING" → r2.Status = "PENDING" →
      r1.EventID = r2.EventID → r1.SeatNumber = r2.SeatNumber → rid1 = rid2 :=
  ⟨by decide,
   at_most_one_pending_reservation_without_release exampleConfig Redis.empty (fun _ => false)
     (fun _ _ => false) 1000 "E1" 3 100 exampleNoReleaseFlows (by decide)⟩

end Ticketing
